/-
  Verification of the gqss sequence-alignment program (ednafull_linear_smith_waterman).

  This file gives a shallow embedding, in Lean 4, of the C sources:
    - the EDNAFULL/NUC4.4 substitution table and its lookup function
      (ednafull_linear_smith_waterman.c),
    - DNA base complementing and reverse complement,
    - the Smith-Waterman scoring kernel with linear gap penalty, the
      best-cell locator and the traceback engine (linear_gap_smith_waterman.c),
    - the mismatch/gap counter and the pair-format coordinate tracking
      (gqss_alignment_format.c),
    - the TSV driver score fields (handle_fastq_tsv) and the gap-penalty
      option parsing (sscanf semantics modelled from C99).

  C arrays are modelled as Lean lists; an uninitialized malloc allocation is
  modelled by an explicit parameter holding its (arbitrary) initial contents.
  Machine integers are modelled as Int (no arithmetic in the program can
  overflow Int64 for the inputs considered by the theorems).  A C assertion
  failure or out-of-bounds table read is modelled as Option.none.
-/

import Mathlib

set_option maxHeartbeats 1000000
set_option maxRecDepth 8000

/-- Row 0 (substitution-matrix row for byte code 0) of EDNAFULL_NUC_4_4. -/
def EDNAFULL_NUC_4_4_row0 : List Int :=
  [0, 0, 0, 0, 0, 0, 0, 0, 0, 0, 0, 0, 0, 0, 0, 0, 0, 0, 0, 0, 0, 0, 0, 0, 0, 0, 0, 0, 0, 0, 0, 0, 0, 0, 0, 0, 0, 0, 0, 0, 0, 0, 0, 0, 0, 0, 0, 0, 0, 0, 0, 0, 0, 0, 0, 0, 0, 0, 0, 0, 0, 0, 0, 0, 0, 0, 0, 0, 0, 0, 0, 0, 0, 0, 0, 0, 0, 0, 0, 0, 0, 0, 0, 0, 0, 0, 0, 0, 0, 0]

/-- Row 1 (substitution-matrix row for byte code 1) of EDNAFULL_NUC_4_4. -/
def EDNAFULL_NUC_4_4_row1 : List Int :=
  [0, 0, 0, 0, 0, 0, 0, 0, 0, 0, 0, 0, 0, 0, 0, 0, 0, 0, 0, 0, 0, 0, 0, 0, 0, 0, 0, 0, 0, 0, 0, 0, 0, 0, 0, 0, 0, 0, 0, 0, 0, 0, 0, 0, 0, 0, 0, 0, 0, 0, 0, 0, 0, 0, 0, 0, 0, 0, 0, 0, 0, 0, 0, 0, 0, 0, 0, 0, 0, 0, 0, 0, 0, 0, 0, 0, 0, 0, 0, 0, 0, 0, 0, 0, 0, 0, 0, 0, 0, 0]

/-- Row 2 (substitution-matrix row for byte code 2) of EDNAFULL_NUC_4_4. -/
def EDNAFULL_NUC_4_4_row2 : List Int :=
  [0, 0, 0, 0, 0, 0, 0, 0, 0, 0, 0, 0, 0, 0, 0, 0, 0, 0, 0, 0, 0, 0, 0, 0, 0, 0, 0, 0, 0, 0, 0, 0, 0, 0, 0, 0, 0, 0, 0, 0, 0, 0, 0, 0, 0, 0, 0, 0, 0, 0, 0, 0, 0, 0, 0, 0, 0, 0, 0, 0, 0, 0, 0, 0, 0, 0, 0, 0, 0, 0, 0, 0, 0, 0, 0, 0, 0, 0, 0, 0, 0, 0, 0, 0, 0, 0, 0, 0, 0, 0]

/-- Row 3 (substitution-matrix row for byte code 3) of EDNAFULL_NUC_4_4. -/
def EDNAFULL_NUC_4_4_row3 : List Int :=
  [0, 0, 0, 0, 0, 0, 0, 0, 0, 0, 0, 0, 0, 0, 0, 0, 0, 0, 0, 0, 0, 0, 0, 0, 0, 0, 0, 0, 0, 0, 0, 0, 0, 0, 0, 0, 0, 0, 0, 0, 0, 0, 0, 0, 0, 0, 0, 0, 0, 0, 0, 0, 0, 0, 0, 0, 0, 0, 0, 0, 0, 0, 0, 0, 0, 0, 0, 0, 0, 0, 0, 0, 0, 0, 0, 0, 0, 0, 0, 0, 0, 0, 0, 0, 0, 0, 0, 0, 0, 0]

/-- Row 4 (substitution-matrix row for byte code 4) of EDNAFULL_NUC_4_4. -/
def EDNAFULL_NUC_4_4_row4 : List Int :=
  [0, 0, 0, 0, 0, 0, 0, 0, 0, 0, 0, 0, 0, 0, 0, 0, 0, 0, 0, 0, 0, 0, 0, 0, 0, 0, 0, 0, 0, 0, 0, 0, 0, 0, 0, 0, 0, 0, 0, 0, 0, 0, 0, 0, 0, 0, 0, 0, 0, 0, 0, 0, 0, 0, 0, 0, 0, 0, 0, 0, 0, 0, 0, 0, 0, 0, 0, 0, 0, 0, 0, 0, 0, 0, 0, 0, 0, 0, 0, 0, 0, 0, 0, 0, 0, 0, 0, 0, 0, 0]

/-- Row 5 (substitution-matrix row for byte code 5) of EDNAFULL_NUC_4_4. -/
def EDNAFULL_NUC_4_4_row5 : List Int :=
  [0, 0, 0, 0, 0, 0, 0, 0, 0, 0, 0, 0, 0, 0, 0, 0, 0, 0, 0, 0, 0, 0, 0, 0, 0, 0, 0, 0, 0, 0, 0, 0, 0, 0, 0, 0, 0, 0, 0, 0, 0, 0, 0, 0, 0, 0, 0, 0, 0, 0, 0, 0, 0, 0, 0, 0, 0, 0, 0, 0, 0, 0, 0, 0, 0, 0, 0, 0, 0, 0, 0, 0, 0, 0, 0, 0, 0, 0, 0, 0, 0, 0, 0, 0, 0, 0, 0, 0, 0, 0]

/-- Row 6 (substitution-matrix row for byte code 6) of EDNAFULL_NUC_4_4. -/
def EDNAFULL_NUC_4_4_row6 : List Int :=
  [0, 0, 0, 0, 0, 0, 0, 0, 0, 0, 0, 0, 0, 0, 0, 0, 0, 0, 0, 0, 0, 0, 0, 0, 0, 0, 0, 0, 0, 0, 0, 0, 0, 0, 0, 0, 0, 0, 0, 0, 0, 0, 0, 0, 0, 0, 0, 0, 0, 0, 0, 0, 0, 0, 0, 0, 0, 0, 0, 0, 0, 0, 0, 0, 0, 0, 0, 0, 0, 0, 0, 0, 0, 0, 0, 0, 0, 0, 0, 0, 0, 0, 0, 0, 0, 0, 0, 0, 0, 0]

/-- Row 7 (substitution-matrix row for byte code 7) of EDNAFULL_NUC_4_4. -/
def EDNAFULL_NUC_4_4_row7 : List Int :=
  [0, 0, 0, 0, 0, 0, 0, 0, 0, 0, 0, 0, 0, 0, 0, 0, 0, 0, 0, 0, 0, 0, 0, 0, 0, 0, 0, 0, 0, 0, 0, 0, 0, 0, 0, 0, 0, 0, 0, 0, 0, 0, 0, 0, 0, 0, 0, 0, 0, 0, 0, 0, 0, 0, 0, 0, 0, 0, 0, 0, 0, 0, 0, 0, 0, 0, 0, 0, 0, 0, 0, 0, 0, 0, 0, 0, 0, 0, 0, 0, 0, 0, 0, 0, 0, 0, 0, 0, 0, 0]

/-- Row 8 (substitution-matrix row for byte code 8) of EDNAFULL_NUC_4_4. -/
def EDNAFULL_NUC_4_4_row8 : List Int :=
  [0, 0, 0, 0, 0, 0, 0, 0, 0, 0, 0, 0, 0, 0, 0, 0, 0, 0, 0, 0, 0, 0, 0, 0, 0, 0, 0, 0, 0, 0, 0, 0, 0, 0, 0, 0, 0, 0, 0, 0, 0, 0, 0, 0, 0, 0, 0, 0, 0, 0, 0, 0, 0, 0, 0, 0, 0, 0, 0, 0, 0, 0, 0, 0, 0, 0, 0, 0, 0, 0, 0, 0, 0, 0, 0, 0, 0, 0, 0, 0, 0, 0, 0, 0, 0, 0, 0, 0, 0, 0]

/-- Row 9 (substitution-matrix row for byte code 9) of EDNAFULL_NUC_4_4. -/
def EDNAFULL_NUC_4_4_row9 : List Int :=
  [0, 0, 0, 0, 0, 0, 0, 0, 0, 0, 0, 0, 0, 0, 0, 0, 0, 0, 0, 0, 0, 0, 0, 0, 0, 0, 0, 0, 0, 0, 0, 0, 0, 0, 0, 0, 0, 0, 0, 0, 0, 0, 0, 0, 0, 0, 0, 0, 0, 0, 0, 0, 0, 0, 0, 0, 0, 0, 0, 0, 0, 0, 0, 0, 0, 0, 0, 0, 0, 0, 0, 0, 0, 0, 0, 0, 0, 0, 0, 0, 0, 0, 0, 0, 0, 0, 0, 0, 0, 0]

/-- Row 10 (substitution-matrix row for byte code 10) of EDNAFULL_NUC_4_4. -/
def EDNAFULL_NUC_4_4_row10 : List Int :=
  [0, 0, 0, 0, 0, 0, 0, 0, 0, 0, 0, 0, 0, 0, 0, 0, 0, 0, 0, 0, 0, 0, 0, 0, 0, 0, 0, 0, 0, 0, 0, 0, 0, 0, 0, 0, 0, 0, 0, 0, 0, 0, 0, 0, 0, 0, 0, 0, 0, 0, 0, 0, 0, 0, 0, 0, 0, 0, 0, 0, 0, 0, 0, 0, 0, 0, 0, 0, 0, 0, 0, 0, 0, 0, 0, 0, 0, 0, 0, 0, 0, 0, 0, 0, 0, 0, 0, 0, 0, 0]

/-- Row 11 (substitution-matrix row for byte code 11) of EDNAFULL_NUC_4_4. -/
def EDNAFULL_NUC_4_4_row11 : List Int :=
  [0, 0, 0, 0, 0, 0, 0, 0, 0, 0, 0, 0, 0, 0, 0, 0, 0, 0, 0, 0, 0, 0, 0, 0, 0, 0, 0, 0, 0, 0, 0, 0, 0, 0, 0, 0, 0, 0, 0, 0, 0, 0, 0, 0, 0, 0, 0, 0, 0, 0, 0, 0, 0, 0, 0, 0, 0, 0, 0, 0, 0, 0, 0, 0, 0, 0, 0, 0, 0, 0, 0, 0, 0, 0, 0, 0, 0, 0, 0, 0, 0, 0, 0, 0, 0, 0, 0, 0, 0, 0]

/-- Row 12 (substitution-matrix row for byte code 12) of EDNAFULL_NUC_4_4. -/
def EDNAFULL_NUC_4_4_row12 : List Int :=
  [0, 0, 0, 0, 0, 0, 0, 0, 0, 0, 0, 0, 0, 0, 0, 0, 0, 0, 0, 0, 0, 0, 0, 0, 0, 0, 0, 0, 0, 0, 0, 0, 0, 0, 0, 0, 0, 0, 0, 0, 0, 0, 0, 0, 0, 0, 0, 0, 0, 0, 0, 0, 0, 0, 0, 0, 0, 0, 0, 0, 0, 0, 0, 0, 0, 0, 0, 0, 0, 0, 0, 0, 0, 0, 0, 0, 0, 0, 0, 0, 0, 0, 0, 0, 0, 0, 0, 0, 0, 0]

/-- Row 13 (substitution-matrix row for byte code 13) of EDNAFULL_NUC_4_4. -/
def EDNAFULL_NUC_4_4_row13 : List Int :=
  [0, 0, 0, 0, 0, 0, 0, 0, 0, 0, 0, 0, 0, 0, 0, 0, 0, 0, 0, 0, 0, 0, 0, 0, 0, 0, 0, 0, 0, 0, 0, 0, 0, 0, 0, 0, 0, 0, 0, 0, 0, 0, 0, 0, 0, 0, 0, 0, 0, 0, 0, 0, 0, 0, 0, 0, 0, 0, 0, 0, 0, 0, 0, 0, 0, 0, 0, 0, 0, 0, 0, 0, 0, 0, 0, 0, 0, 0, 0, 0, 0, 0, 0, 0, 0, 0, 0, 0, 0, 0]

/-- Row 14 (substitution-matrix row for byte code 14) of EDNAFULL_NUC_4_4. -/
def EDNAFULL_NUC_4_4_row14 : List Int :=
  [0, 0, 0, 0, 0, 0, 0, 0, 0, 0, 0, 0, 0, 0, 0, 0, 0, 0, 0, 0, 0, 0, 0, 0, 0, 0, 0, 0, 0, 0, 0, 0, 0, 0, 0, 0, 0, 0, 0, 0, 0, 0, 0, 0, 0, 0, 0, 0, 0, 0, 0, 0, 0, 0, 0, 0, 0, 0, 0, 0, 0, 0, 0, 0, 0, 0, 0, 0, 0, 0, 0, 0, 0, 0, 0, 0, 0, 0, 0, 0, 0, 0, 0, 0, 0, 0, 0, 0, 0, 0]

/-- Row 15 (substitution-matrix row for byte code 15) of EDNAFULL_NUC_4_4. -/
def EDNAFULL_NUC_4_4_row15 : List Int :=
  [0, 0, 0, 0, 0, 0, 0, 0, 0, 0, 0, 0, 0, 0, 0, 0, 0, 0, 0, 0, 0, 0, 0, 0, 0, 0, 0, 0, 0, 0, 0, 0, 0, 0, 0, 0, 0, 0, 0, 0, 0, 0, 0, 0, 0, 0, 0, 0, 0, 0, 0, 0, 0, 0, 0, 0, 0, 0, 0, 0, 0, 0, 0, 0, 0, 0, 0, 0, 0, 0, 0, 0, 0, 0, 0, 0, 0, 0, 0, 0, 0, 0, 0, 0, 0, 0, 0, 0, 0, 0]

/-- Row 16 (substitution-matrix row for byte code 16) of EDNAFULL_NUC_4_4. -/
def EDNAFULL_NUC_4_4_row16 : List Int :=
  [0, 0, 0, 0, 0, 0, 0, 0, 0, 0, 0, 0, 0, 0, 0, 0, 0, 0, 0, 0, 0, 0, 0, 0, 0, 0, 0, 0, 0, 0, 0, 0, 0, 0, 0, 0, 0, 0, 0, 0, 0, 0, 0, 0, 0, 0, 0, 0, 0, 0, 0, 0, 0, 0, 0, 0, 0, 0, 0, 0, 0, 0, 0, 0, 0, 0, 0, 0, 0, 0, 0, 0, 0, 0, 0, 0, 0, 0, 0, 0, 0, 0, 0, 0, 0, 0, 0, 0, 0, 0]

/-- Row 17 (substitution-matrix row for byte code 17) of EDNAFULL_NUC_4_4. -/
def EDNAFULL_NUC_4_4_row17 : List Int :=
  [0, 0, 0, 0, 0, 0, 0, 0, 0, 0, 0, 0, 0, 0, 0, 0, 0, 0, 0, 0, 0, 0, 0, 0, 0, 0, 0, 0, 0, 0, 0, 0, 0, 0, 0, 0, 0, 0, 0, 0, 0, 0, 0, 0, 0, 0, 0, 0, 0, 0, 0, 0, 0, 0, 0, 0, 0, 0, 0, 0, 0, 0, 0, 0, 0, 0, 0, 0, 0, 0, 0, 0, 0, 0, 0, 0, 0, 0, 0, 0, 0, 0, 0, 0, 0, 0, 0, 0, 0, 0]

/-- Row 18 (substitution-matrix row for byte code 18) of EDNAFULL_NUC_4_4. -/
def EDNAFULL_NUC_4_4_row18 : List Int :=
  [0, 0, 0, 0, 0, 0, 0, 0, 0, 0, 0, 0, 0, 0, 0, 0, 0, 0, 0, 0, 0, 0, 0, 0, 0, 0, 0, 0, 0, 0, 0, 0, 0, 0, 0, 0, 0, 0, 0, 0, 0, 0, 0, 0, 0, 0, 0, 0, 0, 0, 0, 0, 0, 0, 0, 0, 0, 0, 0, 0, 0, 0, 0, 0, 0, 0, 0, 0, 0, 0, 0, 0, 0, 0, 0, 0, 0, 0, 0, 0, 0, 0, 0, 0, 0, 0, 0, 0, 0, 0]

/-- Row 19 (substitution-matrix row for byte code 19) of EDNAFULL_NUC_4_4. -/
def EDNAFULL_NUC_4_4_row19 : List Int :=
  [0, 0, 0, 0, 0, 0, 0, 0, 0, 0, 0, 0, 0, 0, 0, 0, 0, 0, 0, 0, 0, 0, 0, 0, 0, 0, 0, 0, 0, 0, 0, 0, 0, 0, 0, 0, 0, 0, 0, 0, 0, 0, 0, 0, 0, 0, 0, 0, 0, 0, 0, 0, 0, 0, 0, 0, 0, 0, 0, 0, 0, 0, 0, 0, 0, 0, 0, 0, 0, 0, 0, 0, 0, 0, 0, 0, 0, 0, 0, 0, 0, 0, 0, 0, 0, 0, 0, 0, 0, 0]

/-- Row 20 (substitution-matrix row for byte code 20) of EDNAFULL_NUC_4_4. -/
def EDNAFULL_NUC_4_4_row20 : List Int :=
  [0, 0, 0, 0, 0, 0, 0, 0, 0, 0, 0, 0, 0, 0, 0, 0, 0, 0, 0, 0, 0, 0, 0, 0, 0, 0, 0, 0, 0, 0, 0, 0, 0, 0, 0, 0, 0, 0, 0, 0, 0, 0, 0, 0, 0, 0, 0, 0, 0, 0, 0, 0, 0, 0, 0, 0, 0, 0, 0, 0, 0, 0, 0, 0, 0, 0, 0, 0, 0, 0, 0, 0, 0, 0, 0, 0, 0, 0, 0, 0, 0, 0, 0, 0, 0, 0, 0, 0, 0, 0]

/-- Row 21 (substitution-matrix row for byte code 21) of EDNAFULL_NUC_4_4. -/
def EDNAFULL_NUC_4_4_row21 : List Int :=
  [0, 0, 0, 0, 0, 0, 0, 0, 0, 0, 0, 0, 0, 0, 0, 0, 0, 0, 0, 0, 0, 0, 0, 0, 0, 0, 0, 0, 0, 0, 0, 0, 0, 0, 0, 0, 0, 0, 0, 0, 0, 0, 0, 0, 0, 0, 0, 0, 0, 0, 0, 0, 0, 0, 0, 0, 0, 0, 0, 0, 0, 0, 0, 0, 0, 0, 0, 0, 0, 0, 0, 0, 0, 0, 0, 0, 0, 0, 0, 0, 0, 0, 0, 0, 0, 0, 0, 0, 0, 0]

/-- Row 22 (substitution-matrix row for byte code 22) of EDNAFULL_NUC_4_4. -/
def EDNAFULL_NUC_4_4_row22 : List Int :=
  [0, 0, 0, 0, 0, 0, 0, 0, 0, 0, 0, 0, 0, 0, 0, 0, 0, 0, 0, 0, 0, 0, 0, 0, 0, 0, 0, 0, 0, 0, 0, 0, 0, 0, 0, 0, 0, 0, 0, 0, 0, 0, 0, 0, 0, 0, 0, 0, 0, 0, 0, 0, 0, 0, 0, 0, 0, 0, 0, 0, 0, 0, 0, 0, 0, 0, 0, 0, 0, 0, 0, 0, 0, 0, 0, 0, 0, 0, 0, 0, 0, 0, 0, 0, 0, 0, 0, 0, 0, 0]

/-- Row 23 (substitution-matrix row for byte code 23) of EDNAFULL_NUC_4_4. -/
def EDNAFULL_NUC_4_4_row23 : List Int :=
  [0, 0, 0, 0, 0, 0, 0, 0, 0, 0, 0, 0, 0, 0, 0, 0, 0, 0, 0, 0, 0, 0, 0, 0, 0, 0, 0, 0, 0, 0, 0, 0, 0, 0, 0, 0, 0, 0, 0, 0, 0, 0, 0, 0, 0, 0, 0, 0, 0, 0, 0, 0, 0, 0, 0, 0, 0, 0, 0, 0, 0, 0, 0, 0, 0, 0, 0, 0, 0, 0, 0, 0, 0, 0, 0, 0, 0, 0, 0, 0, 0, 0, 0, 0, 0, 0, 0, 0, 0, 0]

/-- Row 24 (substitution-matrix row for byte code 24) of EDNAFULL_NUC_4_4. -/
def EDNAFULL_NUC_4_4_row24 : List Int :=
  [0, 0, 0, 0, 0, 0, 0, 0, 0, 0, 0, 0, 0, 0, 0, 0, 0, 0, 0, 0, 0, 0, 0, 0, 0, 0, 0, 0, 0, 0, 0, 0, 0, 0, 0, 0, 0, 0, 0, 0, 0, 0, 0, 0, 0, 0, 0, 0, 0, 0, 0, 0, 0, 0, 0, 0, 0, 0, 0, 0, 0, 0, 0, 0, 0, 0, 0, 0, 0, 0, 0, 0, 0, 0, 0, 0, 0, 0, 0, 0, 0, 0, 0, 0, 0, 0, 0, 0, 0, 0]

/-- Row 25 (substitution-matrix row for byte code 25) of EDNAFULL_NUC_4_4. -/
def EDNAFULL_NUC_4_4_row25 : List Int :=
  [0, 0, 0, 0, 0, 0, 0, 0, 0, 0, 0, 0, 0, 0, 0, 0, 0, 0, 0, 0, 0, 0, 0, 0, 0, 0, 0, 0, 0, 0, 0, 0, 0, 0, 0, 0, 0, 0, 0, 0, 0, 0, 0, 0, 0, 0, 0, 0, 0, 0, 0, 0, 0, 0, 0, 0, 0, 0, 0, 0, 0, 0, 0, 0, 0, 0, 0, 0, 0, 0, 0, 0, 0, 0, 0, 0, 0, 0, 0, 0, 0, 0, 0, 0, 0, 0, 0, 0, 0, 0]

/-- Row 26 (substitution-matrix row for byte code 26) of EDNAFULL_NUC_4_4. -/
def EDNAFULL_NUC_4_4_row26 : List Int :=
  [0, 0, 0, 0, 0, 0, 0, 0, 0, 0, 0, 0, 0, 0, 0, 0, 0, 0, 0, 0, 0, 0, 0, 0, 0, 0, 0, 0, 0, 0, 0, 0, 0, 0, 0, 0, 0, 0, 0, 0, 0, 0, 0, 0, 0, 0, 0, 0, 0, 0, 0, 0, 0, 0, 0, 0, 0, 0, 0, 0, 0, 0, 0, 0, 0, 0, 0, 0, 0, 0, 0, 0, 0, 0, 0, 0, 0, 0, 0, 0, 0, 0, 0, 0, 0, 0, 0, 0, 0, 0]

/-- Row 27 (substitution-matrix row for byte code 27) of EDNAFULL_NUC_4_4. -/
def EDNAFULL_NUC_4_4_row27 : List Int :=
  [0, 0, 0, 0, 0, 0, 0, 0, 0, 0, 0, 0, 0, 0, 0, 0, 0, 0, 0, 0, 0, 0, 0, 0, 0, 0, 0, 0, 0, 0, 0, 0, 0, 0, 0, 0, 0, 0, 0, 0, 0, 0, 0, 0, 0, 0, 0, 0, 0, 0, 0, 0, 0, 0, 0, 0, 0, 0, 0, 0, 0, 0, 0, 0, 0, 0, 0, 0, 0, 0, 0, 0, 0, 0, 0, 0, 0, 0, 0, 0, 0, 0, 0, 0, 0, 0, 0, 0, 0, 0]

/-- Row 28 (substitution-matrix row for byte code 28) of EDNAFULL_NUC_4_4. -/
def EDNAFULL_NUC_4_4_row28 : List Int :=
  [0, 0, 0, 0, 0, 0, 0, 0, 0, 0, 0, 0, 0, 0, 0, 0, 0, 0, 0, 0, 0, 0, 0, 0, 0, 0, 0, 0, 0, 0, 0, 0, 0, 0, 0, 0, 0, 0, 0, 0, 0, 0, 0, 0, 0, 0, 0, 0, 0, 0, 0, 0, 0, 0, 0, 0, 0, 0, 0, 0, 0, 0, 0, 0, 0, 0, 0, 0, 0, 0, 0, 0, 0, 0, 0, 0, 0, 0, 0, 0, 0, 0, 0, 0, 0, 0, 0, 0, 0, 0]

/-- Row 29 (substitution-matrix row for byte code 29) of EDNAFULL_NUC_4_4. -/
def EDNAFULL_NUC_4_4_row29 : List Int :=
  [0, 0, 0, 0, 0, 0, 0, 0, 0, 0, 0, 0, 0, 0, 0, 0, 0, 0, 0, 0, 0, 0, 0, 0, 0, 0, 0, 0, 0, 0, 0, 0, 0, 0, 0, 0, 0, 0, 0, 0, 0, 0, 0, 0, 0, 0, 0, 0, 0, 0, 0, 0, 0, 0, 0, 0, 0, 0, 0, 0, 0, 0, 0, 0, 0, 0, 0, 0, 0, 0, 0, 0, 0, 0, 0, 0, 0, 0, 0, 0, 0, 0, 0, 0, 0, 0, 0, 0, 0, 0]

/-- Row 30 (substitution-matrix row for byte code 30) of EDNAFULL_NUC_4_4. -/
def EDNAFULL_NUC_4_4_row30 : List Int :=
  [0, 0, 0, 0, 0, 0, 0, 0, 0, 0, 0, 0, 0, 0, 0, 0, 0, 0, 0, 0, 0, 0, 0, 0, 0, 0, 0, 0, 0, 0, 0, 0, 0, 0, 0, 0, 0, 0, 0, 0, 0, 0, 0, 0, 0, 0, 0, 0, 0, 0, 0, 0, 0, 0, 0, 0, 0, 0, 0, 0, 0, 0, 0, 0, 0, 0, 0, 0, 0, 0, 0, 0, 0, 0, 0, 0, 0, 0, 0, 0, 0, 0, 0, 0, 0, 0, 0, 0, 0, 0]

/-- Row 31 (substitution-matrix row for byte code 31) of EDNAFULL_NUC_4_4. -/
def EDNAFULL_NUC_4_4_row31 : List Int :=
  [0, 0, 0, 0, 0, 0, 0, 0, 0, 0, 0, 0, 0, 0, 0, 0, 0, 0, 0, 0, 0, 0, 0, 0, 0, 0, 0, 0, 0, 0, 0, 0, 0, 0, 0, 0, 0, 0, 0, 0, 0, 0, 0, 0, 0, 0, 0, 0, 0, 0, 0, 0, 0, 0, 0, 0, 0, 0, 0, 0, 0, 0, 0, 0, 0, 0, 0, 0, 0, 0, 0, 0, 0, 0, 0, 0, 0, 0, 0, 0, 0, 0, 0, 0, 0, 0, 0, 0, 0, 0]

/-- Row 32 (substitution-matrix row for byte code 32) of EDNAFULL_NUC_4_4. -/
def EDNAFULL_NUC_4_4_row32 : List Int :=
  [0, 0, 0, 0, 0, 0, 0, 0, 0, 0, 0, 0, 0, 0, 0, 0, 0, 0, 0, 0, 0, 0, 0, 0, 0, 0, 0, 0, 0, 0, 0, 0, 0, 0, 0, 0, 0, 0, 0, 0, 0, 0, 0, 0, 0, 0, 0, 0, 0, 0, 0, 0, 0, 0, 0, 0, 0, 0, 0, 0, 0, 0, 0, 0, 0, 0, 0, 0, 0, 0, 0, 0, 0, 0, 0, 0, 0, 0, 0, 0, 0, 0, 0, 0, 0, 0, 0, 0, 0, 0]

/-- Row 33 (substitution-matrix row for byte code 33) of EDNAFULL_NUC_4_4. -/
def EDNAFULL_NUC_4_4_row33 : List Int :=
  [0, 0, 0, 0, 0, 0, 0, 0, 0, 0, 0, 0, 0, 0, 0, 0, 0, 0, 0, 0, 0, 0, 0, 0, 0, 0, 0, 0, 0, 0, 0, 0, 0, 0, 0, 0, 0, 0, 0, 0, 0, 0, 0, 0, 0, 0, 0, 0, 0, 0, 0, 0, 0, 0, 0, 0, 0, 0, 0, 0, 0, 0, 0, 0, 0, 0, 0, 0, 0, 0, 0, 0, 0, 0, 0, 0, 0, 0, 0, 0, 0, 0, 0, 0, 0, 0, 0, 0, 0, 0]

/-- Row 34 (substitution-matrix row for byte code 34) of EDNAFULL_NUC_4_4. -/
def EDNAFULL_NUC_4_4_row34 : List Int :=
  [0, 0, 0, 0, 0, 0, 0, 0, 0, 0, 0, 0, 0, 0, 0, 0, 0, 0, 0, 0, 0, 0, 0, 0, 0, 0, 0, 0, 0, 0, 0, 0, 0, 0, 0, 0, 0, 0, 0, 0, 0, 0, 0, 0, 0, 0, 0, 0, 0, 0, 0, 0, 0, 0, 0, 0, 0, 0, 0, 0, 0, 0, 0, 0, 0, 0, 0, 0, 0, 0, 0, 0, 0, 0, 0, 0, 0, 0, 0, 0, 0, 0, 0, 0, 0, 0, 0, 0, 0, 0]

/-- Row 35 (substitution-matrix row for byte code 35) of EDNAFULL_NUC_4_4. -/
def EDNAFULL_NUC_4_4_row35 : List Int :=
  [0, 0, 0, 0, 0, 0, 0, 0, 0, 0, 0, 0, 0, 0, 0, 0, 0, 0, 0, 0, 0, 0, 0, 0, 0, 0, 0, 0, 0, 0, 0, 0, 0, 0, 0, 0, 0, 0, 0, 0, 0, 0, 0, 0, 0, 0, 0, 0, 0, 0, 0, 0, 0, 0, 0, 0, 0, 0, 0, 0, 0, 0, 0, 0, 0, 0, 0, 0, 0, 0, 0, 0, 0, 0, 0, 0, 0, 0, 0, 0, 0, 0, 0, 0, 0, 0, 0, 0, 0, 0]

/-- Row 36 (substitution-matrix row for byte code 36) of EDNAFULL_NUC_4_4. -/
def EDNAFULL_NUC_4_4_row36 : List Int :=
  [0, 0, 0, 0, 0, 0, 0, 0, 0, 0, 0, 0, 0, 0, 0, 0, 0, 0, 0, 0, 0, 0, 0, 0, 0, 0, 0, 0, 0, 0, 0, 0, 0, 0, 0, 0, 0, 0, 0, 0, 0, 0, 0, 0, 0, 0, 0, 0, 0, 0, 0, 0, 0, 0, 0, 0, 0, 0, 0, 0, 0, 0, 0, 0, 0, 0, 0, 0, 0, 0, 0, 0, 0, 0, 0, 0, 0, 0, 0, 0, 0, 0, 0, 0, 0, 0, 0, 0, 0, 0]

/-- Row 37 (substitution-matrix row for byte code 37) of EDNAFULL_NUC_4_4. -/
def EDNAFULL_NUC_4_4_row37 : List Int :=
  [0, 0, 0, 0, 0, 0, 0, 0, 0, 0, 0, 0, 0, 0, 0, 0, 0, 0, 0, 0, 0, 0, 0, 0, 0, 0, 0, 0, 0, 0, 0, 0, 0, 0, 0, 0, 0, 0, 0, 0, 0, 0, 0, 0, 0, 0, 0, 0, 0, 0, 0, 0, 0, 0, 0, 0, 0, 0, 0, 0, 0, 0, 0, 0, 0, 0, 0, 0, 0, 0, 0, 0, 0, 0, 0, 0, 0, 0, 0, 0, 0, 0, 0, 0, 0, 0, 0, 0, 0, 0]

/-- Row 38 (substitution-matrix row for byte code 38) of EDNAFULL_NUC_4_4. -/
def EDNAFULL_NUC_4_4_row38 : List Int :=
  [0, 0, 0, 0, 0, 0, 0, 0, 0, 0, 0, 0, 0, 0, 0, 0, 0, 0, 0, 0, 0, 0, 0, 0, 0, 0, 0, 0, 0, 0, 0, 0, 0, 0, 0, 0, 0, 0, 0, 0, 0, 0, 0, 0, 0, 0, 0, 0, 0, 0, 0, 0, 0, 0, 0, 0, 0, 0, 0, 0, 0, 0, 0, 0, 0, 0, 0, 0, 0, 0, 0, 0, 0, 0, 0, 0, 0, 0, 0, 0, 0, 0, 0, 0, 0, 0, 0, 0, 0, 0]

/-- Row 39 (substitution-matrix row for byte code 39) of EDNAFULL_NUC_4_4. -/
def EDNAFULL_NUC_4_4_row39 : List Int :=
  [0, 0, 0, 0, 0, 0, 0, 0, 0, 0, 0, 0, 0, 0, 0, 0, 0, 0, 0, 0, 0, 0, 0, 0, 0, 0, 0, 0, 0, 0, 0, 0, 0, 0, 0, 0, 0, 0, 0, 0, 0, 0, 0, 0, 0, 0, 0, 0, 0, 0, 0, 0, 0, 0, 0, 0, 0, 0, 0, 0, 0, 0, 0, 0, 0, 0, 0, 0, 0, 0, 0, 0, 0, 0, 0, 0, 0, 0, 0, 0, 0, 0, 0, 0, 0, 0, 0, 0, 0, 0]

/-- Row 40 (substitution-matrix row for byte code 40) of EDNAFULL_NUC_4_4. -/
def EDNAFULL_NUC_4_4_row40 : List Int :=
  [0, 0, 0, 0, 0, 0, 0, 0, 0, 0, 0, 0, 0, 0, 0, 0, 0, 0, 0, 0, 0, 0, 0, 0, 0, 0, 0, 0, 0, 0, 0, 0, 0, 0, 0, 0, 0, 0, 0, 0, 0, 0, 0, 0, 0, 0, 0, 0, 0, 0, 0, 0, 0, 0, 0, 0, 0, 0, 0, 0, 0, 0, 0, 0, 0, 0, 0, 0, 0, 0, 0, 0, 0, 0, 0, 0, 0, 0, 0, 0, 0, 0, 0, 0, 0, 0, 0, 0, 0, 0]

/-- Row 41 (substitution-matrix row for byte code 41) of EDNAFULL_NUC_4_4. -/
def EDNAFULL_NUC_4_4_row41 : List Int :=
  [0, 0, 0, 0, 0, 0, 0, 0, 0, 0, 0, 0, 0, 0, 0, 0, 0, 0, 0, 0, 0, 0, 0, 0, 0, 0, 0, 0, 0, 0, 0, 0, 0, 0, 0, 0, 0, 0, 0, 0, 0, 0, 0, 0, 0, 0, 0, 0, 0, 0, 0, 0, 0, 0, 0, 0, 0, 0, 0, 0, 0, 0, 0, 0, 0, 0, 0, 0, 0, 0, 0, 0, 0, 0, 0, 0, 0, 0, 0, 0, 0, 0, 0, 0, 0, 0, 0, 0, 0, 0]

/-- Row 42 (substitution-matrix row for byte code 42) of EDNAFULL_NUC_4_4. -/
def EDNAFULL_NUC_4_4_row42 : List Int :=
  [0, 0, 0, 0, 0, 0, 0, 0, 0, 0, 0, 0, 0, 0, 0, 0, 0, 0, 0, 0, 0, 0, 0, 0, 0, 0, 0, 0, 0, 0, 0, 0, 0, 0, 0, 0, 0, 0, 0, 0, 0, 0, 0, 0, 0, 0, 0, 0, 0, 0, 0, 0, 0, 0, 0, 0, 0, 0, 0, 0, 0, 0, 0, 0, 0, 0, 0, 0, 0, 0, 0, 0, 0, 0, 0, 0, 0, 0, 0, 0, 0, 0, 0, 0, 0, 0, 0, 0, 0, 0]

/-- Row 43 (substitution-matrix row for byte code 43) of EDNAFULL_NUC_4_4. -/
def EDNAFULL_NUC_4_4_row43 : List Int :=
  [0, 0, 0, 0, 0, 0, 0, 0, 0, 0, 0, 0, 0, 0, 0, 0, 0, 0, 0, 0, 0, 0, 0, 0, 0, 0, 0, 0, 0, 0, 0, 0, 0, 0, 0, 0, 0, 0, 0, 0, 0, 0, 0, 0, 0, 0, 0, 0, 0, 0, 0, 0, 0, 0, 0, 0, 0, 0, 0, 0, 0, 0, 0, 0, 0, 0, 0, 0, 0, 0, 0, 0, 0, 0, 0, 0, 0, 0, 0, 0, 0, 0, 0, 0, 0, 0, 0, 0, 0, 0]

/-- Row 44 (substitution-matrix row for byte code 44) of EDNAFULL_NUC_4_4. -/
def EDNAFULL_NUC_4_4_row44 : List Int :=
  [0, 0, 0, 0, 0, 0, 0, 0, 0, 0, 0, 0, 0, 0, 0, 0, 0, 0, 0, 0, 0, 0, 0, 0, 0, 0, 0, 0, 0, 0, 0, 0, 0, 0, 0, 0, 0, 0, 0, 0, 0, 0, 0, 0, 0, 0, 0, 0, 0, 0, 0, 0, 0, 0, 0, 0, 0, 0, 0, 0, 0, 0, 0, 0, 0, 0, 0, 0, 0, 0, 0, 0, 0, 0, 0, 0, 0, 0, 0, 0, 0, 0, 0, 0, 0, 0, 0, 0, 0, 0]

/-- Row 45 (substitution-matrix row for byte code 45) of EDNAFULL_NUC_4_4. -/
def EDNAFULL_NUC_4_4_row45 : List Int :=
  [0, 0, 0, 0, 0, 0, 0, 0, 0, 0, 0, 0, 0, 0, 0, 0, 0, 0, 0, 0, 0, 0, 0, 0, 0, 0, 0, 0, 0, 0, 0, 0, 0, 0, 0, 0, 0, 0, 0, 0, 0, 0, 0, 0, 0, 0, 0, 0, 0, 0, 0, 0, 0, 0, 0, 0, 0, 0, 0, 0, 0, 0, 0, 0, 0, 0, 0, 0, 0, 0, 0, 0, 0, 0, 0, 0, 0, 0, 0, 0, 0, 0, 0, 0, 0, 0, 0, 0, 0, 0]

/-- Row 46 (substitution-matrix row for byte code 46) of EDNAFULL_NUC_4_4. -/
def EDNAFULL_NUC_4_4_row46 : List Int :=
  [0, 0, 0, 0, 0, 0, 0, 0, 0, 0, 0, 0, 0, 0, 0, 0, 0, 0, 0, 0, 0, 0, 0, 0, 0, 0, 0, 0, 0, 0, 0, 0, 0, 0, 0, 0, 0, 0, 0, 0, 0, 0, 0, 0, 0, 0, 0, 0, 0, 0, 0, 0, 0, 0, 0, 0, 0, 0, 0, 0, 0, 0, 0, 0, 0, 0, 0, 0, 0, 0, 0, 0, 0, 0, 0, 0, 0, 0, 0, 0, 0, 0, 0, 0, 0, 0, 0, 0, 0, 0]

/-- Row 47 (substitution-matrix row for byte code 47) of EDNAFULL_NUC_4_4. -/
def EDNAFULL_NUC_4_4_row47 : List Int :=
  [0, 0, 0, 0, 0, 0, 0, 0, 0, 0, 0, 0, 0, 0, 0, 0, 0, 0, 0, 0, 0, 0, 0, 0, 0, 0, 0, 0, 0, 0, 0, 0, 0, 0, 0, 0, 0, 0, 0, 0, 0, 0, 0, 0, 0, 0, 0, 0, 0, 0, 0, 0, 0, 0, 0, 0, 0, 0, 0, 0, 0, 0, 0, 0, 0, 0, 0, 0, 0, 0, 0, 0, 0, 0, 0, 0, 0, 0, 0, 0, 0, 0, 0, 0, 0, 0, 0, 0, 0, 0]

/-- Row 48 (substitution-matrix row for byte code 48) of EDNAFULL_NUC_4_4. -/
def EDNAFULL_NUC_4_4_row48 : List Int :=
  [0, 0, 0, 0, 0, 0, 0, 0, 0, 0, 0, 0, 0, 0, 0, 0, 0, 0, 0, 0, 0, 0, 0, 0, 0, 0, 0, 0, 0, 0, 0, 0, 0, 0, 0, 0, 0, 0, 0, 0, 0, 0, 0, 0, 0, 0, 0, 0, 0, 0, 0, 0, 0, 0, 0, 0, 0, 0, 0, 0, 0, 0, 0, 0, 0, 0, 0, 0, 0, 0, 0, 0, 0, 0, 0, 0, 0, 0, 0, 0, 0, 0, 0, 0, 0, 0, 0, 0, 0, 0]

/-- Row 49 (substitution-matrix row for byte code 49) of EDNAFULL_NUC_4_4. -/
def EDNAFULL_NUC_4_4_row49 : List Int :=
  [0, 0, 0, 0, 0, 0, 0, 0, 0, 0, 0, 0, 0, 0, 0, 0, 0, 0, 0, 0, 0, 0, 0, 0, 0, 0, 0, 0, 0, 0, 0, 0, 0, 0, 0, 0, 0, 0, 0, 0, 0, 0, 0, 0, 0, 0, 0, 0, 0, 0, 0, 0, 0, 0, 0, 0, 0, 0, 0, 0, 0, 0, 0, 0, 0, 0, 0, 0, 0, 0, 0, 0, 0, 0, 0, 0, 0, 0, 0, 0, 0, 0, 0, 0, 0, 0, 0, 0, 0, 0]

/-- Row 50 (substitution-matrix row for byte code 50) of EDNAFULL_NUC_4_4. -/
def EDNAFULL_NUC_4_4_row50 : List Int :=
  [0, 0, 0, 0, 0, 0, 0, 0, 0, 0, 0, 0, 0, 0, 0, 0, 0, 0, 0, 0, 0, 0, 0, 0, 0, 0, 0, 0, 0, 0, 0, 0, 0, 0, 0, 0, 0, 0, 0, 0, 0, 0, 0, 0, 0, 0, 0, 0, 0, 0, 0, 0, 0, 0, 0, 0, 0, 0, 0, 0, 0, 0, 0, 0, 0, 0, 0, 0, 0, 0, 0, 0, 0, 0, 0, 0, 0, 0, 0, 0, 0, 0, 0, 0, 0, 0, 0, 0, 0, 0]

/-- Row 51 (substitution-matrix row for byte code 51) of EDNAFULL_NUC_4_4. -/
def EDNAFULL_NUC_4_4_row51 : List Int :=
  [0, 0, 0, 0, 0, 0, 0, 0, 0, 0, 0, 0, 0, 0, 0, 0, 0, 0, 0, 0, 0, 0, 0, 0, 0, 0, 0, 0, 0, 0, 0, 0, 0, 0, 0, 0, 0, 0, 0, 0, 0, 0, 0, 0, 0, 0, 0, 0, 0, 0, 0, 0, 0, 0, 0, 0, 0, 0, 0, 0, 0, 0, 0, 0, 0, 0, 0, 0, 0, 0, 0, 0, 0, 0, 0, 0, 0, 0, 0, 0, 0, 0, 0, 0, 0, 0, 0, 0, 0, 0]

/-- Row 52 (substitution-matrix row for byte code 52) of EDNAFULL_NUC_4_4. -/
def EDNAFULL_NUC_4_4_row52 : List Int :=
  [0, 0, 0, 0, 0, 0, 0, 0, 0, 0, 0, 0, 0, 0, 0, 0, 0, 0, 0, 0, 0, 0, 0, 0, 0, 0, 0, 0, 0, 0, 0, 0, 0, 0, 0, 0, 0, 0, 0, 0, 0, 0, 0, 0, 0, 0, 0, 0, 0, 0, 0, 0, 0, 0, 0, 0, 0, 0, 0, 0, 0, 0, 0, 0, 0, 0, 0, 0, 0, 0, 0, 0, 0, 0, 0, 0, 0, 0, 0, 0, 0, 0, 0, 0, 0, 0, 0, 0, 0, 0]

/-- Row 53 (substitution-matrix row for byte code 53) of EDNAFULL_NUC_4_4. -/
def EDNAFULL_NUC_4_4_row53 : List Int :=
  [0, 0, 0, 0, 0, 0, 0, 0, 0, 0, 0, 0, 0, 0, 0, 0, 0, 0, 0, 0, 0, 0, 0, 0, 0, 0, 0, 0, 0, 0, 0, 0, 0, 0, 0, 0, 0, 0, 0, 0, 0, 0, 0, 0, 0, 0, 0, 0, 0, 0, 0, 0, 0, 0, 0, 0, 0, 0, 0, 0, 0, 0, 0, 0, 0, 0, 0, 0, 0, 0, 0, 0, 0, 0, 0, 0, 0, 0, 0, 0, 0, 0, 0, 0, 0, 0, 0, 0, 0, 0]

/-- Row 54 (substitution-matrix row for byte code 54) of EDNAFULL_NUC_4_4. -/
def EDNAFULL_NUC_4_4_row54 : List Int :=
  [0, 0, 0, 0, 0, 0, 0, 0, 0, 0, 0, 0, 0, 0, 0, 0, 0, 0, 0, 0, 0, 0, 0, 0, 0, 0, 0, 0, 0, 0, 0, 0, 0, 0, 0, 0, 0, 0, 0, 0, 0, 0, 0, 0, 0, 0, 0, 0, 0, 0, 0, 0, 0, 0, 0, 0, 0, 0, 0, 0, 0, 0, 0, 0, 0, 0, 0, 0, 0, 0, 0, 0, 0, 0, 0, 0, 0, 0, 0, 0, 0, 0, 0, 0, 0, 0, 0, 0, 0, 0]

/-- Row 55 (substitution-matrix row for byte code 55) of EDNAFULL_NUC_4_4. -/
def EDNAFULL_NUC_4_4_row55 : List Int :=
  [0, 0, 0, 0, 0, 0, 0, 0, 0, 0, 0, 0, 0, 0, 0, 0, 0, 0, 0, 0, 0, 0, 0, 0, 0, 0, 0, 0, 0, 0, 0, 0, 0, 0, 0, 0, 0, 0, 0, 0, 0, 0, 0, 0, 0, 0, 0, 0, 0, 0, 0, 0, 0, 0, 0, 0, 0, 0, 0, 0, 0, 0, 0, 0, 0, 0, 0, 0, 0, 0, 0, 0, 0, 0, 0, 0, 0, 0, 0, 0, 0, 0, 0, 0, 0, 0, 0, 0, 0, 0]

/-- Row 56 (substitution-matrix row for byte code 56) of EDNAFULL_NUC_4_4. -/
def EDNAFULL_NUC_4_4_row56 : List Int :=
  [0, 0, 0, 0, 0, 0, 0, 0, 0, 0, 0, 0, 0, 0, 0, 0, 0, 0, 0, 0, 0, 0, 0, 0, 0, 0, 0, 0, 0, 0, 0, 0, 0, 0, 0, 0, 0, 0, 0, 0, 0, 0, 0, 0, 0, 0, 0, 0, 0, 0, 0, 0, 0, 0, 0, 0, 0, 0, 0, 0, 0, 0, 0, 0, 0, 0, 0, 0, 0, 0, 0, 0, 0, 0, 0, 0, 0, 0, 0, 0, 0, 0, 0, 0, 0, 0, 0, 0, 0, 0]

/-- Row 57 (substitution-matrix row for byte code 57) of EDNAFULL_NUC_4_4. -/
def EDNAFULL_NUC_4_4_row57 : List Int :=
  [0, 0, 0, 0, 0, 0, 0, 0, 0, 0, 0, 0, 0, 0, 0, 0, 0, 0, 0, 0, 0, 0, 0, 0, 0, 0, 0, 0, 0, 0, 0, 0, 0, 0, 0, 0, 0, 0, 0, 0, 0, 0, 0, 0, 0, 0, 0, 0, 0, 0, 0, 0, 0, 0, 0, 0, 0, 0, 0, 0, 0, 0, 0, 0, 0, 0, 0, 0, 0, 0, 0, 0, 0, 0, 0, 0, 0, 0, 0, 0, 0, 0, 0, 0, 0, 0, 0, 0, 0, 0]

/-- Row 58 (substitution-matrix row for byte code 58) of EDNAFULL_NUC_4_4. -/
def EDNAFULL_NUC_4_4_row58 : List Int :=
  [0, 0, 0, 0, 0, 0, 0, 0, 0, 0, 0, 0, 0, 0, 0, 0, 0, 0, 0, 0, 0, 0, 0, 0, 0, 0, 0, 0, 0, 0, 0, 0, 0, 0, 0, 0, 0, 0, 0, 0, 0, 0, 0, 0, 0, 0, 0, 0, 0, 0, 0, 0, 0, 0, 0, 0, 0, 0, 0, 0, 0, 0, 0, 0, 0, 0, 0, 0, 0, 0, 0, 0, 0, 0, 0, 0, 0, 0, 0, 0, 0, 0, 0, 0, 0, 0, 0, 0, 0, 0]

/-- Row 59 (substitution-matrix row for byte code 59) of EDNAFULL_NUC_4_4. -/
def EDNAFULL_NUC_4_4_row59 : List Int :=
  [0, 0, 0, 0, 0, 0, 0, 0, 0, 0, 0, 0, 0, 0, 0, 0, 0, 0, 0, 0, 0, 0, 0, 0, 0, 0, 0, 0, 0, 0, 0, 0, 0, 0, 0, 0, 0, 0, 0, 0, 0, 0, 0, 0, 0, 0, 0, 0, 0, 0, 0, 0, 0, 0, 0, 0, 0, 0, 0, 0, 0, 0, 0, 0, 0, 0, 0, 0, 0, 0, 0, 0, 0, 0, 0, 0, 0, 0, 0, 0, 0, 0, 0, 0, 0, 0, 0, 0, 0, 0]

/-- Row 60 (substitution-matrix row for byte code 60) of EDNAFULL_NUC_4_4. -/
def EDNAFULL_NUC_4_4_row60 : List Int :=
  [0, 0, 0, 0, 0, 0, 0, 0, 0, 0, 0, 0, 0, 0, 0, 0, 0, 0, 0, 0, 0, 0, 0, 0, 0, 0, 0, 0, 0, 0, 0, 0, 0, 0, 0, 0, 0, 0, 0, 0, 0, 0, 0, 0, 0, 0, 0, 0, 0, 0, 0, 0, 0, 0, 0, 0, 0, 0, 0, 0, 0, 0, 0, 0, 0, 0, 0, 0, 0, 0, 0, 0, 0, 0, 0, 0, 0, 0, 0, 0, 0, 0, 0, 0, 0, 0, 0, 0, 0, 0]

/-- Row 61 (substitution-matrix row for byte code 61) of EDNAFULL_NUC_4_4. -/
def EDNAFULL_NUC_4_4_row61 : List Int :=
  [0, 0, 0, 0, 0, 0, 0, 0, 0, 0, 0, 0, 0, 0, 0, 0, 0, 0, 0, 0, 0, 0, 0, 0, 0, 0, 0, 0, 0, 0, 0, 0, 0, 0, 0, 0, 0, 0, 0, 0, 0, 0, 0, 0, 0, 0, 0, 0, 0, 0, 0, 0, 0, 0, 0, 0, 0, 0, 0, 0, 0, 0, 0, 0, 0, 0, 0, 0, 0, 0, 0, 0, 0, 0, 0, 0, 0, 0, 0, 0, 0, 0, 0, 0, 0, 0, 0, 0, 0, 0]

/-- Row 62 (substitution-matrix row for byte code 62) of EDNAFULL_NUC_4_4. -/
def EDNAFULL_NUC_4_4_row62 : List Int :=
  [0, 0, 0, 0, 0, 0, 0, 0, 0, 0, 0, 0, 0, 0, 0, 0, 0, 0, 0, 0, 0, 0, 0, 0, 0, 0, 0, 0, 0, 0, 0, 0, 0, 0, 0, 0, 0, 0, 0, 0, 0, 0, 0, 0, 0, 0, 0, 0, 0, 0, 0, 0, 0, 0, 0, 0, 0, 0, 0, 0, 0, 0, 0, 0, 0, 0, 0, 0, 0, 0, 0, 0, 0, 0, 0, 0, 0, 0, 0, 0, 0, 0, 0, 0, 0, 0, 0, 0, 0, 0]

/-- Row 63 (substitution-matrix row for byte code 63) of EDNAFULL_NUC_4_4. -/
def EDNAFULL_NUC_4_4_row63 : List Int :=
  [0, 0, 0, 0, 0, 0, 0, 0, 0, 0, 0, 0, 0, 0, 0, 0, 0, 0, 0, 0, 0, 0, 0, 0, 0, 0, 0, 0, 0, 0, 0, 0, 0, 0, 0, 0, 0, 0, 0, 0, 0, 0, 0, 0, 0, 0, 0, 0, 0, 0, 0, 0, 0, 0, 0, 0, 0, 0, 0, 0, 0, 0, 0, 0, 0, 0, 0, 0, 0, 0, 0, 0, 0, 0, 0, 0, 0, 0, 0, 0, 0, 0, 0, 0, 0, 0, 0, 0, 0, 0]

/-- Row 64 (substitution-matrix row for byte code 64) of EDNAFULL_NUC_4_4. -/
def EDNAFULL_NUC_4_4_row64 : List Int :=
  [0, 0, 0, 0, 0, 0, 0, 0, 0, 0, 0, 0, 0, 0, 0, 0, 0, 0, 0, 0, 0, 0, 0, 0, 0, 0, 0, 0, 0, 0, 0, 0, 0, 0, 0, 0, 0, 0, 0, 0, 0, 0, 0, 0, 0, 0, 0, 0, 0, 0, 0, 0, 0, 0, 0, 0, 0, 0, 0, 0, 0, 0, 0, 0, 0, 0, 0, 0, 0, 0, 0, 0, 0, 0, 0, 0, 0, 0, 0, 0, 0, 0, 0, 0, 0, 0, 0, 0, 0, 0]

/-- Row 65 (substitution-matrix row for byte code 65) of EDNAFULL_NUC_4_4. -/
def EDNAFULL_NUC_4_4_row65 : List Int :=
  [0, 0, 0, 0, 0, 0, 0, 0, 0, 0, 0, 0, 0, 0, 0, 0, 0, 0, 0, 0, 0, 0, 0, 0, 0, 0, 0, 0, 0, 0, 0, 0, 0, 0, 0, 0, 0, 0, 0, 0, 0, 0, 0, 0, 0, 0, 0, 0, 0, 0, 0, 0, 0, 0, 0, 0, 0, 0, 0, 0, 0, 0, 0, 0, 0, 5, -4, -4, -1, 0, 0, -4, -1, 0, 0, -4, 0, 1, -2, 0, 0, 0, 1, -4, -4, 0, -1, 1, 0, -4]

/-- Row 66 (substitution-matrix row for byte code 66) of EDNAFULL_NUC_4_4. -/
def EDNAFULL_NUC_4_4_row66 : List Int :=
  [0, 0, 0, 0, 0, 0, 0, 0, 0, 0, 0, 0, 0, 0, 0, 0, 0, 0, 0, 0, 0, 0, 0, 0, 0, 0, 0, 0, 0, 0, 0, 0, 0, 0, 0, 0, 0, 0, 0, 0, 0, 0, 0, 0, 0, 0, 0, 0, 0, 0, 0, 0, 0, 0, 0, 0, 0, 0, 0, 0, 0, 0, 0, 0, 0, -4, -1, -1, -2, 0, 0, -1, -2, 0, 0, -1, 0, -3, -1, 0, 0, 0, -3, -1, -1, 0, -2, -3, 0, -1]

/-- Row 67 (substitution-matrix row for byte code 67) of EDNAFULL_NUC_4_4. -/
def EDNAFULL_NUC_4_4_row67 : List Int :=
  [0, 0, 0, 0, 0, 0, 0, 0, 0, 0, 0, 0, 0, 0, 0, 0, 0, 0, 0, 0, 0, 0, 0, 0, 0, 0, 0, 0, 0, 0, 0, 0, 0, 0, 0, 0, 0, 0, 0, 0, 0, 0, 0, 0, 0, 0, 0, 0, 0, 0, 0, 0, 0, 0, 0, 0, 0, 0, 0, 0, 0, 0, 0, 0, 0, -4, -1, 5, -4, 0, 0, -4, -1, 0, 0, -4, 0, 1, -2, 0, 0, 0, -4, 1, -4, 0, -1, -4, 0, 1]

/-- Row 68 (substitution-matrix row for byte code 68) of EDNAFULL_NUC_4_4. -/
def EDNAFULL_NUC_4_4_row68 : List Int :=
  [0, 0, 0, 0, 0, 0, 0, 0, 0, 0, 0, 0, 0, 0, 0, 0, 0, 0, 0, 0, 0, 0, 0, 0, 0, 0, 0, 0, 0, 0, 0, 0, 0, 0, 0, 0, 0, 0, 0, 0, 0, 0, 0, 0, 0, 0, 0, 0, 0, 0, 0, 0, 0, 0, 0, 0, 0, 0, 0, 0, 0, 0, 0, 0, 0, -1, -2, -4, -1, 0, 0, -1, -2, 0, 0, -1, 0, -3, -1, 0, 0, 0, -1, -3, -1, 0, -2, -1, 0, -3]

/-- Row 69 (substitution-matrix row for byte code 69) of EDNAFULL_NUC_4_4. -/
def EDNAFULL_NUC_4_4_row69 : List Int :=
  [0, 0, 0, 0, 0, 0, 0, 0, 0, 0, 0, 0, 0, 0, 0, 0, 0, 0, 0, 0, 0, 0, 0, 0, 0, 0, 0, 0, 0, 0, 0, 0, 0, 0, 0, 0, 0, 0, 0, 0, 0, 0, 0, 0, 0, 0, 0, 0, 0, 0, 0, 0, 0, 0, 0, 0, 0, 0, 0, 0, 0, 0, 0, 0, 0, 0, 0, 0, 0, 0, 0, 0, 0, 0, 0, 0, 0, 0, 0, 0, 0, 0, 0, 0, 0, 0, 0, 0, 0, 0]

/-- Row 70 (substitution-matrix row for byte code 70) of EDNAFULL_NUC_4_4. -/
def EDNAFULL_NUC_4_4_row70 : List Int :=
  [0, 0, 0, 0, 0, 0, 0, 0, 0, 0, 0, 0, 0, 0, 0, 0, 0, 0, 0, 0, 0, 0, 0, 0, 0, 0, 0, 0, 0, 0, 0, 0, 0, 0, 0, 0, 0, 0, 0, 0, 0, 0, 0, 0, 0, 0, 0, 0, 0, 0, 0, 0, 0, 0, 0, 0, 0, 0, 0, 0, 0, 0, 0, 0, 0, 0, 0, 0, 0, 0, 0, 0, 0, 0, 0, 0, 0, 0, 0, 0, 0, 0, 0, 0, 0, 0, 0, 0, 0, 0]

/-- Row 71 (substitution-matrix row for byte code 71) of EDNAFULL_NUC_4_4. -/
def EDNAFULL_NUC_4_4_row71 : List Int :=
  [0, 0, 0, 0, 0, 0, 0, 0, 0, 0, 0, 0, 0, 0, 0, 0, 0, 0, 0, 0, 0, 0, 0, 0, 0, 0, 0, 0, 0, 0, 0, 0, 0, 0, 0, 0, 0, 0, 0, 0, 0, 0, 0, 0, 0, 0, 0, 0, 0, 0, 0, 0, 0, 0, 0, 0, 0, 0, 0, 0, 0, 0, 0, 0, 0, -4, -1, -4, -1, 0, 0, 5, -4, 0, 0, 1, 0, -4, -2, 0, 0, 0, 1, 1, -4, 0, -1, -4, 0, -4]

/-- Row 72 (substitution-matrix row for byte code 72) of EDNAFULL_NUC_4_4. -/
def EDNAFULL_NUC_4_4_row72 : List Int :=
  [0, 0, 0, 0, 0, 0, 0, 0, 0, 0, 0, 0, 0, 0, 0, 0, 0, 0, 0, 0, 0, 0, 0, 0, 0, 0, 0, 0, 0, 0, 0, 0, 0, 0, 0, 0, 0, 0, 0, 0, 0, 0, 0, 0, 0, 0, 0, 0, 0, 0, 0, 0, 0, 0, 0, 0, 0, 0, 0, 0, 0, 0, 0, 0, 0, -1, -2, -1, -2, 0, 0, -4, -1, 0, 0, -3, 0, -1, -1, 0, 0, 0, -3, -3, -1, 0, -2, -1, 0, -1]

/-- Row 73 (substitution-matrix row for byte code 73) of EDNAFULL_NUC_4_4. -/
def EDNAFULL_NUC_4_4_row73 : List Int :=
  [0, 0, 0, 0, 0, 0, 0, 0, 0, 0, 0, 0, 0, 0, 0, 0, 0, 0, 0, 0, 0, 0, 0, 0, 0, 0, 0, 0, 0, 0, 0, 0, 0, 0, 0, 0, 0, 0, 0, 0, 0, 0, 0, 0, 0, 0, 0, 0, 0, 0, 0, 0, 0, 0, 0, 0, 0, 0, 0, 0, 0, 0, 0, 0, 0, 0, 0, 0, 0, 0, 0, 0, 0, 0, 0, 0, 0, 0, 0, 0, 0, 0, 0, 0, 0, 0, 0, 0, 0, 0]

/-- Row 74 (substitution-matrix row for byte code 74) of EDNAFULL_NUC_4_4. -/
def EDNAFULL_NUC_4_4_row74 : List Int :=
  [0, 0, 0, 0, 0, 0, 0, 0, 0, 0, 0, 0, 0, 0, 0, 0, 0, 0, 0, 0, 0, 0, 0, 0, 0, 0, 0, 0, 0, 0, 0, 0, 0, 0, 0, 0, 0, 0, 0, 0, 0, 0, 0, 0, 0, 0, 0, 0, 0, 0, 0, 0, 0, 0, 0, 0, 0, 0, 0, 0, 0, 0, 0, 0, 0, 0, 0, 0, 0, 0, 0, 0, 0, 0, 0, 0, 0, 0, 0, 0, 0, 0, 0, 0, 0, 0, 0, 0, 0, 0]

/-- Row 75 (substitution-matrix row for byte code 75) of EDNAFULL_NUC_4_4. -/
def EDNAFULL_NUC_4_4_row75 : List Int :=
  [0, 0, 0, 0, 0, 0, 0, 0, 0, 0, 0, 0, 0, 0, 0, 0, 0, 0, 0, 0, 0, 0, 0, 0, 0, 0, 0, 0, 0, 0, 0, 0, 0, 0, 0, 0, 0, 0, 0, 0, 0, 0, 0, 0, 0, 0, 0, 0, 0, 0, 0, 0, 0, 0, 0, 0, 0, 0, 0, 0, 0, 0, 0, 0, 0, -4, -1, -4, -1, 0, 0, 1, -3, 0, 0, -1, 0, -4, -1, 0, 0, 0, -2, -2, 1, 0, -3, -2, 0, -2]

/-- Row 76 (substitution-matrix row for byte code 76) of EDNAFULL_NUC_4_4. -/
def EDNAFULL_NUC_4_4_row76 : List Int :=
  [0, 0, 0, 0, 0, 0, 0, 0, 0, 0, 0, 0, 0, 0, 0, 0, 0, 0, 0, 0, 0, 0, 0, 0, 0, 0, 0, 0, 0, 0, 0, 0, 0, 0, 0, 0, 0, 0, 0, 0, 0, 0, 0, 0, 0, 0, 0, 0, 0, 0, 0, 0, 0, 0, 0, 0, 0, 0, 0, 0, 0, 0, 0, 0, 0, 0, 0, 0, 0, 0, 0, 0, 0, 0, 0, 0, 0, 0, 0, 0, 0, 0, 0, 0, 0, 0, 0, 0, 0, 0]

/-- Row 77 (substitution-matrix row for byte code 77) of EDNAFULL_NUC_4_4. -/
def EDNAFULL_NUC_4_4_row77 : List Int :=
  [0, 0, 0, 0, 0, 0, 0, 0, 0, 0, 0, 0, 0, 0, 0, 0, 0, 0, 0, 0, 0, 0, 0, 0, 0, 0, 0, 0, 0, 0, 0, 0, 0, 0, 0, 0, 0, 0, 0, 0, 0, 0, 0, 0, 0, 0, 0, 0, 0, 0, 0, 0, 0, 0, 0, 0, 0, 0, 0, 0, 0, 0, 0, 0, 0, 1, -3, 1, -3, 0, 0, -4, -1, 0, 0, -4, 0, -1, -1, 0, 0, 0, -2, -2, -4, 0, -1, -2, 0, -2]

/-- Row 78 (substitution-matrix row for byte code 78) of EDNAFULL_NUC_4_4. -/
def EDNAFULL_NUC_4_4_row78 : List Int :=
  [0, 0, 0, 0, 0, 0, 0, 0, 0, 0, 0, 0, 0, 0, 0, 0, 0, 0, 0, 0, 0, 0, 0, 0, 0, 0, 0, 0, 0, 0, 0, 0, 0, 0, 0, 0, 0, 0, 0, 0, 0, 0, 0, 0, 0, 0, 0, 0, 0, 0, 0, 0, 0, 0, 0, 0, 0, 0, 0, 0, 0, 0, 0, 0, 0, -2, -1, -2, -1, 0, 0, -2, -1, 0, 0, -1, 0, -1, -1, 0, 0, 0, -1, -1, -2, 0, -1, -1, 0, -1]

/-- Row 79 (substitution-matrix row for byte code 79) of EDNAFULL_NUC_4_4. -/
def EDNAFULL_NUC_4_4_row79 : List Int :=
  [0, 0, 0, 0, 0, 0, 0, 0, 0, 0, 0, 0, 0, 0, 0, 0, 0, 0, 0, 0, 0, 0, 0, 0, 0, 0, 0, 0, 0, 0, 0, 0, 0, 0, 0, 0, 0, 0, 0, 0, 0, 0, 0, 0, 0, 0, 0, 0, 0, 0, 0, 0, 0, 0, 0, 0, 0, 0, 0, 0, 0, 0, 0, 0, 0, 0, 0, 0, 0, 0, 0, 0, 0, 0, 0, 0, 0, 0, 0, 0, 0, 0, 0, 0, 0, 0, 0, 0, 0, 0]

/-- Row 80 (substitution-matrix row for byte code 80) of EDNAFULL_NUC_4_4. -/
def EDNAFULL_NUC_4_4_row80 : List Int :=
  [0, 0, 0, 0, 0, 0, 0, 0, 0, 0, 0, 0, 0, 0, 0, 0, 0, 0, 0, 0, 0, 0, 0, 0, 0, 0, 0, 0, 0, 0, 0, 0, 0, 0, 0, 0, 0, 0, 0, 0, 0, 0, 0, 0, 0, 0, 0, 0, 0, 0, 0, 0, 0, 0, 0, 0, 0, 0, 0, 0, 0, 0, 0, 0, 0, 0, 0, 0, 0, 0, 0, 0, 0, 0, 0, 0, 0, 0, 0, 0, 0, 0, 0, 0, 0, 0, 0, 0, 0, 0]

/-- Row 81 (substitution-matrix row for byte code 81) of EDNAFULL_NUC_4_4. -/
def EDNAFULL_NUC_4_4_row81 : List Int :=
  [0, 0, 0, 0, 0, 0, 0, 0, 0, 0, 0, 0, 0, 0, 0, 0, 0, 0, 0, 0, 0, 0, 0, 0, 0, 0, 0, 0, 0, 0, 0, 0, 0, 0, 0, 0, 0, 0, 0, 0, 0, 0, 0, 0, 0, 0, 0, 0, 0, 0, 0, 0, 0, 0, 0, 0, 0, 0, 0, 0, 0, 0, 0, 0, 0, 0, 0, 0, 0, 0, 0, 0, 0, 0, 0, 0, 0, 0, 0, 0, 0, 0, 0, 0, 0, 0, 0, 0, 0, 0]

/-- Row 82 (substitution-matrix row for byte code 82) of EDNAFULL_NUC_4_4. -/
def EDNAFULL_NUC_4_4_row82 : List Int :=
  [0, 0, 0, 0, 0, 0, 0, 0, 0, 0, 0, 0, 0, 0, 0, 0, 0, 0, 0, 0, 0, 0, 0, 0, 0, 0, 0, 0, 0, 0, 0, 0, 0, 0, 0, 0, 0, 0, 0, 0, 0, 0, 0, 0, 0, 0, 0, 0, 0, 0, 0, 0, 0, 0, 0, 0, 0, 0, 0, 0, 0, 0, 0, 0, 0, 1, -3, -4, -1, 0, 0, 1, -3, 0, 0, -2, 0, -2, -1, 0, 0, 0, -1, -2, -4, 0, -1, -2, 0, -4]

/-- Row 83 (substitution-matrix row for byte code 83) of EDNAFULL_NUC_4_4. -/
def EDNAFULL_NUC_4_4_row83 : List Int :=
  [0, 0, 0, 0, 0, 0, 0, 0, 0, 0, 0, 0, 0, 0, 0, 0, 0, 0, 0, 0, 0, 0, 0, 0, 0, 0, 0, 0, 0, 0, 0, 0, 0, 0, 0, 0, 0, 0, 0, 0, 0, 0, 0, 0, 0, 0, 0, 0, 0, 0, 0, 0, 0, 0, 0, 0, 0, 0, 0, 0, 0, 0, 0, 0, 0, -4, -1, 1, -3, 0, 0, 1, -3, 0, 0, -2, 0, -2, -1, 0, 0, 0, -2, -1, -4, 0, -1, -4, 0, -2]

/-- Row 84 (substitution-matrix row for byte code 84) of EDNAFULL_NUC_4_4. -/
def EDNAFULL_NUC_4_4_row84 : List Int :=
  [0, 0, 0, 0, 0, 0, 0, 0, 0, 0, 0, 0, 0, 0, 0, 0, 0, 0, 0, 0, 0, 0, 0, 0, 0, 0, 0, 0, 0, 0, 0, 0, 0, 0, 0, 0, 0, 0, 0, 0, 0, 0, 0, 0, 0, 0, 0, 0, 0, 0, 0, 0, 0, 0, 0, 0, 0, 0, 0, 0, 0, 0, 0, 0, 0, -4, -1, -4, -1, 0, 0, -4, -1, 0, 0, 1, 0, -4, -2, 0, 0, 0, -4, -4, 5, 0, -4, 1, 0, 1]

/-- Row 85 (substitution-matrix row for byte code 85) of EDNAFULL_NUC_4_4. -/
def EDNAFULL_NUC_4_4_row85 : List Int :=
  [0, 0, 0, 0, 0, 0, 0, 0, 0, 0, 0, 0, 0, 0, 0, 0, 0, 0, 0, 0, 0, 0, 0, 0, 0, 0, 0, 0, 0, 0, 0, 0, 0, 0, 0, 0, 0, 0, 0, 0, 0, 0, 0, 0, 0, 0, 0, 0, 0, 0, 0, 0, 0, 0, 0, 0, 0, 0, 0, 0, 0, 0, 0, 0, 0, 0, 0, 0, 0, 0, 0, 0, 0, 0, 0, 0, 0, 0, 0, 0, 0, 0, 0, 0, 0, 0, 0, 0, 0, 0]

/-- Row 86 (substitution-matrix row for byte code 86) of EDNAFULL_NUC_4_4. -/
def EDNAFULL_NUC_4_4_row86 : List Int :=
  [0, 0, 0, 0, 0, 0, 0, 0, 0, 0, 0, 0, 0, 0, 0, 0, 0, 0, 0, 0, 0, 0, 0, 0, 0, 0, 0, 0, 0, 0, 0, 0, 0, 0, 0, 0, 0, 0, 0, 0, 0, 0, 0, 0, 0, 0, 0, 0, 0, 0, 0, 0, 0, 0, 0, 0, 0, 0, 0, 0, 0, 0, 0, 0, 0, -1, -2, -1, -2, 0, 0, -1, -2, 0, 0, -3, 0, -1, -1, 0, 0, 0, -1, -1, -4, 0, -1, -3, 0, -3]

/-- Row 87 (substitution-matrix row for byte code 87) of EDNAFULL_NUC_4_4. -/
def EDNAFULL_NUC_4_4_row87 : List Int :=
  [0, 0, 0, 0, 0, 0, 0, 0, 0, 0, 0, 0, 0, 0, 0, 0, 0, 0, 0, 0, 0, 0, 0, 0, 0, 0, 0, 0, 0, 0, 0, 0, 0, 0, 0, 0, 0, 0, 0, 0, 0, 0, 0, 0, 0, 0, 0, 0, 0, 0, 0, 0, 0, 0, 0, 0, 0, 0, 0, 0, 0, 0, 0, 0, 0, 1, -3, -4, -1, 0, 0, -4, -1, 0, 0, -2, 0, -2, -1, 0, 0, 0, -2, -4, 1, 0, -3, -1, 0, -2]

/-- Row 88 (substitution-matrix row for byte code 88) of EDNAFULL_NUC_4_4. -/
def EDNAFULL_NUC_4_4_row88 : List Int :=
  [0, 0, 0, 0, 0, 0, 0, 0, 0, 0, 0, 0, 0, 0, 0, 0, 0, 0, 0, 0, 0, 0, 0, 0, 0, 0, 0, 0, 0, 0, 0, 0, 0, 0, 0, 0, 0, 0, 0, 0, 0, 0, 0, 0, 0, 0, 0, 0, 0, 0, 0, 0, 0, 0, 0, 0, 0, 0, 0, 0, 0, 0, 0, 0, 0, 0, 0, 0, 0, 0, 0, 0, 0, 0, 0, 0, 0, 0, 0, 0, 0, 0, 0, 0, 0, 0, 0, 0, 0, 0]

/-- Row 89 (substitution-matrix row for byte code 89) of EDNAFULL_NUC_4_4. -/
def EDNAFULL_NUC_4_4_row89 : List Int :=
  [0, 0, 0, 0, 0, 0, 0, 0, 0, 0, 0, 0, 0, 0, 0, 0, 0, 0, 0, 0, 0, 0, 0, 0, 0, 0, 0, 0, 0, 0, 0, 0, 0, 0, 0, 0, 0, 0, 0, 0, 0, 0, 0, 0, 0, 0, 0, 0, 0, 0, 0, 0, 0, 0, 0, 0, 0, 0, 0, 0, 0, 0, 0, 0, 0, -4, -1, 1, -3, 0, 0, -4, -1, 0, 0, -2, 0, -2, -1, 0, 0, 0, -4, -2, 1, 0, -3, -2, 0, -1]

/-- The 90 rows of the EDNAFULL_NUC_4_4 table, in order (row index = second
byte b of a lookup). -/
def EDNAFULL_NUC_4_4_rows : List (List Int) :=
  [EDNAFULL_NUC_4_4_row0,
   EDNAFULL_NUC_4_4_row1,
   EDNAFULL_NUC_4_4_row2,
   EDNAFULL_NUC_4_4_row3,
   EDNAFULL_NUC_4_4_row4,
   EDNAFULL_NUC_4_4_row5,
   EDNAFULL_NUC_4_4_row6,
   EDNAFULL_NUC_4_4_row7,
   EDNAFULL_NUC_4_4_row8,
   EDNAFULL_NUC_4_4_row9,
   EDNAFULL_NUC_4_4_row10,
   EDNAFULL_NUC_4_4_row11,
   EDNAFULL_NUC_4_4_row12,
   EDNAFULL_NUC_4_4_row13,
   EDNAFULL_NUC_4_4_row14,
   EDNAFULL_NUC_4_4_row15,
   EDNAFULL_NUC_4_4_row16,
   EDNAFULL_NUC_4_4_row17,
   EDNAFULL_NUC_4_4_row18,
   EDNAFULL_NUC_4_4_row19,
   EDNAFULL_NUC_4_4_row20,
   EDNAFULL_NUC_4_4_row21,
   EDNAFULL_NUC_4_4_row22,
   EDNAFULL_NUC_4_4_row23,
   EDNAFULL_NUC_4_4_row24,
   EDNAFULL_NUC_4_4_row25,
   EDNAFULL_NUC_4_4_row26,
   EDNAFULL_NUC_4_4_row27,
   EDNAFULL_NUC_4_4_row28,
   EDNAFULL_NUC_4_4_row29,
   EDNAFULL_NUC_4_4_row30,
   EDNAFULL_NUC_4_4_row31,
   EDNAFULL_NUC_4_4_row32,
   EDNAFULL_NUC_4_4_row33,
   EDNAFULL_NUC_4_4_row34,
   EDNAFULL_NUC_4_4_row35,
   EDNAFULL_NUC_4_4_row36,
   EDNAFULL_NUC_4_4_row37,
   EDNAFULL_NUC_4_4_row38,
   EDNAFULL_NUC_4_4_row39,
   EDNAFULL_NUC_4_4_row40,
   EDNAFULL_NUC_4_4_row41,
   EDNAFULL_NUC_4_4_row42,
   EDNAFULL_NUC_4_4_row43,
   EDNAFULL_NUC_4_4_row44,
   EDNAFULL_NUC_4_4_row45,
   EDNAFULL_NUC_4_4_row46,
   EDNAFULL_NUC_4_4_row47,
   EDNAFULL_NUC_4_4_row48,
   EDNAFULL_NUC_4_4_row49,
   EDNAFULL_NUC_4_4_row50,
   EDNAFULL_NUC_4_4_row51,
   EDNAFULL_NUC_4_4_row52,
   EDNAFULL_NUC_4_4_row53,
   EDNAFULL_NUC_4_4_row54,
   EDNAFULL_NUC_4_4_row55,
   EDNAFULL_NUC_4_4_row56,
   EDNAFULL_NUC_4_4_row57,
   EDNAFULL_NUC_4_4_row58,
   EDNAFULL_NUC_4_4_row59,
   EDNAFULL_NUC_4_4_row60,
   EDNAFULL_NUC_4_4_row61,
   EDNAFULL_NUC_4_4_row62,
   EDNAFULL_NUC_4_4_row63,
   EDNAFULL_NUC_4_4_row64,
   EDNAFULL_NUC_4_4_row65,
   EDNAFULL_NUC_4_4_row66,
   EDNAFULL_NUC_4_4_row67,
   EDNAFULL_NUC_4_4_row68,
   EDNAFULL_NUC_4_4_row69,
   EDNAFULL_NUC_4_4_row70,
   EDNAFULL_NUC_4_4_row71,
   EDNAFULL_NUC_4_4_row72,
   EDNAFULL_NUC_4_4_row73,
   EDNAFULL_NUC_4_4_row74,
   EDNAFULL_NUC_4_4_row75,
   EDNAFULL_NUC_4_4_row76,
   EDNAFULL_NUC_4_4_row77,
   EDNAFULL_NUC_4_4_row78,
   EDNAFULL_NUC_4_4_row79,
   EDNAFULL_NUC_4_4_row80,
   EDNAFULL_NUC_4_4_row81,
   EDNAFULL_NUC_4_4_row82,
   EDNAFULL_NUC_4_4_row83,
   EDNAFULL_NUC_4_4_row84,
   EDNAFULL_NUC_4_4_row85,
   EDNAFULL_NUC_4_4_row86,
   EDNAFULL_NUC_4_4_row87,
   EDNAFULL_NUC_4_4_row88,
   EDNAFULL_NUC_4_4_row89]

/-- The EDNAFULL (NUC4.4) substitution table as the flat 8100-element array of
the C source (row-major concatenation of the 90 rows of 90 entries). -/
def EDNAFULL_NUC_4_4 : List Int :=
  EDNAFULL_NUC_4_4_rows.flatten

/-- Source: get_nuc_4_4_value(char a, char b) returns
EDNAFULL_NUC_4_4[(size_t)a + 90 * (size_t)b].  The C code performs the read
with no bounds check; an index at or beyond 8100 reads out of bounds, which
we model as Option.none.  To keep evaluation shallow the definition reads the
table row by row; theorem get_nuc_4_4_value_eq_flat proves it equal to the
flat-array read of the C source. -/
def get_nuc_4_4_value (a b : Nat) : Option Int :=
  if a + 90 * b < 8100 then
    some ((EDNAFULL_NUC_4_4_rows.getD ((a + 90 * b) / 90) []).getD ((a + 90 * b) % 90) 0)
  else
    none

/-- Total wrapper used when passing the substitution function to the
alignment kernel (the C code passes the function pointer get_nuc_4_4_value).
For byte pairs whose lookup index is in bounds this agrees with the C code;
the default 0 is never exercised by theorems whose inputs keep both byte
values below 90. -/
def get_nuc_4_4 (a b : Char) : Int :=
  (get_nuc_4_4_value a.toNat b.toNat).getD 0

/-- The fifteen byte codes whose rows and columns of EDNAFULL_NUC_4_4 hold a
non-zero entry: A B C D G H K M N R S T V W Y. -/
def nuc44_recognized (c : Nat) : Bool :=
  [65, 66, 67, 68, 71, 72, 75, 77, 78, 82, 83, 84, 86, 87, 89].contains c

/-- Single-pass checker for one table row: every entry whose column byte a or
row byte b is not recognized equals 0.  The Nat argument is the column index
of the head of the remaining list. -/
def nuc44_row_zero_check (b : Nat) : Nat → List Int → Bool
  | _, [] => true
  | a, v :: rest =>
    (if nuc44_recognized a && nuc44_recognized b then true else v == 0)
      && nuc44_row_zero_check b (a + 1) rest

/-- Single-pass checker over the whole table: every entry outside the
recognized-by-recognized block equals 0.  The Nat argument is the row index
of the head of the remaining list of rows. -/
def nuc44_zero_check : Nat → List (List Int) → Bool
  | _, [] => true
  | b, row :: rest => nuc44_row_zero_check b 0 row && nuc44_zero_check (b + 1) rest

/-- Source: complement_dna_base(char base) returns the complement of a DNA
base; for an unexpected base the C function prints an error and returns the
null character, which this model returns as Char.ofNat 0.  The source switch
has no case for K, k, R and r. -/
def complement_dna_base (c : Char) : Char :=
  if c = 'A' then 'T' else if c = 'a' then 't'
  else if c = 'B' then 'V' else if c = 'b' then 'v'
  else if c = 'C' then 'G' else if c = 'c' then 'g'
  else if c = 'D' then 'H' else if c = 'd' then 'h'
  else if c = 'G' then 'C' else if c = 'g' then 'c'
  else if c = 'H' then 'D' else if c = 'h' then 'd'
  else if c = 'M' then 'K' else if c = 'm' then 'k'
  else if c = 'N' then 'N' else if c = 'n' then 'n'
  else if c = 'S' then 'S' else if c = 's' then 's'
  else if c = 'T' then 'A' else if c = 't' then 'a'
  else if c = 'U' then 'A' else if c = 'u' then 'a'
  else if c = 'V' then 'B' else if c = 'v' then 'b'
  else if c = 'W' then 'W' else if c = 'w' then 'w'
  else if c = 'Y' then 'R' else if c = 'y' then 'r'
  else Char.ofNat 0

/-- Source: get_reverse_complement writes the complement of character i of
the input at position (length - 1 - i) of the output, i.e. it returns the
reversed character-wise complement. -/
def get_reverse_complement (s : List Char) : List Char :=
  (s.map complement_dna_base).reverse

/-- Source: best_linear_gap_smith_waterman_score(left, up_left, up, a, b,
subst, gap_penalty) = max(max(max(left - G, up - G), up_left + subst(a, b)), 0). -/
def best_linear_gap_smith_waterman_score (left up_left up : Int) (a b : Char)
    (subst : Char → Char → Int) (gap_penalty : Int) : Int :=
  max (max (max (left - gap_penalty) (up - gap_penalty)) (up_left + subst a b)) 0

/-- One iteration of the first-row loop of linear_gap_smith_waterman:
scores[j] = best(scores[j-1], 0, 0, seq_X[0], seq_Y[j]). -/
def sw_row0_step (seq_X seq_Y : List Char) (subst : Char → Char → Int) (G : Int)
    (sc : List Int) (j : Nat) : List Int :=
  sc.set j (best_linear_gap_smith_waterman_score (sc.getD (j - 1) 0) 0 0
    (seq_X.getD 0 ' ') (seq_Y.getD j ' ') subst G)

/-- One iteration of the inner loop of linear_gap_smith_waterman for row i:
scores[i*len_Y + j] = best(scores[i*len_Y + j - 1], scores[(i-1)*len_Y + j - 1],
scores[(i-1)*len_Y + j], seq_X[i], seq_Y[j]). -/
def sw_inner_step (seq_X seq_Y : List Char) (subst : Char → Char → Int) (G : Int)
    (i : Nat) (sc : List Int) (j : Nat) : List Int :=
  sc.set (i * seq_Y.length + j) (best_linear_gap_smith_waterman_score
    (sc.getD (i * seq_Y.length + j - 1) 0)
    (sc.getD ((i - 1) * seq_Y.length + (j - 1)) 0)
    (sc.getD ((i - 1) * seq_Y.length + j) 0)
    (seq_X.getD i ' ') (seq_Y.getD j ' ') subst G)

/-- One iteration of the outer loop of linear_gap_smith_waterman (row i >= 1):
first the column-0 cell scores[i*len_Y] = best(0, 0, scores[(i-1)*len_Y],
seq_X[i], seq_Y[0]), then the inner loop over j = 1 .. len_Y - 1. -/
def sw_row_step (seq_X seq_Y : List Char) (subst : Char → Char → Int) (G : Int)
    (sc : List Int) (i : Nat) : List Int :=
  (List.range' 1 (seq_Y.length - 1)).foldl (sw_inner_step seq_X seq_Y subst G i)
    (sc.set (i * seq_Y.length) (best_linear_gap_smith_waterman_score 0 0
      (sc.getD ((i - 1) * seq_Y.length) 0) (seq_X.getD i ' ') (seq_Y.getD 0 ' ') subst G))

/-- Source: linear_gap_smith_waterman fills the caller-provided scores array
in place, row-major: cell (0,0), then the rest of row 0 (j = 1 .. len_Y - 1),
then each row i = 1 .. len_X - 1 (column 0 followed by j = 1 .. len_Y - 1).
The scores parameter holds the (arbitrary, uninitialized) contents of the
malloc allocation. -/
def linear_gap_smith_waterman (seq_X seq_Y : List Char) (scores : List Int)
    (subst : Char → Char → Int) (G : Int) : List Int :=
  (List.range' 1 (seq_X.length - 1)).foldl (sw_row_step seq_X seq_Y subst G)
    ((List.range' 1 (seq_Y.length - 1)).foldl (sw_row0_step seq_X seq_Y subst G)
      (scores.set 0 (best_linear_gap_smith_waterman_score 0 0 0
        (seq_X.getD 0 ' ') (seq_Y.getD 0 ' ') subst G)))

/-- Source: best_linear_gap_smith_waterman_score_indices scans the matrix in
row-major order with a running best score initialized to the sentinel -1 and
keeps the indices of the first cell strictly greater than the running best.
Returns none when either dimension is zero (the C function returns false). -/
def best_linear_gap_smith_waterman_score_indices (len_X len_Y : Nat) (Z : List Int) :
    Option (Nat × Nat) :=
  if len_X = 0 ∨ len_Y = 0 then none
  else
    some (((List.range len_X).foldl (fun st i =>
      (List.range len_Y).foldl (fun (st : Int × Nat × Nat) j =>
        if Z.getD (i * len_Y + j) 0 > st.1 then (Z.getD (i * len_Y + j) 0, i, j) else st) st)
      ((-1 : Int), 0, 0)).2)

/-- The while loop of trace_linear_gap_smith_waterman.  Returns the emitted
alignment columns in emission order together with a flag telling whether the
loop exited through a break statement (true) or through the loop condition
score == 0 (false), and the final cell indices.  Option.none models the
assert(false) branch (internally inconsistent matrix).  The current score
variable of the C loop always equals Z[x*len_Y + y] at the loop head, so the
model reads the matrix directly. -/
def traceColumns (seq_X seq_Y : List Char) (Z : List Int) (subst : Char → Char → Int)
    (G : Int) : Nat → Nat → Option (List (Char × Char) × Bool × Nat × Nat)
  | x, y =>
    if Z.getD (x * seq_Y.length + y) 0 = 0 then
      some ([], false, x, y)
    else if hxy : x = 0 ∨ y = 0 then
      some ([(seq_X.getD x ' ', seq_Y.getD y ' ')], true, x, y)
    else if Z.getD (x * seq_Y.length + y - 1) 0 - G = Z.getD (x * seq_Y.length + y) 0 then
      (traceColumns seq_X seq_Y Z subst G x (y - 1)).map
        (fun r => (('-', seq_Y.getD y ' ') :: r.1, r.2))
    else if Z.getD ((x - 1) * seq_Y.length + (y - 1)) 0
        + subst (seq_X.getD x ' ') (seq_Y.getD y ' ') = Z.getD (x * seq_Y.length + y) 0 then
      if Z.getD ((x - 1) * seq_Y.length + (y - 1)) 0 = 0 then
        some ([(seq_X.getD x ' ', seq_Y.getD y ' ')], true, x, y)
      else
        (traceColumns seq_X seq_Y Z subst G (x - 1) (y - 1)).map
          (fun r => ((seq_X.getD x ' ', seq_Y.getD y ' ') :: r.1, r.2))
    else if Z.getD ((x - 1) * seq_Y.length + y) 0 - G = Z.getD (x * seq_Y.length + y) 0 then
      (traceColumns seq_X seq_Y Z subst G (x - 1) y).map
        (fun r => ((seq_X.getD x ' ', '-') :: r.1, r.2))
    else
      none
termination_by x y => x + y
decreasing_by all_goals omega

/-- Sequential buffer writes trace[p], trace[p+1], ... (the writes performed
at alignment_index during the trace loop). -/
def write_trace_chars : List Char → Nat → List Char → List Char
  | buf, _, [] => buf
  | buf, p, c :: cs => write_trace_chars (buf.set p c) (p + 1) cs

/-- One swap of the in-place reversal loop: exchanges buffer cells i and k. -/
def swap_trace_cells (buf : List Char) (i k : Nat) : List Char :=
  (buf.set i (buf.getD k ' ')).set k (buf.getD i ' ')

/-- The in-place reversal loop of trace_linear_gap_smith_waterman: for
i < alignment_length >> 1, swap cells i and alignment_index - i. -/
def reverse_trace (buf : List Char) (alignment_index : Nat) : List Char :=
  (List.range ((alignment_index + 1) / 2)).foldl
    (fun b i => swap_trace_cells b i (alignment_index - i)) buf

/-- Source: trace_linear_gap_smith_waterman.  The trace_X / trace_Y
parameters hold the (arbitrary, uninitialized) contents of the caller's
buffer allocations.  After the walk the C code sets alignment_length =
alignment_index + 1 — where alignment_index was NOT incremented by the
break-exits but was left equal to the number of emitted columns by a
condition-exit — writes the terminators and reverses both buffers in place;
the returned strings are the first alignment_length characters of the
reversed buffers.  none models the entry assert on empty sequences or the
assert(false) of the walk. -/
def trace_linear_gap_smith_waterman (seq_X seq_Y : List Char) (Z : List Int)
    (trace_X trace_Y : List Char) (x y : Nat) (subst : Char → Char → Int) (G : Int) :
    Option (List Char × List Char × Nat × Nat) :=
  if seq_X.length = 0 ∨ seq_Y.length = 0 then none
  else
    match traceColumns seq_X seq_Y Z subst G x y with
    | none => none
    | some (cs, brk, x2, y2) =>
      let alignment_index := if brk then cs.length - 1 else cs.length
      let alignment_length := alignment_index + 1
      some ((reverse_trace (write_trace_chars trace_X 0 (cs.map Prod.fst)) alignment_index).take
              alignment_length,
            (reverse_trace (write_trace_chars trace_Y 0 (cs.map Prod.snd)) alignment_index).take
              alignment_length,
            x2, y2)

/-- Source: get_linear_gap_smith_waterman_score.  Allocates the scoring
matrix (len_X * len_Y int64 cells) and the two trace buffers of stop_X +
stop_Y + 3 chars, fills the matrix, locates the best cell, runs the
traceback starting there, and returns the score Z[stop_X * len_Y + stop_Y]
together with the stop and start indices and the trace strings.  The scoring
kernel overwrites every matrix cell, so the malloc contents of the matrix
are modelled as zeros; the trace buffers are uninitialized and their
arbitrary contents are modelled by the garbage character. -/
def get_linear_gap_smith_waterman_score (seq_X seq_Y : List Char)
    (subst : Char → Char → Int) (G : Int) (garbage : Char) :
    Option (Int × (Nat × Nat) × (Nat × Nat) × List Char × List Char) :=
  let Z := linear_gap_smith_waterman seq_X seq_Y
    (List.replicate (seq_X.length * seq_Y.length) 0) subst G
  match best_linear_gap_smith_waterman_score_indices seq_X.length seq_Y.length Z with
  | none => none
  | some (stop_X, stop_Y) =>
    match trace_linear_gap_smith_waterman seq_X seq_Y Z
        (List.replicate (stop_X + stop_Y + 3) garbage)
        (List.replicate (stop_X + stop_Y + 3) garbage) stop_X stop_Y subst G with
    | none => none
    | some (tX, tY, start_X, start_Y) =>
      some (Z.getD (stop_X * seq_Y.length + stop_Y) 0, (stop_X, stop_Y),
        (start_X, start_Y), tX, tY)

/-- The loop body of count_mismatches, processing the alignment columns in
order and accumulating (identical, gaps_X, gaps_Y, mismatches). -/
def count_mismatches_loop : List (Char × Char) → Nat × Nat × Nat × Nat
  | [] => (0, 0, 0, 0)
  | (a, b) :: rest =>
    let r := count_mismatches_loop rest
    if a = b then
      if a = '-' then (r.1, r.2.1 + 1, r.2.2.1 + 1, r.2.2.2 + 1)
      else (r.1 + 1, r.2.1, r.2.2.1, r.2.2.2)
    else
      (r.1,
       (if a = '-' then r.2.1 + 1 else r.2.1),
       (if a ≠ '-' ∧ b = '-' then r.2.2.1 + 1 else r.2.2.1),
       r.2.2.2 + 1)

/-- Source: count_mismatches(trace_X, trace_Y, ...) asserts the two traces
have equal length (modelled as none) and counts identical columns, gaps and
mismatches over the columns. -/
def count_mismatches (trace_X trace_Y : List Char) : Option (Nat × Nat × Nat × Nat) :=
  if trace_X.length = trace_Y.length then
    some (count_mismatches_loop (trace_X.zip trace_Y))
  else none

/-- The two Smith-Waterman Score fields written per read by handle_fastq_tsv:
the first row carries smith_waterman_score from the forward alignment; the
second (Reverse_Complement_-prefixed) row is formatted from the same
smith_waterman_score variable (source line with the second fprintf), while
reverse_complement_smith_waterman_score is assigned from the second
alignment but never printed. -/
def handle_fastq_tsv_row_scores (query_sequence sequence : List Char) (G : Int)
    (garbage : Char) : Option (Int × Int) :=
  match get_linear_gap_smith_waterman_score query_sequence sequence get_nuc_4_4 G garbage with
  | none => none
  | some (smith_waterman_score, _, _, _, _) =>
    match get_linear_gap_smith_waterman_score (get_reverse_complement query_sequence)
        sequence get_nuc_4_4 G garbage with
    | none => none
    | some (_reverse_complement_smith_waterman_score, _, _, _, _) =>
      some (smith_waterman_score, smith_waterman_score)

/-- The per-section character loop of the pair-format body: starting from the
running counter, add one for every non-gap character of the section. -/
def pair_section_nongap_count (prev : Nat) (chars : List Char) : Nat :=
  chars.foldl (fun c ch => if ch ≠ '-' then c + 1 else c) prev

/-- The coordinate bookkeeping of the body of
generate_int_linear_gap_penalty_pair_alignment: for each full 50-column
section and for the remainder section (when alignment_length mod 50 is not
zero), the pair ((starting_X, current_X), (starting_Y, current_Y)) printed on
the section's two sequence lines.  starting = prev + 1 when current > prev
(the section consumed at least one non-gap character), else prev. -/
def generate_pair_alignment_coords (trace_X trace_Y : List Char) :
    List ((Nat × Nat) × (Nat × Nat)) :=
  let alignment_length := trace_X.length
  let alignment_quotient := alignment_length / 50
  let alignment_remaining := alignment_length % 50
  let st := (List.range alignment_quotient).foldl
    (fun (st : Nat × Nat × List ((Nat × Nat) × (Nat × Nat))) i =>
      let current_X := pair_section_nongap_count st.1 ((trace_X.drop (i * 50)).take 50)
      let current_Y := pair_section_nongap_count st.2.1 ((trace_Y.drop (i * 50)).take 50)
      let starting_X := if current_X > st.1 then st.1 + 1 else st.1
      let starting_Y := if current_Y > st.2.1 then st.2.1 + 1 else st.2.1
      (current_X, current_Y, st.2.2 ++ [((starting_X, current_X), (starting_Y, current_Y))]))
    (0, 0, [])
  if alignment_remaining ≠ 0 then
    let current_X := pair_section_nongap_count st.1
      ((trace_X.drop (alignment_quotient * 50)).take alignment_remaining)
    let current_Y := pair_section_nongap_count st.2.1
      ((trace_Y.drop (alignment_quotient * 50)).take alignment_remaining)
    let starting_X := if current_X > st.1 then st.1 + 1 else st.1
    let starting_Y := if current_Y > st.2.1 then st.2.1 + 1 else st.2.1
    st.2.2 ++ [((starting_X, current_X), (starting_Y, current_Y))]
  else st.2.2

/-- Value of a nonempty digit string read by the %lld conversion. -/
def sscanf_lld_digits (ds : List Char) : Nat :=
  ds.foldl (fun a c => a * 10 + (c.toNat - 48)) 0

/-- Modelled C99 semantics of sscanf(optarg, "%lld", &v): skip leading white
space; an end of input before any conversion is an input failure and sscanf
returns EOF (modelled none); an optional sign followed by at least one
decimal digit converts successfully (modelled some (some v), ignoring any
trailing characters); otherwise the conversion is a matching failure and
sscanf returns 0 without assigning v (modelled some none). -/
def sscanf_lld (cs : List Char) : Option (Option Int) :=
  match cs.dropWhile Char.isWhitespace with
  | [] => none
  | c :: rest =>
    if c = '-' then
      match rest.takeWhile Char.isDigit with
      | [] => some none
      | ds => some (some (-(sscanf_lld_digits ds : Int)))
    else if c = '+' then
      match rest.takeWhile Char.isDigit with
      | [] => some none
      | ds => some (some ((sscanf_lld_digits ds : Int)))
    else
      match (c :: rest).takeWhile Char.isDigit with
      | [] => some none
      | ds => some (some ((sscanf_lld_digits ds : Int)))

/-- The case P of parse_ednafull_linear_smith_waterman_options: a parse
error (return 1) exactly when sscanf returned EOF; on a matching failure the
gap_penalty variable keeps its previous value (16, set by main before
parsing); on a successful conversion the converted value is kept. -/
def parse_gap_penalty_option (optarg : List Char) (gap_penalty : Int) : Option Int :=
  match sscanf_lld optarg with
  | none => none
  | some none => some gap_penalty
  | some (some v) => some v

/-- The example substitution function of the sample program:
s(a, b) = (int)(a == b) * 6 - 3, i.e. +3 on a match and -3 on a mismatch. -/
def get_example_substitution (a b : Char) : Int :=
  ((if a = b then (1 : Int) else 0)) * 6 - 3

/-- The three predecessor rules of the traceback engine, in the priority
order stated by the specification: left gap, then diagonal, then up gap. -/
inductive TraceRule where
  | leftGap : TraceRule
  | diagonal : TraceRule
  | upGap : TraceRule
deriving DecidableEq

/-- The declared priority list of the specification: rule 1 (left gap) over
rule 2 (diagonal) over rule 3 (up gap). -/
def trace_rule_priority : List TraceRule :=
  [TraceRule.leftGap, TraceRule.diagonal, TraceRule.upGap]

/-- Whether a predecessor rule reproduces the current cell value, as worded
by the specification: left gap checks Z[i,j-1] - G == Z[i,j]; diagonal
checks Z[i-1,j-1] + score(X[i], Y[j]) == Z[i,j]; up gap checks
Z[i-1,j] - G == Z[i,j]. -/
def trace_rule_holds (seq_X seq_Y : List Char) (Z : List Int)
    (subst : Char → Char → Int) (G : Int) (x y : Nat) : TraceRule → Bool
  | TraceRule.leftGap =>
    decide (Z.getD (x * seq_Y.length + y - 1) 0 - G = Z.getD (x * seq_Y.length + y) 0)
  | TraceRule.diagonal =>
    decide (Z.getD ((x - 1) * seq_Y.length + (y - 1)) 0
      + subst (seq_X.getD x ' ') (seq_Y.getD y ' ') = Z.getD (x * seq_Y.length + y) 0)
  | TraceRule.upGap =>
    decide (Z.getD ((x - 1) * seq_Y.length + y) 0 - G = Z.getD (x * seq_Y.length + y) 0)

/-- The traceback walk as worded by the specification: stop without emitting
on a zero cell; at a boundary cell (i == 0 or j == 0) emit one final no-gap
column and stop; otherwise select the first rule of the declared priority
list whose check holds and apply it, stopping after a diagonal step whose
diagonal predecessor is zero; fail when no rule matches. -/
def spec_trace_walk (seq_X seq_Y : List Char) (Z : List Int)
    (subst : Char → Char → Int) (G : Int) : Nat → Nat → Option (List (Char × Char) × Nat × Nat)
  | x, y =>
    if Z.getD (x * seq_Y.length + y) 0 = 0 then some ([], x, y)
    else if hxy : x = 0 ∨ y = 0 then
      some ([(seq_X.getD x ' ', seq_Y.getD y ' ')], x, y)
    else
      match trace_rule_priority.find? (trace_rule_holds seq_X seq_Y Z subst G x y) with
      | none => none
      | some TraceRule.leftGap =>
        (spec_trace_walk seq_X seq_Y Z subst G x (y - 1)).map
          (fun r => (('-', seq_Y.getD y ' ') :: r.1, r.2))
      | some TraceRule.diagonal =>
        if Z.getD ((x - 1) * seq_Y.length + (y - 1)) 0 = 0 then
          some ([(seq_X.getD x ' ', seq_Y.getD y ' ')], x, y)
        else
          (spec_trace_walk seq_X seq_Y Z subst G (x - 1) (y - 1)).map
            (fun r => ((seq_X.getD x ' ', seq_Y.getD y ' ') :: r.1, r.2))
      | some TraceRule.upGap =>
        (spec_trace_walk seq_X seq_Y Z subst G (x - 1) y).map
          (fun r => ((seq_X.getD x ' ', '-') :: r.1, r.2))
termination_by x y => x + y
decreasing_by all_goals omega

/-- The specification-side description of the whole traceback: walk from the
given cell collecting columns, then both output strings read left-to-right
as the reverses of the emitted column characters. -/
def spec_trace (seq_X seq_Y : List Char) (Z : List Int)
    (subst : Char → Char → Int) (G : Int) (x y : Nat) :
    Option (List Char × List Char × Nat × Nat) :=
  match spec_trace_walk seq_X seq_Y Z subst G x y with
  | none => none
  | some (cols, x2, y2) =>
    some ((cols.map Prod.fst).reverse, (cols.map Prod.snd).reverse, x2, y2)

-- #### MORE_DEFS ####

-- #### THEOREMS ####

theorem nuc44_rows_length : EDNAFULL_NUC_4_4_rows.length = 90 := by decide

theorem nuc44_row_length : ∀ q, q < 90 → (EDNAFULL_NUC_4_4_rows.getD q []).length = 90 := by
  decide

theorem nuc44_check_true : nuc44_zero_check 0 EDNAFULL_NUC_4_4_rows = true := by decide

theorem nuc44_recognized_bounds (c : Nat) (h : nuc44_recognized c = true) : 65 ≤ c ∧ c < 90 := by
  have hmem : c ∈ [65, 66, 67, 68, 71, 72, 75, 77, 78, 82, 83, 84, 86, 87, 89] := by
    rw [nuc44_recognized] at h
    simpa using h
  have hall : ∀ x ∈ [65, 66, 67, 68, 71, 72, 75, 77, 78, 82, 83, 84, 86, 87, 89],
      65 ≤ x ∧ x < 90 := by decide
  exact hall c hmem

theorem nuc44_row_zero_check_spec (row : List Int) : ∀ b a0,
    nuc44_row_zero_check b a0 row = true →
    ∀ t, t < row.length →
    ¬(nuc44_recognized (a0 + t) = true ∧ nuc44_recognized b = true) →
    row.getD t 0 = 0 := by
  induction row with
  | nil => intro b a0 _ t ht; simp at ht
  | cons v rest ih =>
    intro b a0 hchk t ht hrec
    rw [nuc44_row_zero_check] at hchk
    rw [Bool.and_eq_true] at hchk
    obtain ⟨h1, h2⟩ := hchk
    cases t with
    | zero =>
      simp only [Nat.add_zero] at hrec
      have hcond : (nuc44_recognized a0 && nuc44_recognized b) = false := by
        rcases Bool.eq_false_or_eq_true (nuc44_recognized a0 && nuc44_recognized b) with h | h
        · rw [Bool.and_eq_true] at h; exact absurd h hrec
        · exact h
      rw [hcond] at h1
      simp only [Bool.false_eq_true, if_false, beq_iff_eq] at h1
      simp [h1]
    | succ t =>
      have := ih b (a0 + 1) h2 t (by simpa using Nat.lt_of_succ_lt_succ ht)
        (by simpa [Nat.add_assoc, Nat.add_comm 1 t] using hrec)
      simpa using this

theorem nuc44_zero_check_spec (L : List (List Int)) : ∀ b0,
    nuc44_zero_check b0 L = true →
    ∀ q, q < L.length →
    ∀ t, t < (L.getD q []).length →
    ¬(nuc44_recognized t = true ∧ nuc44_recognized (b0 + q) = true) →
    (L.getD q []).getD t 0 = 0 := by
  induction L with
  | nil => intro b0 _ q hq; simp at hq
  | cons row rest ih =>
    intro b0 hchk q hq t ht hrec
    rw [nuc44_zero_check] at hchk
    rw [Bool.and_eq_true] at hchk
    obtain ⟨h1, h2⟩ := hchk
    cases q with
    | zero =>
      simp only [List.getD_cons_zero] at ht ⊢
      exact nuc44_row_zero_check_spec row b0 0 h1 t ht (by simpa using hrec)
    | succ q =>
      simp only [List.getD_cons_succ] at ht ⊢
      exact ih (b0 + 1) h2 q (by simpa using Nat.lt_of_succ_lt_succ hq) t ht
        (by simpa [Nat.add_assoc, Nat.add_comm 1 q] using hrec)

theorem nuc44_table_zero (q r : Nat) (hq : q < 90) (hr : r < 90)
    (h : ¬(nuc44_recognized r = true ∧ nuc44_recognized q = true)) :
    (EDNAFULL_NUC_4_4_rows.getD q []).getD r 0 = 0 := by
  have := nuc44_zero_check_spec EDNAFULL_NUC_4_4_rows 0 nuc44_check_true q
    (by rw [nuc44_rows_length]; exact hq) r
    (by rw [nuc44_row_length q hq]; exact hr)
  exact this (by simpa using h)

theorem flatten_getElem_uniform (n : Nat) (hn : 0 < n) :
    ∀ (L : List (List Int)), (∀ r ∈ L, r.length = n) →
    ∀ i, L.flatten[i]? = (L[i / n]?).bind (fun r => r[i % n]?) := by
  intro L
  induction L with
  | nil => intro _ i; simp
  | cons row rest ih =>
    intro h i
    have hrow : row.length = n := h row (by simp)
    have hrest : ∀ r ∈ rest, r.length = n := fun r hr => h r (by simp [hr])
    by_cases hi : i < n
    · rw [List.flatten_cons]
      rw [Nat.div_eq_of_lt hi, Nat.mod_eq_of_lt hi]
      simp [List.getElem?_append, hrow, hi]
    · have h2 : n ≤ i := Nat.le_of_not_lt hi
      rw [List.flatten_cons]
      rw [Nat.div_eq_sub_div hn h2, Nat.mod_eq_sub_mod h2]
      have := ih hrest (i - n)
      simp only [List.getElem?_append, hrow, hi, if_neg]
      simpa [Nat.add_comm] using this

theorem getElem_eq_some_getD {α : Type} (l : List α) (d : α) (n : Nat) (h : n < l.length) :
    l[n]? = some (l.getD n d) := by
  rw [List.getD_eq_getElem?_getD, List.getElem?_eq_getElem h]
  simp

/-- The row-decomposed lookup of this file agrees everywhere with the flat
8100-element array read EDNAFULL_NUC_4_4[a + 90 * b] of the C source. -/
theorem get_nuc_4_4_value_eq_flat (a b : Nat) :
    get_nuc_4_4_value a b = EDNAFULL_NUC_4_4[a + 90 * b]? := by
  have hlen : ∀ r ∈ EDNAFULL_NUC_4_4_rows, r.length = 90 := by decide
  have hflat := flatten_getElem_uniform 90 (by omega) EDNAFULL_NUC_4_4_rows hlen (a + 90 * b)
  rw [EDNAFULL_NUC_4_4, hflat]
  by_cases hbound : a + 90 * b < 8100
  · have hq : (a + 90 * b) / 90 < 90 := by omega
    have hr : (a + 90 * b) % 90 < 90 := by omega
    rw [getElem_eq_some_getD EDNAFULL_NUC_4_4_rows [] _ (by rw [nuc44_rows_length]; exact hq)]
    rw [Option.some_bind]
    rw [getElem_eq_some_getD _ 0 _ (by rw [nuc44_row_length _ hq]; exact hr)]
    rw [get_nuc_4_4_value, if_pos hbound]
  · have hq : 90 ≤ (a + 90 * b) / 90 := by omega
    have h1 : EDNAFULL_NUC_4_4_rows[(a + 90 * b) / 90]? = none := by
      rw [List.getElem?_eq_none]
      rw [nuc44_rows_length]; exact hq
    rw [h1]
    rw [Option.none_bind]
    rw [get_nuc_4_4_value, if_neg hbound]

/-- Claim C4 counterexample: the pair of lowercase bytes (97, 97)
(lowercase a against lowercase a) is a pair of ASCII byte codes whose lookup
index 97 + 90 * 97 = 8827 does not stay within the 8100-element table: the C
read is out of bounds and the operation yields no defined value, refuting the
claimed totality on all pairs of ASCII byte codes. -/
theorem nuc44_totality_counterexample :
    get_nuc_4_4_value 97 97 = none ∧ ¬(97 + 90 * 97 < 8100) := by
  constructor
  · decide
  · decide

/-- Claim C4 (amended): for every pair of ASCII byte codes (a, b), the lookup
is defined exactly when the index a + 90 * b falls below 8100; every defined
lookup of a pair outside the recognized IUPAC set yields 0; and when the
index reaches 8100 (in particular for every pair of lowercase base codes) the
read is out of bounds and no value is defined. -/
theorem nuc44_totality_amended (a b : Nat) (ha : a ≤ 127) (hb : b ≤ 127) :
    (a + 90 * b < 8100 →
      (get_nuc_4_4_value a b).isSome = true ∧
      (¬(nuc44_recognized a = true ∧ nuc44_recognized b = true) →
        get_nuc_4_4_value a b = some 0)) ∧
    (8100 ≤ a + 90 * b → get_nuc_4_4_value a b = none) := by
  constructor
  · intro hbound
    constructor
    · rw [get_nuc_4_4_value, if_pos hbound]; rfl
    · intro hrec
      rw [get_nuc_4_4_value, if_pos hbound]
      have hq : (a + 90 * b) / 90 < 90 := by omega
      have hr : (a + 90 * b) % 90 < 90 := by omega
      have hzero : ¬(nuc44_recognized ((a + 90 * b) % 90) = true ∧
          nuc44_recognized ((a + 90 * b) / 90) = true) := by
        by_cases hcase : a < 90
        · have e1 : (a + 90 * b) % 90 = a := by omega
          have e2 : (a + 90 * b) / 90 = b := by omega
          rw [e1, e2]; exact hrec
        · intro hcontra
          have := nuc44_recognized_bounds _ hcontra.1
          omega
      rw [nuc44_table_zero _ _ hq hr hzero]
  · intro hbound
    rw [get_nuc_4_4_value, if_neg (by omega)]

/-- Witness for nuc44_totality_amended at the concrete byte pair (97, 65):
a lowercase first byte against an uppercase A row stays in bounds and yields
the value 0. -/
theorem nuc44_totality_amended_witness :
    ((97 : Nat) ≤ 127 ∧ (65 : Nat) ≤ 127) ∧
    ((97 + 90 * 65 < 8100 →
      (get_nuc_4_4_value 97 65).isSome = true ∧
      (¬(nuc44_recognized 97 = true ∧ nuc44_recognized 65 = true) →
        get_nuc_4_4_value 97 65 = some 0)) ∧
    (8100 ≤ 97 + 90 * 65 → get_nuc_4_4_value 97 65 = none)) :=
  ⟨by decide, nuc44_totality_amended 97 65 (by decide) (by decide)⟩

theorem getD_set_ne {α : Type} (l : List α) (d : α) (n m : Nat) (v : α) (h : n ≠ m) :
    (l.set n v).getD m d = l.getD m d := by
  rw [List.getD_eq_getElem?_getD, List.getD_eq_getElem?_getD, List.getElem?_set_ne h]

theorem getD_set_self {α : Type} (l : List α) (d : α) (n : Nat) (v : α) (h : n < l.length) :
    (l.set n v).getD n d = v := by
  simp [List.getD_eq_getElem?_getD, List.getElem?_set_self, h]

theorem foldl_getD_frame {α β : Type} (f : List α → β → List α) (js : List β)
    (sc : List α) (m : Nat) (d : α)
    (h : ∀ sc2 j, j ∈ js → (f sc2 j).getD m d = sc2.getD m d) :
    (js.foldl f sc).getD m d = sc.getD m d := by
  induction js generalizing sc with
  | nil => rfl
  | cons j js ih =>
    rw [List.foldl_cons]
    rw [ih _ (fun sc2 k hk => h sc2 k (List.mem_cons_of_mem j hk))]
    exact h sc j (List.mem_cons_self j js)

theorem foldl_length_frame {α β : Type} (f : List α → β → List α) (js : List β) (sc : List α)
    (h : ∀ sc2 j, j ∈ js → (f sc2 j).length = sc2.length) :
    (js.foldl f sc).length = sc.length := by
  induction js generalizing sc with
  | nil => rfl
  | cons j js ih =>
    rw [List.foldl_cons]
    rw [ih _ (fun sc2 k hk => h sc2 k (List.mem_cons_of_mem j hk))]
    exact h sc j (List.mem_cons_self j js)

theorem foldl_preserves {σ β : Type} (f : σ → β → σ) (l : List β) (init : σ) (p : σ → Prop)
    (h0 : p init) (h : ∀ st b, b ∈ l → p st → p (f st b)) : p (l.foldl f init) := by
  induction l generalizing init with
  | nil => exact h0
  | cons b l ih =>
    rw [List.foldl_cons]
    exact ih (f init b) (h init b (List.mem_cons_self b l) h0)
      (fun st c hc hst => h st c (List.mem_cons_of_mem b hc) hst)

theorem range'_split (s n k : Nat) (hk : k ≤ n) :
    List.range' s n = List.range' s k ++ List.range' (s + k) (n - k) := by
  have h := List.range'_append s k (n - k) 1
  rw [one_mul] at h
  have h2 : n - k + k = n := by omega
  rw [h2] at h
  exact h.symm

theorem sw_row0_step_length (seq_X seq_Y : List Char) (subst : Char → Char → Int) (G : Int)
    (sc : List Int) (j : Nat) :
    (sw_row0_step seq_X seq_Y subst G sc j).length = sc.length :=
  List.length_set sc j _

theorem sw_inner_step_length (seq_X seq_Y : List Char) (subst : Char → Char → Int) (G : Int)
    (i : Nat) (sc : List Int) (j : Nat) :
    (sw_inner_step seq_X seq_Y subst G i sc j).length = sc.length :=
  List.length_set sc _ _

theorem sw_row_step_length (seq_X seq_Y : List Char) (subst : Char → Char → Int) (G : Int)
    (sc : List Int) (i : Nat) :
    (sw_row_step seq_X seq_Y subst G sc i).length = sc.length := by
  unfold sw_row_step
  rw [foldl_length_frame _ _ _ (fun sc2 j _ => sw_inner_step_length seq_X seq_Y subst G i sc2 j)]
  exact List.length_set sc _ _

theorem linear_gap_smith_waterman_length (seq_X seq_Y : List Char) (scores : List Int)
    (subst : Char → Char → Int) (G : Int) :
    (linear_gap_smith_waterman seq_X seq_Y scores subst G).length = scores.length := by
  unfold linear_gap_smith_waterman
  rw [foldl_length_frame _ _ _ (fun sc2 i _ => sw_row_step_length seq_X seq_Y subst G sc2 i)]
  rw [foldl_length_frame _ _ _ (fun sc2 j _ => sw_row0_step_length seq_X seq_Y subst G sc2 j)]
  exact List.length_set scores _ _

theorem sw_row0_step_frame (seq_X seq_Y : List Char) (subst : Char → Char → Int) (G : Int)
    (sc : List Int) (j m : Nat) (h : j ≠ m) :
    (sw_row0_step seq_X seq_Y subst G sc j).getD m 0 = sc.getD m 0 :=
  getD_set_ne sc 0 j m _ h

theorem sw_inner_step_frame (seq_X seq_Y : List Char) (subst : Char → Char → Int) (G : Int)
    (i : Nat) (sc : List Int) (j m : Nat) (h : i * seq_Y.length + j ≠ m) :
    (sw_inner_step seq_X seq_Y subst G i sc j).getD m 0 = sc.getD m 0 :=
  getD_set_ne sc 0 _ m _ h

theorem sw_row_step_frame (seq_X seq_Y : List Char) (subst : Char → Char → Int) (G : Int)
    (sc : List Int) (i m : Nat) (h : m < i * seq_Y.length) :
    (sw_row_step seq_X seq_Y subst G sc i).getD m 0 = sc.getD m 0 := by
  unfold sw_row_step
  rw [foldl_getD_frame _ _ _ _ _
    (fun sc2 j _ => sw_inner_step_frame seq_X seq_Y subst G i sc2 j m (by omega))]
  exact getD_set_ne sc 0 _ m _ (by omega)

theorem sw_rows_frame (seq_X seq_Y : List Char) (subst : Char → Char → Int) (G : Int)
    (is : List Nat) (sc : List Int) (m : Nat) (h : ∀ ii ∈ is, m < ii * seq_Y.length) :
    (is.foldl (sw_row_step seq_X seq_Y subst G) sc).getD m 0 = sc.getD m 0 :=
  foldl_getD_frame _ _ _ _ _
    (fun sc2 ii hii => sw_row_step_frame seq_X seq_Y subst G sc2 ii m (h ii hii))

theorem sw_row0_fold_frame (seq_X seq_Y : List Char) (subst : Char → Char → Int) (G : Int)
    (js : List Nat) (sc : List Int) (m : Nat) (h : ∀ j ∈ js, j ≠ m) :
    (js.foldl (sw_row0_step seq_X seq_Y subst G) sc).getD m 0 = sc.getD m 0 :=
  foldl_getD_frame _ _ _ _ _
    (fun sc2 j hj => sw_row0_step_frame seq_X seq_Y subst G sc2 j m (h j hj))

theorem sw_inner_fold_frame (seq_X seq_Y : List Char) (subst : Char → Char → Int) (G : Int)
    (i : Nat) (js : List Nat) (sc : List Int) (m : Nat)
    (h : ∀ j ∈ js, i * seq_Y.length + j ≠ m) :
    (js.foldl (sw_inner_step seq_X seq_Y subst G i) sc).getD m 0 = sc.getD m 0 :=
  foldl_getD_frame _ _ _ _ _
    (fun sc2 j hj => sw_inner_step_frame seq_X seq_Y subst G i sc2 j m (h j hj))

theorem sw_row0_step_self (seq_X seq_Y : List Char) (subst : Char → Char → Int) (G : Int)
    (sc : List Int) (j : Nat) (h : j < sc.length) :
    (sw_row0_step seq_X seq_Y subst G sc j).getD j 0 =
      best_linear_gap_smith_waterman_score (sc.getD (j - 1) 0) 0 0
        (seq_X.getD 0 ' ') (seq_Y.getD j ' ') subst G := by
  unfold sw_row0_step
  exact getD_set_self sc 0 j _ h

theorem sw_inner_step_self (seq_X seq_Y : List Char) (subst : Char → Char → Int) (G : Int)
    (i : Nat) (sc : List Int) (j : Nat) (h : i * seq_Y.length + j < sc.length) :
    (sw_inner_step seq_X seq_Y subst G i sc j).getD (i * seq_Y.length + j) 0 =
      best_linear_gap_smith_waterman_score
        (sc.getD (i * seq_Y.length + j - 1) 0)
        (sc.getD ((i - 1) * seq_Y.length + (j - 1)) 0)
        (sc.getD ((i - 1) * seq_Y.length + j) 0)
        (seq_X.getD i ' ') (seq_Y.getD j ' ') subst G := by
  unfold sw_inner_step
  exact getD_set_self sc 0 _ _ h

theorem linear_gap_sw_cell_00 (seq_X seq_Y : List Char) (scores : List Int)
    (subst : Char → Char → Int) (G : Int)
    (hX : 0 < seq_X.length) (hY : 0 < seq_Y.length)
    (hlen : scores.length = seq_X.length * seq_Y.length) :
    (linear_gap_smith_waterman seq_X seq_Y scores subst G).getD 0 0 =
      best_linear_gap_smith_waterman_score 0 0 0 (seq_X.getD 0 ' ') (seq_Y.getD 0 ' ')
        subst G := by
  unfold linear_gap_smith_waterman
  have hout : ∀ ii ∈ List.range' 1 (seq_X.length - 1), 0 < ii * seq_Y.length := by
    intro ii hii
    have h1 := (List.mem_range'_1.mp hii).1
    exact Nat.mul_pos (by omega) hY
  rw [sw_rows_frame seq_X seq_Y subst G _ _ 0 hout]
  have hrow0 : ∀ j ∈ List.range' 1 (seq_Y.length - 1), j ≠ 0 := by
    intro j hj
    have := (List.mem_range'_1.mp hj).1
    omega
  rw [sw_row0_fold_frame seq_X seq_Y subst G _ _ 0 hrow0]
  exact getD_set_self scores 0 0 _ (by rw [hlen]; exact Nat.mul_pos hX hY)

theorem linear_gap_sw_row0 (seq_X seq_Y : List Char) (scores : List Int)
    (subst : Char → Char → Int) (G : Int)
    (hX : 0 < seq_X.length) (hY : 0 < seq_Y.length)
    (hlen : scores.length = seq_X.length * seq_Y.length)
    (j : Nat) (hj1 : 1 ≤ j) (hj2 : j < seq_Y.length) :
    (linear_gap_smith_waterman seq_X seq_Y scores subst G).getD j 0 =
      best_linear_gap_smith_waterman_score
        ((linear_gap_smith_waterman seq_X seq_Y scores subst G).getD (j - 1) 0) 0 0
        (seq_X.getD 0 ' ') (seq_Y.getD j ' ') subst G := by
  unfold linear_gap_smith_waterman
  have hout : ∀ m, m < seq_Y.length → ∀ ii ∈ List.range' 1 (seq_X.length - 1),
      m < ii * seq_Y.length := by
    intro m hm ii hii
    have h1 := (List.mem_range'_1.mp hii).1
    calc m < seq_Y.length := hm
    _ = 1 * seq_Y.length := (one_mul _).symm
    _ ≤ ii * seq_Y.length := Nat.mul_le_mul_right _ h1
  rw [sw_rows_frame seq_X seq_Y subst G _ _ j (hout j hj2)]
  rw [sw_rows_frame seq_X seq_Y subst G _ _ (j - 1) (hout (j - 1) (by omega))]
  have hsplit : List.range' 1 (seq_Y.length - 1)
      = List.range' 1 (j - 1) ++ (j :: List.range' (j + 1) (seq_Y.length - 1 - j)) := by
    rw [range'_split 1 (seq_Y.length - 1) (j - 1) (by omega)]
    have e1 : 1 + (j - 1) = j := by omega
    have e2 : seq_Y.length - 1 - (j - 1) = (seq_Y.length - 1 - j) + 1 := by omega
    rw [e1, e2, List.range'_succ]
  rw [hsplit, List.foldl_append, List.foldl_cons]
  have hsuf : ∀ m, m < j + 1 → ∀ k ∈ List.range' (j + 1) (seq_Y.length - 1 - j), k ≠ m := by
    intro m hm k hk
    have := (List.mem_range'_1.mp hk).1
    omega
  rw [sw_row0_fold_frame seq_X seq_Y subst G _ _ j (hsuf j (by omega))]
  rw [sw_row0_fold_frame seq_X seq_Y subst G _ _ (j - 1) (hsuf (j - 1) (by omega))]
  rw [sw_row0_step_frame seq_X seq_Y subst G _ j (j - 1) (by omega)]
  have hAlen : ((List.range' 1 (j - 1)).foldl (sw_row0_step seq_X seq_Y subst G)
      ((scores.set 0 (best_linear_gap_smith_waterman_score 0 0 0
        (seq_X.getD 0 ' ') (seq_Y.getD 0 ' ') subst G)))).length = scores.length := by
    rw [foldl_length_frame _ _ _ (fun sc2 k _ => sw_row0_step_length seq_X seq_Y subst G sc2 k)]
    exact List.length_set scores _ _
  rw [sw_row0_step_self seq_X seq_Y subst G _ j (by
    rw [hAlen, hlen]
    calc j < seq_Y.length := hj2
    _ = 1 * seq_Y.length := (one_mul _).symm
    _ ≤ seq_X.length * seq_Y.length := Nat.mul_le_mul_right _ hX)]

theorem sw_row_step_col0_self (seq_X seq_Y : List Char) (subst : Char → Char → Int) (G : Int)
    (sc : List Int) (i : Nat) (h : i * seq_Y.length < sc.length) :
    (sw_row_step seq_X seq_Y subst G sc i).getD (i * seq_Y.length) 0 =
      best_linear_gap_smith_waterman_score 0 0 (sc.getD ((i - 1) * seq_Y.length) 0)
        (seq_X.getD i ' ') (seq_Y.getD 0 ' ') subst G := by
  unfold sw_row_step
  have hif : ∀ k ∈ List.range' 1 (seq_Y.length - 1),
      i * seq_Y.length + k ≠ i * seq_Y.length := by
    intro k hk
    have := (List.mem_range'_1.mp hk).1
    omega
  rw [sw_inner_fold_frame seq_X seq_Y subst G i _ _ (i * seq_Y.length) hif]
  exact getD_set_self sc 0 _ _ h

theorem sw_row_step_cell (seq_X seq_Y : List Char) (subst : Char → Char → Int) (G : Int)
    (sc : List Int) (i j : Nat) (hi1 : 1 ≤ i) (hj1 : 1 ≤ j) (hj2 : j < seq_Y.length)
    (hcell : i * seq_Y.length + j < sc.length) :
    (sw_row_step seq_X seq_Y subst G sc i).getD (i * seq_Y.length + j) 0 =
      best_linear_gap_smith_waterman_score
        ((sw_row_step seq_X seq_Y subst G sc i).getD (i * seq_Y.length + j - 1) 0)
        (sc.getD ((i - 1) * seq_Y.length + (j - 1)) 0)
        (sc.getD ((i - 1) * seq_Y.length + j) 0)
        (seq_X.getD i ' ') (seq_Y.getD j ' ') subst G := by
  have hi1' : (i - 1) * seq_Y.length + seq_Y.length = i * seq_Y.length := by
    calc (i - 1) * seq_Y.length + seq_Y.length = ((i - 1) + 1) * seq_Y.length := by ring
    _ = i * seq_Y.length := by rw [Nat.sub_add_cancel hi1]
  unfold sw_row_step
  have hisplit : List.range' 1 (seq_Y.length - 1)
      = List.range' 1 (j - 1) ++ (j :: List.range' (j + 1) (seq_Y.length - 1 - j)) := by
    rw [range'_split 1 (seq_Y.length - 1) (j - 1) (by omega)]
    have e1 : 1 + (j - 1) = j := by omega
    have e2 : seq_Y.length - 1 - (j - 1) = (seq_Y.length - 1 - j) + 1 := by omega
    rw [e1, e2, List.range'_succ]
  rw [hisplit, List.foldl_append, List.foldl_cons]
  have hisuf : ∀ m, m < i * seq_Y.length + (j + 1) →
      ∀ k ∈ List.range' (j + 1) (seq_Y.length - 1 - j), i * seq_Y.length + k ≠ m := by
    intro m hm k hk
    have := (List.mem_range'_1.mp hk).1
    omega
  rw [sw_inner_fold_frame seq_X seq_Y subst G i _ _ (i * seq_Y.length + j)
    (hisuf _ (by omega))]
  rw [sw_inner_fold_frame seq_X seq_Y subst G i _ _ (i * seq_Y.length + j - 1)
    (hisuf _ (by omega))]
  rw [sw_inner_step_frame seq_X seq_Y subst G i _ j (i * seq_Y.length + j - 1) (by omega)]
  have hA2len : ((List.range' 1 (j - 1)).foldl (sw_inner_step seq_X seq_Y subst G i)
      (sc.set (i * seq_Y.length)
        (best_linear_gap_smith_waterman_score 0 0 (sc.getD ((i - 1) * seq_Y.length) 0)
          (seq_X.getD i ' ') (seq_Y.getD 0 ' ') subst G))).length = sc.length := by
    rw [foldl_length_frame _ _ _ (fun sc2 k _ => sw_inner_step_length seq_X seq_Y subst G i sc2 k)]
    exact List.length_set sc _ _
  rw [sw_inner_step_self seq_X seq_Y subst G i _ j (by rw [hA2len]; exact hcell)]
  have hApre : ∀ m, m < i * seq_Y.length →
      ((List.range' 1 (j - 1)).foldl (sw_inner_step seq_X seq_Y subst G i)
        (sc.set (i * seq_Y.length)
          (best_linear_gap_smith_waterman_score 0 0 (sc.getD ((i - 1) * seq_Y.length) 0)
            (seq_X.getD i ' ') (seq_Y.getD 0 ' ') subst G))).getD m 0 = sc.getD m 0 := by
    intro m hm
    rw [sw_inner_fold_frame seq_X seq_Y subst G i _ _ m (by
      intro k hk
      have := (List.mem_range'_1.mp hk).1
      omega)]
    exact getD_set_ne sc 0 _ m _ (by omega)
  rw [hApre ((i - 1) * seq_Y.length + (j - 1)) (by omega)]
  rw [hApre ((i - 1) * seq_Y.length + j) (by omega)]

theorem linear_gap_sw_col0 (seq_X seq_Y : List Char) (scores : List Int)
    (subst : Char → Char → Int) (G : Int)
    (hX : 0 < seq_X.length) (hY : 0 < seq_Y.length)
    (hlen : scores.length = seq_X.length * seq_Y.length)
    (i : Nat) (hi1 : 1 ≤ i) (hi2 : i < seq_X.length) :
    (linear_gap_smith_waterman seq_X seq_Y scores subst G).getD (i * seq_Y.length) 0 =
      best_linear_gap_smith_waterman_score 0 0
        ((linear_gap_smith_waterman seq_X seq_Y scores subst G).getD
          ((i - 1) * seq_Y.length) 0)
        (seq_X.getD i ' ') (seq_Y.getD 0 ' ') subst G := by
  have hi1' : (i - 1) * seq_Y.length + seq_Y.length = i * seq_Y.length := by
    calc (i - 1) * seq_Y.length + seq_Y.length = ((i - 1) + 1) * seq_Y.length := by ring
    _ = i * seq_Y.length := by rw [Nat.sub_add_cancel hi1]
  have hip : i * seq_Y.length + seq_Y.length = (i + 1) * seq_Y.length := by ring
  unfold linear_gap_smith_waterman
  have hosplit : List.range' 1 (seq_X.length - 1)
      = List.range' 1 (i - 1) ++ (i :: List.range' (i + 1) (seq_X.length - 1 - i)) := by
    rw [range'_split 1 (seq_X.length - 1) (i - 1) (by omega)]
    have e1 : 1 + (i - 1) = i := by omega
    have e2 : seq_X.length - 1 - (i - 1) = (seq_X.length - 1 - i) + 1 := by omega
    rw [e1, e2, List.range'_succ]
  rw [hosplit, List.foldl_append, List.foldl_cons]
  have hsubf : ∀ m, m < (i + 1) * seq_Y.length →
      ∀ ii ∈ List.range' (i + 1) (seq_X.length - 1 - i), m < ii * seq_Y.length := by
    intro m hm ii hii
    have h1 := (List.mem_range'_1.mp hii).1
    calc m < (i + 1) * seq_Y.length := hm
    _ ≤ ii * seq_Y.length := Nat.mul_le_mul_right _ h1
  rw [sw_rows_frame seq_X seq_Y subst G _ _ (i * seq_Y.length) (hsubf _ (by omega))]
  rw [sw_rows_frame seq_X seq_Y subst G _ _ ((i - 1) * seq_Y.length) (hsubf _ (by omega))]
  rw [sw_row_step_frame seq_X seq_Y subst G _ i ((i - 1) * seq_Y.length) (by omega)]
  have hBlen : ((List.range' 1 (i - 1)).foldl (sw_row_step seq_X seq_Y subst G)
      ((List.range' 1 (seq_Y.length - 1)).foldl (sw_row0_step seq_X seq_Y subst G)
        (scores.set 0 (best_linear_gap_smith_waterman_score 0 0 0
          (seq_X.getD 0 ' ') (seq_Y.getD 0 ' ') subst G)))).length = scores.length := by
    rw [foldl_length_frame _ _ _ (fun sc2 k _ => sw_row_step_length seq_X seq_Y subst G sc2 k)]
    rw [foldl_length_frame _ _ _ (fun sc2 k _ => sw_row0_step_length seq_X seq_Y subst G sc2 k)]
    exact List.length_set scores _ _
  rw [sw_row_step_col0_self seq_X seq_Y subst G _ i (by
    rw [hBlen, hlen]
    calc i * seq_Y.length < (i + 1) * seq_Y.length := by omega
    _ ≤ seq_X.length * seq_Y.length := Nat.mul_le_mul_right _ (by omega))]

theorem linear_gap_sw_interior (seq_X seq_Y : List Char) (scores : List Int)
    (subst : Char → Char → Int) (G : Int)
    (hX : 0 < seq_X.length) (hY : 0 < seq_Y.length)
    (hlen : scores.length = seq_X.length * seq_Y.length)
    (i j : Nat) (hi1 : 1 ≤ i) (hi2 : i < seq_X.length) (hj1 : 1 ≤ j) (hj2 : j < seq_Y.length) :
    (linear_gap_smith_waterman seq_X seq_Y scores subst G).getD (i * seq_Y.length + j) 0 =
      best_linear_gap_smith_waterman_score
        ((linear_gap_smith_waterman seq_X seq_Y scores subst G).getD
          (i * seq_Y.length + j - 1) 0)
        ((linear_gap_smith_waterman seq_X seq_Y scores subst G).getD
          ((i - 1) * seq_Y.length + (j - 1)) 0)
        ((linear_gap_smith_waterman seq_X seq_Y scores subst G).getD
          ((i - 1) * seq_Y.length + j) 0)
        (seq_X.getD i ' ') (seq_Y.getD j ' ') subst G := by
  have hi1' : (i - 1) * seq_Y.length + seq_Y.length = i * seq_Y.length := by
    calc (i - 1) * seq_Y.length + seq_Y.length = ((i - 1) + 1) * seq_Y.length := by ring
    _ = i * seq_Y.length := by rw [Nat.sub_add_cancel hi1]
  have hip : i * seq_Y.length + seq_Y.length = (i + 1) * seq_Y.length := by ring
  unfold linear_gap_smith_waterman
  have hosplit : List.range' 1 (seq_X.length - 1)
      = List.range' 1 (i - 1) ++ (i :: List.range' (i + 1) (seq_X.length - 1 - i)) := by
    rw [range'_split 1 (seq_X.length - 1) (i - 1) (by omega)]
    have e1 : 1 + (i - 1) = i := by omega
    have e2 : seq_X.length - 1 - (i - 1) = (seq_X.length - 1 - i) + 1 := by omega
    rw [e1, e2, List.range'_succ]
  rw [hosplit, List.foldl_append, List.foldl_cons]
  have hsubf : ∀ m, m < (i + 1) * seq_Y.length →
      ∀ ii ∈ List.range' (i + 1) (seq_X.length - 1 - i), m < ii * seq_Y.length := by
    intro m hm ii hii
    have h1 := (List.mem_range'_1.mp hii).1
    calc m < (i + 1) * seq_Y.length := hm
    _ ≤ ii * seq_Y.length := Nat.mul_le_mul_right _ h1
  rw [sw_rows_frame seq_X seq_Y subst G _ _ (i * seq_Y.length + j) (hsubf _ (by omega))]
  rw [sw_rows_frame seq_X seq_Y subst G _ _ (i * seq_Y.length + j - 1) (hsubf _ (by omega))]
  rw [sw_rows_frame seq_X seq_Y subst G _ _ ((i - 1) * seq_Y.length + (j - 1))
    (hsubf _ (by omega))]
  rw [sw_rows_frame seq_X seq_Y subst G _ _ ((i - 1) * seq_Y.length + j) (hsubf _ (by omega))]
  rw [sw_row_step_frame seq_X seq_Y subst G _ i ((i - 1) * seq_Y.length + (j - 1)) (by omega)]
  rw [sw_row_step_frame seq_X seq_Y subst G _ i ((i - 1) * seq_Y.length + j) (by omega)]
  have hBlen : ((List.range' 1 (i - 1)).foldl (sw_row_step seq_X seq_Y subst G)
      ((List.range' 1 (seq_Y.length - 1)).foldl (sw_row0_step seq_X seq_Y subst G)
        (scores.set 0 (best_linear_gap_smith_waterman_score 0 0 0
          (seq_X.getD 0 ' ') (seq_Y.getD 0 ' ') subst G)))).length = scores.length := by
    rw [foldl_length_frame _ _ _ (fun sc2 k _ => sw_row_step_length seq_X seq_Y subst G sc2 k)]
    rw [foldl_length_frame _ _ _ (fun sc2 k _ => sw_row0_step_length seq_X seq_Y subst G sc2 k)]
    exact List.length_set scores _ _
  rw [sw_row_step_cell seq_X seq_Y subst G _ i j hi1 hj1 hj2 (by
    rw [hBlen, hlen]
    calc i * seq_Y.length + j < (i + 1) * seq_Y.length := by omega
    _ ≤ seq_X.length * seq_Y.length := Nat.mul_le_mul_right _ (by omega))]

theorem best_score_nonneg (left up_left up : Int) (a b : Char) (subst : Char → Char → Int)
    (G : Int) : 0 ≤ best_linear_gap_smith_waterman_score left up_left up a b subst G := by
  unfold best_linear_gap_smith_waterman_score
  exact le_max_right _ 0

theorem linear_gap_sw_nonneg (seq_X seq_Y : List Char) (scores : List Int)
    (subst : Char → Char → Int) (G : Int)
    (hX : 0 < seq_X.length) (hY : 0 < seq_Y.length)
    (hlen : scores.length = seq_X.length * seq_Y.length)
    (i j : Nat) (hi : i < seq_X.length) (hj : j < seq_Y.length) :
    0 ≤ (linear_gap_smith_waterman seq_X seq_Y scores subst G).getD
      (i * seq_Y.length + j) 0 := by
  rcases Nat.eq_zero_or_pos i with hi0 | hipos
  · rcases Nat.eq_zero_or_pos j with hj0 | hjpos
    · subst hi0; subst hj0
      simp only [Nat.zero_mul, Nat.add_zero]
      rw [linear_gap_sw_cell_00 seq_X seq_Y scores subst G hX hY hlen]
      exact best_score_nonneg _ _ _ _ _ _ _
    · subst hi0
      simp only [Nat.zero_mul, Nat.zero_add]
      rw [linear_gap_sw_row0 seq_X seq_Y scores subst G hX hY hlen j hjpos hj]
      exact best_score_nonneg _ _ _ _ _ _ _
  · rcases Nat.eq_zero_or_pos j with hj0 | hjpos
    · subst hj0
      simp only [Nat.add_zero]
      rw [linear_gap_sw_col0 seq_X seq_Y scores subst G hX hY hlen i hipos hi]
      exact best_score_nonneg _ _ _ _ _ _ _
    · rw [linear_gap_sw_interior seq_X seq_Y scores subst G hX hY hlen i j hipos hi hjpos hj]
      exact best_score_nonneg _ _ _ _ _ _ _

theorem max_floor_00 (s G : Int) (hG : 0 ≤ G) :
    max (max (max ((0 : Int) - G) (0 - G)) (0 + s)) 0 = max 0 s := by
  simp only [max_def]
  split_ifs <;> omega

theorem max_floor_left (left s G : Int) (h : 0 ≤ left) (hG : 0 ≤ G) :
    max (max (max (left - G) ((0 : Int) - G)) (0 + s)) 0 = max 0 (max (left - G) s) := by
  simp only [max_def]
  split_ifs <;> omega

theorem max_floor_up (up s G : Int) (h : 0 ≤ up) (hG : 0 ≤ G) :
    max (max (max ((0 : Int) - G) (up - G)) (0 + s)) 0 = max 0 (max (up - G) s) := by
  simp only [max_def]
  split_ifs <;> omega

theorem max_floor_interior (left ul up s G : Int) :
    max (max (max (left - G) (up - G)) (ul + s)) 0 =
      max 0 (max (left - G) (max (up - G) (ul + s))) := by
  simp only [max_def]
  split_ifs <;> omega

/-- Claim C1: for every pair of non-empty sequences, every score function
and every (non-negative, per the data model of the specification) gap
penalty G, the scoring kernel fills Z with Z[0,0] = max(0, s(X0, Y0)),
Z[0,j] = max(0, Z[0,j-1] - G, s(X0, Yj)) for j >= 1, Z[i,0] = max(0,
Z[i-1,0] - G, s(Xi, Y0)) for i >= 1, and Z[i,j] = max(0, Z[i,j-1] - G,
Z[i-1,j] - G, Z[i-1,j-1] + s(Xi, Yj)) for i, j >= 1; the boundary row and
column equations carry no diagonal predecessor term. -/
theorem C1_scoring_kernel_recurrence (seq_X seq_Y : List Char)
    (subst : Char → Char → Int) (G : Int) (scores Z : List Int)
    (hX : seq_X ≠ []) (hY : seq_Y ≠ []) (hG : 0 ≤ G)
    (hlen : scores.length = seq_X.length * seq_Y.length)
    (hZ : Z = linear_gap_smith_waterman seq_X seq_Y scores subst G) :
    Z.getD 0 0 = max 0 (subst (seq_X.getD 0 ' ') (seq_Y.getD 0 ' ')) ∧
    (∀ j, 1 ≤ j → j < seq_Y.length →
      Z.getD j 0 = max 0 (max (Z.getD (j - 1) 0 - G)
        (subst (seq_X.getD 0 ' ') (seq_Y.getD j ' ')))) ∧
    (∀ i, 1 ≤ i → i < seq_X.length →
      Z.getD (i * seq_Y.length) 0 = max 0 (max (Z.getD ((i - 1) * seq_Y.length) 0 - G)
        (subst (seq_X.getD i ' ') (seq_Y.getD 0 ' ')))) ∧
    (∀ i j, 1 ≤ i → i < seq_X.length → 1 ≤ j → j < seq_Y.length →
      Z.getD (i * seq_Y.length + j) 0 =
        max 0 (max (Z.getD (i * seq_Y.length + (j - 1)) 0 - G)
          (max (Z.getD ((i - 1) * seq_Y.length + j) 0 - G)
            (Z.getD ((i - 1) * seq_Y.length + (j - 1)) 0
              + subst (seq_X.getD i ' ') (seq_Y.getD j ' '))))) := by
  have hX' : 0 < seq_X.length := List.length_pos.mpr hX
  have hY' : 0 < seq_Y.length := List.length_pos.mpr hY
  subst hZ
  refine ⟨?_, ?_, ?_, ?_⟩
  · rw [linear_gap_sw_cell_00 seq_X seq_Y scores subst G hX' hY' hlen]
    unfold best_linear_gap_smith_waterman_score
    exact max_floor_00 _ G hG
  · intro j hj1 hj2
    rw [linear_gap_sw_row0 seq_X seq_Y scores subst G hX' hY' hlen j hj1 hj2]
    unfold best_linear_gap_smith_waterman_score
    have hpos := linear_gap_sw_nonneg seq_X seq_Y scores subst G hX' hY' hlen 0 (j - 1)
      hX' (by omega)
    simp only [Nat.zero_mul, Nat.zero_add] at hpos
    exact max_floor_left _ _ G hpos hG
  · intro i hi1 hi2
    rw [linear_gap_sw_col0 seq_X seq_Y scores subst G hX' hY' hlen i hi1 hi2]
    unfold best_linear_gap_smith_waterman_score
    have hpos := linear_gap_sw_nonneg seq_X seq_Y scores subst G hX' hY' hlen (i - 1) 0
      (by omega) hY'
    simp only [Nat.add_zero] at hpos
    exact max_floor_up _ _ G hpos hG
  · intro i j hi1 hi2 hj1 hj2
    rw [linear_gap_sw_interior seq_X seq_Y scores subst G hX' hY' hlen i j hi1 hi2 hj1 hj2]
    unfold best_linear_gap_smith_waterman_score
    have e : i * seq_Y.length + (j - 1) = i * seq_Y.length + j - 1 := by omega
    rw [e]
    exact max_floor_interior _ _ _ _ G

/-- Witness for C1_scoring_kernel_recurrence at seq_X = GT, seq_Y = AG, the
example substitution function, gap penalty 2 and a four-cell matrix
allocation. -/
theorem C1_scoring_kernel_recurrence_witness :
    (("GT".toList ≠ ([] : List Char)) ∧ ("AG".toList ≠ ([] : List Char)) ∧
      ((0 : Int) ≤ 2) ∧ (List.replicate 4 (0 : Int)).length
        = "GT".toList.length * "AG".toList.length) ∧
    ((linear_gap_smith_waterman "GT".toList "AG".toList (List.replicate 4 0)
        get_example_substitution 2).getD 0 0 =
      max 0 (get_example_substitution ("GT".toList.getD 0 ' ') ("AG".toList.getD 0 ' ')) ∧
    (∀ j, 1 ≤ j → j < "AG".toList.length →
      (linear_gap_smith_waterman "GT".toList "AG".toList (List.replicate 4 0)
        get_example_substitution 2).getD j 0 =
        max 0 (max ((linear_gap_smith_waterman "GT".toList "AG".toList (List.replicate 4 0)
          get_example_substitution 2).getD (j - 1) 0 - 2)
          (get_example_substitution ("GT".toList.getD 0 ' ') ("AG".toList.getD j ' ')))) ∧
    (∀ i, 1 ≤ i → i < "GT".toList.length →
      (linear_gap_smith_waterman "GT".toList "AG".toList (List.replicate 4 0)
        get_example_substitution 2).getD (i * "AG".toList.length) 0 =
        max 0 (max ((linear_gap_smith_waterman "GT".toList "AG".toList (List.replicate 4 0)
          get_example_substitution 2).getD ((i - 1) * "AG".toList.length) 0 - 2)
          (get_example_substitution ("GT".toList.getD i ' ') ("AG".toList.getD 0 ' ')))) ∧
    (∀ i j, 1 ≤ i → i < "GT".toList.length → 1 ≤ j → j < "AG".toList.length →
      (linear_gap_smith_waterman "GT".toList "AG".toList (List.replicate 4 0)
        get_example_substitution 2).getD (i * "AG".toList.length + j) 0 =
        max 0 (max ((linear_gap_smith_waterman "GT".toList "AG".toList (List.replicate 4 0)
          get_example_substitution 2).getD (i * "AG".toList.length + (j - 1)) 0 - 2)
          (max ((linear_gap_smith_waterman "GT".toList "AG".toList (List.replicate 4 0)
            get_example_substitution 2).getD ((i - 1) * "AG".toList.length + j) 0 - 2)
            ((linear_gap_smith_waterman "GT".toList "AG".toList (List.replicate 4 0)
              get_example_substitution 2).getD ((i - 1) * "AG".toList.length + (j - 1)) 0
              + get_example_substitution ("GT".toList.getD i ' ') ("AG".toList.getD j ' ')))))) :=
  ⟨⟨by decide, by decide, by decide, by decide⟩,
    C1_scoring_kernel_recurrence "GT".toList "AG".toList get_example_substitution 2
      (List.replicate 4 0) _ (by decide) (by decide) (by decide) (by decide) rfl⟩

theorem count_mismatches_loop_eq (l : List (Char × Char)) :
    count_mismatches_loop l =
      (l.countP (fun p => decide (p.1 = p.2 ∧ p.1 ≠ '-')),
       l.countP (fun p => decide (p.1 = '-')),
       l.countP (fun p => decide (p.2 = '-')),
       l.countP (fun p => decide (¬(p.1 = p.2) ∨ p.1 = '-'))) := by
  induction l with
  | nil => rfl
  | cons p l ih =>
    obtain ⟨a, b⟩ := p
    by_cases hab : a = b
    · by_cases hgap : a = '-'
      · subst hab
        simp [count_mismatches_loop, List.countP_cons, hgap, ih]
      · subst hab
        simp [count_mismatches_loop, List.countP_cons, hgap, ih]
    · by_cases hgx : a = '-'
      · have hgy : ¬(b = '-') := by intro hb; exact hab (by rw [hgx, hb])
        have hgy2 : ¬('-' = b) := fun hb => hgy hb.symm
        simp [count_mismatches_loop, List.countP_cons, hab, hgx, hgy, hgy2, ih]
      · by_cases hgy : b = '-'
        · simp [count_mismatches_loop, List.countP_cons, hab, hgx, hgy, ih]
        · simp [count_mismatches_loop, List.countP_cons, hab, hgx, hgy, ih]

/-- Claim C6: for every pair of equal-length trace strings the counter
returns exactly the per-column classification: gaps_X counts the columns
whose trace_X character is a gap (this includes both-gap columns), gaps_Y
counts the columns whose trace_Y character is a gap (again including
both-gap columns), identical counts the columns of equal non-gap characters,
and mismatches counts every remaining column, i.e. every column that is not
an equal non-gap column — so a both-gap column increments gaps_X, gaps_Y and
mismatches, an equal non-gap column increments identical, and any other
column increments mismatches together with gaps_X when trace_X holds the gap
(respectively gaps_Y when trace_Y holds the gap). -/
theorem C6_count_mismatches_classification (trace_X trace_Y : List Char)
    (h : trace_X.length = trace_Y.length) :
    count_mismatches trace_X trace_Y = some
      ((trace_X.zip trace_Y).countP (fun p => decide (p.1 = p.2 ∧ p.1 ≠ '-')),
       (trace_X.zip trace_Y).countP (fun p => decide (p.1 = '-')),
       (trace_X.zip trace_Y).countP (fun p => decide (p.2 = '-')),
       (trace_X.zip trace_Y).countP (fun p => decide (¬(p.1 = p.2) ∨ p.1 = '-'))) := by
  rw [count_mismatches, if_pos h, count_mismatches_loop_eq]

/-- Witness for C6_count_mismatches_classification on the trace pair
(AC-G, AG--). -/
theorem C6_count_mismatches_classification_witness :
    ("AC-G".toList.length = "AG--".toList.length) ∧
    count_mismatches "AC-G".toList "AG--".toList = some
      (("AC-G".toList.zip "AG--".toList).countP (fun p => decide (p.1 = p.2 ∧ p.1 ≠ '-')),
       ("AC-G".toList.zip "AG--".toList).countP (fun p => decide (p.1 = '-')),
       ("AC-G".toList.zip "AG--".toList).countP (fun p => decide (p.2 = '-')),
       ("AC-G".toList.zip "AG--".toList).countP (fun p => decide (¬(p.1 = p.2) ∨ p.1 = '-'))) :=
  ⟨by decide, C6_count_mismatches_classification "AC-G".toList "AG--".toList (by decide)⟩

/-- Claim C9: the counter classifies every alignment column exactly once as
identical or mismatched: identical + mismatches equals the common length of
the two trace strings. -/
theorem C9_identical_add_mismatches (trace_X trace_Y : List Char)
    (h : trace_X.length = trace_Y.length) :
    (count_mismatches trace_X trace_Y).map (fun r => r.1 + r.2.2.2) =
      some trace_X.length := by
  rw [count_mismatches, if_pos h]
  rw [count_mismatches_loop_eq]
  rw [Option.map_some']
  have hcong : (trace_X.zip trace_Y).countP (fun p => decide (¬(p.1 = p.2) ∨ p.1 = '-')) =
      (trace_X.zip trace_Y).countP (fun p => !(decide (p.1 = p.2 ∧ p.1 ≠ '-'))) := by
    apply List.countP_congr
    intro p _
    by_cases h1 : p.1 = p.2 <;> by_cases h2 : p.1 = '-' <;> simp [h1, h2]
  rw [hcong]
  dsimp only
  have hlen2 := List.length_eq_countP_add_countP
    (fun p : Char × Char => decide (p.1 = p.2 ∧ p.1 ≠ '-')) (trace_X.zip trace_Y)
  have hc2 : (trace_X.zip trace_Y).countP
      (fun a => decide ¬(decide (a.1 = a.2 ∧ a.1 ≠ '-') = true)) =
      (trace_X.zip trace_Y).countP (fun p => !decide (p.1 = p.2 ∧ p.1 ≠ '-')) := by
    apply List.countP_congr
    intro p _
    cases hd : decide (p.1 = p.2 ∧ p.1 ≠ '-') <;> simp [hd]
  rw [hc2] at hlen2
  rw [← hlen2]
  rw [List.length_zip, h, Nat.min_self]

/-- Witness for C9_identical_add_mismatches on the trace pair (AC-G, AG--). -/
theorem C9_identical_add_mismatches_witness :
    ("AC-G".toList.length = "AG--".toList.length) ∧
    (count_mismatches "AC-G".toList "AG--".toList).map (fun r => r.1 + r.2.2.2) =
      some "AC-G".toList.length :=
  ⟨by decide, C9_identical_add_mismatches "AC-G".toList "AG--".toList (by decide)⟩

theorem sscanf_digits_foldl (ds : List Char) (acc : Nat) :
    ds.foldl (fun a c => a * 10 + (c.toNat - 48)) acc
      = acc * 10 ^ ds.length + Nat.ofDigits 10 ((ds.reverse).map (fun c => c.toNat - 48)) := by
  induction ds generalizing acc with
  | nil => simp [Nat.ofDigits]
  | cons d ds ih =>
    rw [List.foldl_cons, ih (acc * 10 + (d.toNat - 48))]
    rw [List.reverse_cons, List.map_append]
    rw [Nat.ofDigits_append]
    simp only [List.length_map, List.length_reverse, List.map_cons, List.map_nil,
      Nat.ofDigits_singleton, List.length_cons]
    ring

theorem sscanf_lld_digits_eq_ofDigits (ds : List Char) :
    sscanf_lld_digits ds = Nat.ofDigits 10 ((ds.reverse).map (fun c => c.toNat - 48)) := by
  unfold sscanf_lld_digits
  rw [sscanf_digits_foldl ds 0]
  simp

theorem digit_ne_sign (c : Char) (h : c.isDigit) : c ≠ '-' ∧ c ≠ '+' := by
  constructor
  · intro he; subst he; exact absurd h (by decide)
  · intro he; subst he; exact absurd h (by decide)

theorem sscanf_lld_eq_none_iff (cs : List Char) :
    sscanf_lld cs = none ↔ cs.dropWhile Char.isWhitespace = [] := by
  unfold sscanf_lld
  cases h : cs.dropWhile Char.isWhitespace with
  | nil => simp
  | cons c r =>
    constructor
    · intro hcontra
      exfalso
      dsimp only at hcontra
      split_ifs at hcontra <;> split at hcontra <;> simp_all
    · intro hh
      cases hh

theorem takeWhile_all {p : Char → Bool} : ∀ (l : List Char), (∀ c ∈ l, p c = true) →
    l.takeWhile p = l := by
  intro l
  induction l with
  | nil => intro _; rfl
  | cons d l ih =>
    intro h
    rw [List.takeWhile_cons_of_pos (h d (List.mem_cons_self d l))]
    rw [ih (fun c hc => h c (List.mem_cons_of_mem d hc))]

theorem digit_not_whitespace (c : Char) (h : c.isDigit = true) : c.isWhitespace = false := by
  by_cases h1 : c = ' '
  · subst h1; exact absurd h (by decide)
  by_cases h2 : c = '\t'
  · subst h2; exact absurd h (by decide)
  by_cases h3 : c = '\r'
  · subst h3; exact absurd h (by decide)
  by_cases h4 : c = '\n'
  · subst h4; exact absurd h (by decide)
  simp [Char.isWhitespace, h1, h2, h3, h4]

/-- Claim C10: the option parser never rejects a gap-penalty argument on
grounds of sign or magnitude.  (1) Every argument consisting of an optional
minus sign followed by decimal digits parses successfully to exactly the
signed decimal value of those digits — negative values included.  (2) The
parse is reported as failed exactly when sscanf returns EOF, i.e. exactly
when the argument is empty after skipping white space.  (3) A non-numeric
non-empty argument (first non-white-space character neither a digit nor a
sign) parses successfully and leaves the incoming gap penalty — the default
16 set by main — in effect. -/
theorem C10_gap_penalty_option (g : Int) :
    (∀ (neg : Bool) (ds : List Char), ds ≠ [] → (∀ c ∈ ds, c.isDigit = true) →
      parse_gap_penalty_option ((if neg then ['-'] else []) ++ ds) g =
        some ((if neg then (-1 : Int) else 1) *
          (Nat.ofDigits 10 ((ds.reverse).map (fun c => c.toNat - 48)) : Int))) ∧
    (∀ cs : List Char, parse_gap_penalty_option cs g = none ↔
      cs.dropWhile Char.isWhitespace = []) ∧
    (∀ (c : Char) (r cs : List Char), cs.dropWhile Char.isWhitespace = c :: r →
      c.isDigit = false → ¬c = '-' → ¬c = '+' →
      parse_gap_penalty_option cs g = some g) := by
  refine ⟨?_, ?_, ?_⟩
  · intro neg ds hne hdig
    cases ds with
    | nil => exact absurd rfl hne
    | cons d ds =>
      have hd : d.isDigit = true := hdig d (List.mem_cons_self d ds)
      have hdsign := digit_ne_sign d hd
      have htw : (d :: ds).takeWhile Char.isDigit = d :: ds := takeWhile_all _ hdig
      have hdw : (d :: ds).dropWhile Char.isWhitespace = d :: ds := by
        rw [List.dropWhile_cons, digit_not_whitespace d hd]
        simp
      cases neg with
      | false =>
        simp only [if_false, Bool.false_eq_true, List.nil_append]
        rw [parse_gap_penalty_option, sscanf_lld, hdw]
        dsimp only
        rw [if_neg hdsign.1, if_neg hdsign.2, htw]
        dsimp only
        rw [sscanf_lld_digits_eq_ofDigits]
        simp
        norm_cast
      | true =>
        simp only [if_true]
        rw [parse_gap_penalty_option, sscanf_lld]
        rw [show (['-'] ++ (d :: ds)).dropWhile Char.isWhitespace = '-' :: (d :: ds) from by
          rw [List.singleton_append, List.dropWhile_cons]
          simp]
        dsimp only
        rw [if_pos rfl, htw]
        dsimp only
        rw [sscanf_lld_digits_eq_ofDigits]
        simp
        norm_cast
  · intro cs
    rw [← sscanf_lld_eq_none_iff]
    unfold parse_gap_penalty_option
    cases hs : sscanf_lld cs with
    | none => simp
    | some o => cases o <;> simp
  · intro c r cs hdrop hcd hc1 hc2
    rw [parse_gap_penalty_option, sscanf_lld, hdrop]
    dsimp only
    rw [if_neg hc1, if_neg hc2]
    rw [List.takeWhile_cons_of_neg (by rw [hcd]; exact Bool.false_ne_true)]

/-- Witness for C10_gap_penalty_option: the argument -5 parses to the exact
value -5 with the default gap penalty 16 in scope. -/
theorem C10_gap_penalty_option_witness :
    (("5".toList ≠ ([] : List Char)) ∧ (∀ c ∈ "5".toList, c.isDigit = true)) ∧
    parse_gap_penalty_option ((if true then ['-'] else []) ++ "5".toList) 16 =
      some ((if true then (-1 : Int) else 1) *
        (Nat.ofDigits 10 (("5".toList.reverse).map (fun c => c.toNat - 48)) : Int)) :=
  ⟨⟨by decide, by decide⟩,
    (C10_gap_penalty_option 16).1 true "5".toList (by decide) (by decide)⟩

theorem pair_section_count_eq : ∀ (chars : List Char) (prev : Nat),
    pair_section_nongap_count prev chars
      = prev + chars.countP (fun c => decide (c ≠ '-')) := by
  intro chars
  induction chars with
  | nil => intro prev; rfl
  | cons c l ih =>
    intro prev
    unfold pair_section_nongap_count at ih ⊢
    rw [List.foldl_cons]
    by_cases hc : c = '-'
    · rw [if_neg (by simp [hc]), ih prev, List.countP_cons]
      simp [hc]
    · rw [if_pos hc, ih (prev + 1), List.countP_cons]
      simp [hc]
      omega

theorem pair_coords_fold_inv (tX tY : List Char) : ∀ (m : Nat),
    (List.range m).foldl
      (fun (st : Nat × Nat × List ((Nat × Nat) × (Nat × Nat))) i =>
        let current_X := pair_section_nongap_count st.1 ((tX.drop (i * 50)).take 50)
        let current_Y := pair_section_nongap_count st.2.1 ((tY.drop (i * 50)).take 50)
        let starting_X := if current_X > st.1 then st.1 + 1 else st.1
        let starting_Y := if current_Y > st.2.1 then st.2.1 + 1 else st.2.1
        (current_X, current_Y, st.2.2 ++ [((starting_X, current_X), (starting_Y, current_Y))]))
      (0, 0, []) =
    ((tX.take (m * 50)).countP (fun c => decide (c ≠ '-')),
     (tY.take (m * 50)).countP (fun c => decide (c ≠ '-')),
     (List.range m).map (fun k =>
       ((if ((tX.drop (k * 50)).take 50).any (fun c => decide (c ≠ '-'))
           then (tX.take (k * 50)).countP (fun c => decide (c ≠ '-')) + 1
           else (tX.take (k * 50)).countP (fun c => decide (c ≠ '-')),
         (tX.take (k * 50 + 50)).countP (fun c => decide (c ≠ '-'))),
        (if ((tY.drop (k * 50)).take 50).any (fun c => decide (c ≠ '-'))
           then (tY.take (k * 50)).countP (fun c => decide (c ≠ '-')) + 1
           else (tY.take (k * 50)).countP (fun c => decide (c ≠ '-')),
         (tY.take (k * 50 + 50)).countP (fun c => decide (c ≠ '-')))))) := by
  intro m
  induction m with
  | zero => rfl
  | succ m ih =>
    rw [List.range_succ, List.foldl_append, List.foldl_cons, List.foldl_nil, ih]
    have htakeX : tX.take ((m + 1) * 50)
        = tX.take (m * 50) ++ (tX.drop (m * 50)).take 50 := by
      rw [show (m + 1) * 50 = m * 50 + 50 from by ring]
      exact (List.take_add tX (m * 50) 50)
    have htakeY : tY.take ((m + 1) * 50)
        = tY.take (m * 50) ++ (tY.drop (m * 50)).take 50 := by
      rw [show (m + 1) * 50 = m * 50 + 50 from by ring]
      exact (List.take_add tY (m * 50) 50)
    have hcntX : pair_section_nongap_count
        ((tX.take (m * 50)).countP (fun c => decide (c ≠ '-')))
        ((tX.drop (m * 50)).take 50)
        = (tX.take ((m + 1) * 50)).countP (fun c => decide (c ≠ '-')) := by
      rw [pair_section_count_eq, htakeX, List.countP_append]
    have hcntY : pair_section_nongap_count
        ((tY.take (m * 50)).countP (fun c => decide (c ≠ '-')))
        ((tY.drop (m * 50)).take 50)
        = (tY.take ((m + 1) * 50)).countP (fun c => decide (c ≠ '-')) := by
      rw [pair_section_count_eq, htakeY, List.countP_append]
    dsimp only
    rw [hcntX, hcntY]
    have hifX : ((tX.take ((m + 1) * 50)).countP (fun c => decide (c ≠ '-'))
          > (tX.take (m * 50)).countP (fun c => decide (c ≠ '-')))
        ↔ ((tX.drop (m * 50)).take 50).any (fun c => decide (c ≠ '-')) = true := by
      rw [htakeX, List.countP_append, List.any_eq_true]
      constructor
      · intro hgt
        have : 0 < ((tX.drop (m * 50)).take 50).countP (fun c => decide (c ≠ '-')) := by omega
        exact List.countP_pos.mp this
      · intro hex
        have := List.countP_pos.mpr hex
        omega
    have hifY : ((tY.take ((m + 1) * 50)).countP (fun c => decide (c ≠ '-'))
          > (tY.take (m * 50)).countP (fun c => decide (c ≠ '-')))
        ↔ ((tY.drop (m * 50)).take 50).any (fun c => decide (c ≠ '-')) = true := by
      rw [htakeY, List.countP_append, List.any_eq_true]
      constructor
      · intro hgt
        have : 0 < ((tY.drop (m * 50)).take 50).countP (fun c => decide (c ≠ '-')) := by omega
        exact List.countP_pos.mp this
      · intro hex
        have := List.countP_pos.mpr hex
        omega
    rw [List.map_append, List.map_cons, List.map_nil]
    congr 1
    congr 1
    congr 1
    congr 1
    by_cases hx : ((tX.drop (m * 50)).take 50).any (fun c => decide (c ≠ '-')) = true
    · by_cases hy : ((tY.drop (m * 50)).take 50).any (fun c => decide (c ≠ '-')) = true
      · rw [if_pos (hifX.mpr hx), if_pos (hifY.mpr hy), if_pos hx, if_pos hy,
          show m * 50 + 50 = (m + 1) * 50 from by ring]
      · rw [if_pos (hifX.mpr hx), if_neg (fun hgt => hy (hifY.mp hgt)), if_pos hx, if_neg hy,
          show m * 50 + 50 = (m + 1) * 50 from by ring]
    · by_cases hy : ((tY.drop (m * 50)).take 50).any (fun c => decide (c ≠ '-')) = true
      · rw [if_neg (fun hgt => hx (hifX.mp hgt)), if_pos (hifY.mpr hy), if_neg hx, if_pos hy,
          show m * 50 + 50 = (m + 1) * 50 from by ring]
      · rw [if_neg (fun hgt => hx (hifX.mp hgt)), if_neg (fun hgt => hy (hifY.mp hgt)),
          if_neg hx, if_neg hy,
          show m * 50 + 50 = (m + 1) * 50 from by ring]

/-- Claim C7: in the pair-format body, for every alignment and every
50-column segment including the remainder segment, the displayed start
coordinate of a sequence equals the running non-gap count at segment start
plus one exactly when the segment contains at least one non-gap character
for that sequence and equals the unchanged running count otherwise, while
the displayed end coordinate always equals the running non-gap count after
the segment. -/
theorem C7_pair_segment_coordinates (trace_X trace_Y : List Char)
    (h : trace_Y.length = trace_X.length) :
    generate_pair_alignment_coords trace_X trace_Y =
      (List.range (trace_X.length / 50 + (if trace_X.length % 50 = 0 then 0 else 1))).map
        (fun k =>
          ((if ((trace_X.drop (k * 50)).take (min 50 (trace_X.length - k * 50))).any
                (fun c => decide (c ≠ '-'))
              then (trace_X.take (k * 50)).countP (fun c => decide (c ≠ '-')) + 1
              else (trace_X.take (k * 50)).countP (fun c => decide (c ≠ '-')),
            (trace_X.take (k * 50 + min 50 (trace_X.length - k * 50))).countP
              (fun c => decide (c ≠ '-'))),
           (if ((trace_Y.drop (k * 50)).take (min 50 (trace_X.length - k * 50))).any
                (fun c => decide (c ≠ '-'))
              then (trace_Y.take (k * 50)).countP (fun c => decide (c ≠ '-')) + 1
              else (trace_Y.take (k * 50)).countP (fun c => decide (c ≠ '-')),
            (trace_Y.take (k * 50 + min 50 (trace_X.length - k * 50))).countP
              (fun c => decide (c ≠ '-'))))) := by
  have hmapc : ∀ k ∈ List.range (trace_X.length / 50),
      min 50 (trace_X.length - k * 50) = 50 := by
    intro k hk
    have := List.mem_range.mp hk
    omega
  unfold generate_pair_alignment_coords
  dsimp only
  rw [pair_coords_fold_inv trace_X trace_Y (trace_X.length / 50)]
  by_cases hr : trace_X.length % 50 = 0
  · rw [if_neg (by simpa using hr), if_pos hr]
    rw [Nat.add_zero]
    apply List.map_congr_left
    intro k hk
    rw [hmapc k hk]
  · rw [if_pos hr, if_neg hr]
    rw [List.range_succ, List.map_append, List.map_cons, List.map_nil]
    have hprefix : (List.range (trace_X.length / 50)).map (fun k =>
        ((if ((trace_X.drop (k * 50)).take 50).any (fun c => decide (c ≠ '-'))
            then (trace_X.take (k * 50)).countP (fun c => decide (c ≠ '-')) + 1
            else (trace_X.take (k * 50)).countP (fun c => decide (c ≠ '-')),
          (trace_X.take (k * 50 + 50)).countP (fun c => decide (c ≠ '-'))),
         (if ((trace_Y.drop (k * 50)).take 50).any (fun c => decide (c ≠ '-'))
            then (trace_Y.take (k * 50)).countP (fun c => decide (c ≠ '-')) + 1
            else (trace_Y.take (k * 50)).countP (fun c => decide (c ≠ '-')),
          (trace_Y.take (k * 50 + 50)).countP (fun c => decide (c ≠ '-'))))) =
        (List.range (trace_X.length / 50)).map (fun k =>
        ((if ((trace_X.drop (k * 50)).take (min 50 (trace_X.length - k * 50))).any
              (fun c => decide (c ≠ '-'))
            then (trace_X.take (k * 50)).countP (fun c => decide (c ≠ '-')) + 1
            else (trace_X.take (k * 50)).countP (fun c => decide (c ≠ '-')),
          (trace_X.take (k * 50 + min 50 (trace_X.length - k * 50))).countP
            (fun c => decide (c ≠ '-'))),
         (if ((trace_Y.drop (k * 50)).take (min 50 (trace_X.length - k * 50))).any
              (fun c => decide (c ≠ '-'))
            then (trace_Y.take (k * 50)).countP (fun c => decide (c ≠ '-')) + 1
            else (trace_Y.take (k * 50)).countP (fun c => decide (c ≠ '-')),
          (trace_Y.take (k * 50 + min 50 (trace_X.length - k * 50))).countP
            (fun c => decide (c ≠ '-'))))) := by
      apply List.map_congr_left
      intro k hk
      rw [hmapc k hk]
    rw [← hprefix]
    congr 1
    have hmin : min 50 (trace_X.length - trace_X.length / 50 * 50) = trace_X.length % 50 := by
      omega
    have htX : trace_X.take (trace_X.length / 50 * 50 + trace_X.length % 50)
        = trace_X.take (trace_X.length / 50 * 50)
          ++ (trace_X.drop (trace_X.length / 50 * 50)).take (trace_X.length % 50) :=
      List.take_add trace_X _ _
    have htY : trace_Y.take (trace_Y.length / 50 * 50 + trace_Y.length % 50)
        = trace_Y.take (trace_Y.length / 50 * 50)
          ++ (trace_Y.drop (trace_Y.length / 50 * 50)).take (trace_Y.length % 50) :=
      List.take_add trace_Y _ _
    rw [hmin]
    rw [pair_section_count_eq, pair_section_count_eq]
    have hcX : (trace_X.take (trace_X.length / 50 * 50)).countP (fun c => decide (c ≠ '-'))
          + ((trace_X.drop (trace_X.length / 50 * 50)).take (trace_X.length % 50)).countP
            (fun c => decide (c ≠ '-'))
        = (trace_X.take (trace_X.length / 50 * 50 + trace_X.length % 50)).countP
            (fun c => decide (c ≠ '-')) := by
      rw [htX, List.countP_append]
    have hcY : (trace_Y.take (trace_X.length / 50 * 50)).countP (fun c => decide (c ≠ '-'))
          + ((trace_Y.drop (trace_X.length / 50 * 50)).take (trace_X.length % 50)).countP
            (fun c => decide (c ≠ '-'))
        = (trace_Y.take (trace_X.length / 50 * 50 + trace_X.length % 50)).countP
            (fun c => decide (c ≠ '-')) := by
      rw [show trace_X.length / 50 = trace_Y.length / 50 from by rw [h],
        show trace_X.length % 50 = trace_Y.length % 50 from by rw [h]]
      rw [htY, List.countP_append]
    rw [hcX, hcY]
    have hifX : ((trace_X.take (trace_X.length / 50 * 50 + trace_X.length % 50)).countP
          (fun c => decide (c ≠ '-'))
          > (trace_X.take (trace_X.length / 50 * 50)).countP (fun c => decide (c ≠ '-')))
        ↔ ((trace_X.drop (trace_X.length / 50 * 50)).take (trace_X.length % 50)).any
            (fun c => decide (c ≠ '-')) = true := by
      rw [← hcX, List.any_eq_true]
      constructor
      · intro hgt
        exact List.countP_pos_iff.mp (by omega)
      · intro hex
        have := List.countP_pos_iff.mpr hex
        omega
    have hifY : ((trace_Y.take (trace_X.length / 50 * 50 + trace_X.length % 50)).countP
          (fun c => decide (c ≠ '-'))
          > (trace_Y.take (trace_X.length / 50 * 50)).countP (fun c => decide (c ≠ '-')))
        ↔ ((trace_Y.drop (trace_X.length / 50 * 50)).take (trace_X.length % 50)).any
            (fun c => decide (c ≠ '-')) = true := by
      rw [← hcY, List.any_eq_true]
      constructor
      · intro hgt
        exact List.countP_pos_iff.mp (by omega)
      · intro hex
        have := List.countP_pos_iff.mpr hex
        omega
    by_cases hx : ((trace_X.drop (trace_X.length / 50 * 50)).take (trace_X.length % 50)).any
        (fun c => decide (c ≠ '-')) = true
    · by_cases hy : ((trace_Y.drop (trace_X.length / 50 * 50)).take (trace_X.length % 50)).any
          (fun c => decide (c ≠ '-')) = true
      · rw [if_pos (hifX.mpr hx), if_pos (hifY.mpr hy), if_pos hx, if_pos hy]
      · rw [if_pos (hifX.mpr hx), if_neg (fun hgt => hy (hifY.mp hgt)), if_pos hx, if_neg hy]
    · by_cases hy : ((trace_Y.drop (trace_X.length / 50 * 50)).take (trace_X.length % 50)).any
          (fun c => decide (c ≠ '-')) = true
      · rw [if_neg (fun hgt => hx (hifX.mp hgt)), if_pos (hifY.mpr hy), if_neg hx, if_pos hy]
      · rw [if_neg (fun hgt => hx (hifX.mp hgt)), if_neg (fun hgt => hy (hifY.mp hgt)),
          if_neg hx, if_neg hy]

/-- Witness for C7_pair_segment_coordinates on a 75-column alignment whose
trace_Y second segment is gap-only. -/
theorem C7_pair_segment_coordinates_witness :
    ((List.replicate 30 'C' ++ List.replicate 45 '-').length
      = (List.replicate 75 'A').length) ∧
    generate_pair_alignment_coords (List.replicate 75 'A')
        (List.replicate 30 'C' ++ List.replicate 45 '-') =
      (List.range ((List.replicate 75 'A').length / 50
          + (if (List.replicate 75 'A').length % 50 = 0 then 0 else 1))).map
        (fun k =>
          ((if (((List.replicate 75 'A').drop (k * 50)).take
                (min 50 ((List.replicate 75 'A').length - k * 50))).any
                (fun c => decide (c ≠ '-'))
              then ((List.replicate 75 'A').take (k * 50)).countP
                (fun c => decide (c ≠ '-')) + 1
              else ((List.replicate 75 'A').take (k * 50)).countP
                (fun c => decide (c ≠ '-')),
            ((List.replicate 75 'A').take (k * 50
                + min 50 ((List.replicate 75 'A').length - k * 50))).countP
              (fun c => decide (c ≠ '-'))),
           (if (((List.replicate 30 'C' ++ List.replicate 45 '-').drop (k * 50)).take
                (min 50 ((List.replicate 75 'A').length - k * 50))).any
                (fun c => decide (c ≠ '-'))
              then ((List.replicate 30 'C' ++ List.replicate 45 '-').take (k * 50)).countP
                (fun c => decide (c ≠ '-')) + 1
              else ((List.replicate 30 'C' ++ List.replicate 45 '-').take (k * 50)).countP
                (fun c => decide (c ≠ '-')),
            ((List.replicate 30 'C' ++ List.replicate 45 '-').take (k * 50
                + min 50 ((List.replicate 75 'A').length - k * 50))).countP
              (fun c => decide (c ≠ '-'))))) :=
  ⟨by decide, C7_pair_segment_coordinates (List.replicate 75 'A')
    (List.replicate 30 'C' ++ List.replicate 45 '-') (by decide)⟩

theorem write_trace_chars_length : ∀ (cs : List Char) (buf : List Char) (p : Nat),
    (write_trace_chars buf p cs).length = buf.length := by
  intro cs
  induction cs with
  | nil => intro buf p; rfl
  | cons c cs ih =>
    intro buf p
    rw [write_trace_chars, ih, List.length_set]

theorem write_trace_chars_getD : ∀ (cs : List Char) (buf : List Char) (p m : Nat),
    (write_trace_chars buf p cs).getD m ' ' =
      if p ≤ m ∧ m < p + cs.length ∧ m < buf.length then cs.getD (m - p) ' '
      else buf.getD m ' ' := by
  intro cs
  induction cs with
  | nil =>
    intro buf p m
    rw [write_trace_chars]
    rw [if_neg (by simp only [List.length_nil]; omega)]
  | cons c cs ih =>
    intro buf p m
    rw [write_trace_chars, ih (buf.set p c) (p + 1) m, List.length_set]
    by_cases h1 : p + 1 ≤ m ∧ m < p + 1 + cs.length ∧ m < buf.length
    · rw [if_pos h1, if_pos (by simp only [List.length_cons]; omega)]
      have e : m - p = (m - (p + 1)) + 1 := by omega
      rw [e, List.getD_cons_succ]
    · rw [if_neg h1]
      by_cases h2 : m = p
      · subst h2
        by_cases h3 : m < buf.length
        · rw [getD_set_self buf ' ' m c h3]
          rw [if_pos (by simp only [List.length_cons]; omega)]
          simp
        · rw [List.set_eq_of_length_le (by omega)]
          rw [if_neg (by simp only [List.length_cons]; omega)]
      · rw [getD_set_ne buf ' ' p m c (fun he => h2 he.symm)]
        rw [if_neg (by simp only [List.length_cons]; omega)]

theorem swap_trace_cells_length (buf : List Char) (i k : Nat) :
    (swap_trace_cells buf i k).length = buf.length := by
  rw [swap_trace_cells, List.length_set, List.length_set]

theorem swap_trace_cells_getD (buf : List Char) (i k m : Nat) (hi : i < buf.length)
    (hk : k < buf.length) :
    (swap_trace_cells buf i k).getD m ' ' =
      if m = k then buf.getD i ' '
      else if m = i then buf.getD k ' '
      else buf.getD m ' ' := by
  rw [swap_trace_cells]
  by_cases h1 : m = k
  · subst h1
    rw [if_pos rfl]
    exact getD_set_self _ ' ' m _ (by rw [List.length_set]; exact hk)
  · rw [if_neg h1, getD_set_ne _ ' ' k m _ (fun he => h1 he.symm)]
    by_cases h2 : m = i
    · subst h2
      rw [if_pos rfl]
      exact getD_set_self buf ' ' m _ hi
    · rw [if_neg h2, getD_set_ne buf ' ' i m _ (fun he => h2 he.symm)]

theorem reverse_swaps_getD (buf : List Char) (idx : Nat) (hidx : idx < buf.length) :
    ∀ (n : Nat), 2 * n ≤ idx + 1 →
    (((List.range n).foldl (fun b i => swap_trace_cells b i (idx - i)) buf).length
      = buf.length) ∧
    (∀ m, ((List.range n).foldl (fun b i => swap_trace_cells b i (idx - i)) buf).getD m ' ' =
      if m < n then buf.getD (idx - m) ' '
      else if idx - n < m ∧ m ≤ idx then buf.getD (idx - m) ' '
      else buf.getD m ' ') := by
  intro n
  induction n with
  | zero =>
    intro _
    refine ⟨rfl, fun m => ?_⟩
    rw [if_neg (by omega), if_neg (by omega)]
    rfl
  | succ n ih =>
    intro hn
    obtain ⟨ihlen, ihget⟩ := ih (by omega)
    rw [List.range_succ, List.foldl_append, List.foldl_cons, List.foldl_nil]
    have hlen2 : (List.foldl (fun b i => swap_trace_cells b i (idx - i)) buf
        (List.range n)).length = buf.length := ihlen
    constructor
    · rw [swap_trace_cells_length, hlen2]
    · intro m
      rw [swap_trace_cells_getD _ n (idx - n) m (by rw [hlen2]; omega) (by rw [hlen2]; omega)]
      rw [ihget n, ihget (idx - n), ihget m]
      split_ifs <;> first | rfl | omega | (congr 1; omega)

theorem reverse_trace_length (buf : List Char) (idx : Nat) :
    (reverse_trace buf idx).length = buf.length := by
  rw [reverse_trace]
  exact foldl_length_frame _ _ _ (fun b i _ => swap_trace_cells_length b i (idx - i))

theorem reverse_trace_getD (buf : List Char) (idx : Nat) (hidx : idx < buf.length) (m : Nat) :
    (reverse_trace buf idx).getD m ' ' =
      if m ≤ idx then buf.getD (idx - m) ' ' else buf.getD m ' ' := by
  rw [reverse_trace]
  obtain ⟨_, hget⟩ := reverse_swaps_getD buf idx hidx ((idx + 1) / 2) (by omega)
  rw [hget m]
  by_cases h1 : m ≤ idx
  · rw [if_pos h1]
    by_cases h2 : m < (idx + 1) / 2
    · rw [if_pos h2]
    · rw [if_neg h2]
      by_cases h3 : idx - (idx + 1) / 2 < m ∧ m ≤ idx
      · rw [if_pos h3]
      · rw [if_neg h3]
        rw [show idx - m = m from by omega]
  · rw [if_neg h1, if_neg (by omega), if_neg (by omega)]

theorem trace_buffer_extract (buf ws : List Char) (hne : ws ≠ [])
    (hlen : ws.length ≤ buf.length) :
    (reverse_trace (write_trace_chars buf 0 ws) (ws.length - 1)).take ws.length
      = ws.reverse := by
  have hwpos : 0 < ws.length := List.length_pos.mpr hne
  have hWlen : (write_trace_chars buf 0 ws).length = buf.length :=
    write_trace_chars_length ws buf 0
  have hRlen : (reverse_trace (write_trace_chars buf 0 ws) (ws.length - 1)).length
      = buf.length := by
    rw [reverse_trace_length, hWlen]
  apply List.ext_getElem
  · simp only [List.length_take, List.length_reverse, hRlen]
    omega
  · intro i h1 h2
    rw [List.getElem_take]
    have hi : i < ws.length := by
      simp only [List.length_take, hRlen] at h1
      omega
    have hb : i < (reverse_trace (write_trace_chars buf 0 ws) (ws.length - 1)).length := by
      rw [hRlen]; omega
    rw [← List.getD_eq_getElem (reverse_trace (write_trace_chars buf 0 ws) (ws.length - 1))
      ' ' hb]
    rw [reverse_trace_getD _ _ (by rw [hWlen]; omega) i]
    rw [if_pos (by omega)]
    rw [write_trace_chars_getD ws buf 0 (ws.length - 1 - i)]
    rw [if_pos (by constructor; omega; constructor; omega; omega)]
    rw [Nat.sub_zero]
    rw [List.getElem_reverse]
    exact List.getD_eq_getElem ws ' ' (by omega)

theorem traceColumns_eq_spec_walk (seq_X seq_Y : List Char) (Z : List Int)
    (subst : Char → Char → Int) (G : Int)
    (hZ : ∀ k, 0 ≤ Z.getD k 0) (hG : 0 ≤ G) :
    ∀ (n x y : Nat), x + y ≤ n → 0 < Z.getD (x * seq_Y.length + y) 0 →
    (traceColumns seq_X seq_Y Z subst G x y = none ∧
      spec_trace_walk seq_X seq_Y Z subst G x y = none) ∨
    (∃ cs x2 y2, traceColumns seq_X seq_Y Z subst G x y = some (cs, true, x2, y2) ∧
      spec_trace_walk seq_X seq_Y Z subst G x y = some (cs, x2, y2) ∧
      1 ≤ cs.length ∧ cs.length ≤ x + y + 1) := by
  intro n
  induction n with
  | zero =>
    intro x y hxy hpos
    have hx0 : x = 0 := by omega
    have hy0 : y = 0 := by omega
    subst hx0; subst hy0
    right
    refine ⟨[(seq_X.getD 0 ' ', seq_Y.getD 0 ' ')], 0, 0, ?_, ?_, by simp, by simp⟩
    · rw [traceColumns, if_neg (by omega), dif_pos (Or.inl rfl)]
    · rw [spec_trace_walk, if_neg (by omega), dif_pos (Or.inl rfl)]
  | succ n ih =>
    intro x y hxy hpos
    by_cases hbd : x = 0 ∨ y = 0
    · right
      refine ⟨[(seq_X.getD x ' ', seq_Y.getD y ' ')], x, y, ?_, ?_, by simp, by
        simp only [List.length_cons, List.length_nil]; omega⟩
      · rw [traceColumns, if_neg (by omega), dif_pos hbd]
      · rw [spec_trace_walk, if_neg (by omega), dif_pos hbd]
    · by_cases hb1 : Z.getD (x * seq_Y.length + y - 1) 0 - G
          = Z.getD (x * seq_Y.length + y) 0
      · have hfind : trace_rule_priority.find?
            (trace_rule_holds seq_X seq_Y Z subst G x y) = some TraceRule.leftGap := by
          rw [trace_rule_priority]
          rw [List.find?_cons_of_pos _ (by
            simp only [trace_rule_holds, decide_eq_true_eq]
            exact hb1)]
        have hposL : 0 < Z.getD (x * seq_Y.length + (y - 1)) 0 := by
          rw [show x * seq_Y.length + (y - 1) = x * seq_Y.length + y - 1 from by omega]
          omega
        rcases ih x (y - 1) (by omega) hposL with ⟨hnc, hns⟩ |
          ⟨cs, x2, y2, hc, hs, hl1, hl2⟩
        · left
          constructor
          · rw [traceColumns, if_neg (by omega), dif_neg hbd, if_pos hb1, hnc]
            rfl
          · rw [spec_trace_walk, if_neg (by omega), dif_neg hbd, hfind]
            dsimp only
            rw [hns]
            rfl
        · right
          refine ⟨('-', seq_Y.getD y ' ') :: cs, x2, y2, ?_, ?_, by simp, by
            simp only [List.length_cons]; omega⟩
          · rw [traceColumns, if_neg (by omega), dif_neg hbd, if_pos hb1, hc]
            rfl
          · rw [spec_trace_walk, if_neg (by omega), dif_neg hbd, hfind]
            dsimp only
            rw [hs]
            rfl
      · by_cases hb2 : Z.getD ((x - 1) * seq_Y.length + (y - 1)) 0
            + subst (seq_X.getD x ' ') (seq_Y.getD y ' ') = Z.getD (x * seq_Y.length + y) 0
        · have hfind : trace_rule_priority.find?
              (trace_rule_holds seq_X seq_Y Z subst G x y) = some TraceRule.diagonal := by
            rw [trace_rule_priority]
            rw [List.find?_cons_of_neg _ (by simp only [trace_rule_holds, decide_eq_true_eq]; exact hb1)]
            rw [List.find?_cons_of_pos _ (by
              simp only [trace_rule_holds, decide_eq_true_eq]
              exact hb2)]
          by_cases hz : Z.getD ((x - 1) * seq_Y.length + (y - 1)) 0 = 0
          · right
            refine ⟨[(seq_X.getD x ' ', seq_Y.getD y ' ')], x, y, ?_, ?_, by simp, by
              simp only [List.length_cons, List.length_nil]; omega⟩
            · rw [traceColumns, if_neg (by omega), dif_neg hbd, if_neg hb1, if_pos hb2,
                if_pos hz]
            · rw [spec_trace_walk, if_neg (by omega), dif_neg hbd, hfind]
              dsimp only
              rw [if_pos hz]
          · have hposD : 0 < Z.getD ((x - 1) * seq_Y.length + (y - 1)) 0 := by
              have := hZ ((x - 1) * seq_Y.length + (y - 1))
              omega
            rcases ih (x - 1) (y - 1) (by omega) hposD with ⟨hnc, hns⟩ |
              ⟨cs, x2, y2, hc, hs, hl1, hl2⟩
            · left
              constructor
              · rw [traceColumns, if_neg (by omega), dif_neg hbd, if_neg hb1, if_pos hb2,
                  if_neg hz, hnc]
                rfl
              · rw [spec_trace_walk, if_neg (by omega), dif_neg hbd, hfind]
                dsimp only
                rw [if_neg hz, hns]
                rfl
            · right
              refine ⟨(seq_X.getD x ' ', seq_Y.getD y ' ') :: cs, x2, y2, ?_, ?_, by simp, by
                simp only [List.length_cons]; omega⟩
              · rw [traceColumns, if_neg (by omega), dif_neg hbd, if_neg hb1, if_pos hb2,
                  if_neg hz, hc]
                rfl
              · rw [spec_trace_walk, if_neg (by omega), dif_neg hbd, hfind]
                dsimp only
                rw [if_neg hz, hs]
                rfl
        · by_cases hb3 : Z.getD ((x - 1) * seq_Y.length + y) 0 - G
              = Z.getD (x * seq_Y.length + y) 0
          · have hfind : trace_rule_priority.find?
                (trace_rule_holds seq_X seq_Y Z subst G x y) = some TraceRule.upGap := by
              rw [trace_rule_priority]
              rw [List.find?_cons_of_neg _ (by simp only [trace_rule_holds, decide_eq_true_eq]; exact hb1)]
              rw [List.find?_cons_of_neg _ (by simp only [trace_rule_holds, decide_eq_true_eq]; exact hb2)]
              rw [List.find?_cons_of_pos _ (by
                simp only [trace_rule_holds, decide_eq_true_eq]
                exact hb3)]
            have hposU : 0 < Z.getD ((x - 1) * seq_Y.length + y) 0 := by omega
            rcases ih (x - 1) y (by omega) hposU with ⟨hnc, hns⟩ |
              ⟨cs, x2, y2, hc, hs, hl1, hl2⟩
            · left
              constructor
              · rw [traceColumns, if_neg (by omega), dif_neg hbd, if_neg hb1, if_neg hb2,
                  if_pos hb3, hnc]
                rfl
              · rw [spec_trace_walk, if_neg (by omega), dif_neg hbd, hfind]
                dsimp only
                rw [hns]
                rfl
            · right
              refine ⟨(seq_X.getD x ' ', '-') :: cs, x2, y2, ?_, ?_, by simp, by
                simp only [List.length_cons]; omega⟩
              · rw [traceColumns, if_neg (by omega), dif_neg hbd, if_neg hb1, if_neg hb2,
                  if_pos hb3, hc]
                rfl
              · rw [spec_trace_walk, if_neg (by omega), dif_neg hbd, hfind]
                dsimp only
                rw [hs]
                rfl
          · left
            have hfind : trace_rule_priority.find?
                (trace_rule_holds seq_X seq_Y Z subst G x y) = none := by
              rw [trace_rule_priority]
              rw [List.find?_cons_of_neg _ (by simp only [trace_rule_holds, decide_eq_true_eq]; exact hb1)]
              rw [List.find?_cons_of_neg _ (by simp only [trace_rule_holds, decide_eq_true_eq]; exact hb2)]
              rw [List.find?_cons_of_neg _ (by simp only [trace_rule_holds, decide_eq_true_eq]; exact hb3)]
              rfl
            constructor
            · rw [traceColumns, if_neg (by omega), dif_neg hbd, if_neg hb1, if_neg hb2,
                if_neg hb3]
            · rw [spec_trace_walk, if_neg (by omega), dif_neg hbd, hfind]

/-- Claim C2: for every scored matrix (non-negative entries, as the kernel
produces) and starting cell with Z[i,j] > 0, the traceback engine of the
source is equivalent to the specification walk that checks, at each step,
the boundary stop first (emitting one final no-gap column when i = 0 or
j = 0) and otherwise applies the first matching rule of the declared
priority list left gap > diagonal > up gap, stopping after a diagonal step
whose diagonal predecessor is zero; and the two returned strings are the
reverses of the emitted column characters (the in-place swap reversal). -/
theorem C2_traceback_refinement (seq_X seq_Y : List Char) (Z : List Int)
    (trace_X trace_Y : List Char) (x y : Nat) (subst : Char → Char → Int) (G : Int)
    (hx : x < seq_X.length) (hy : y < seq_Y.length)
    (hZ : ∀ k, 0 ≤ Z.getD k 0) (hG : 0 ≤ G)
    (hpos : 0 < Z.getD (x * seq_Y.length + y) 0)
    (hbX : x + y + 1 ≤ trace_X.length) (hbY : x + y + 1 ≤ trace_Y.length) :
    trace_linear_gap_smith_waterman seq_X seq_Y Z trace_X trace_Y x y subst G =
      spec_trace seq_X seq_Y Z subst G x y := by
  rw [trace_linear_gap_smith_waterman, spec_trace]
  rw [if_neg (by omega)]
  rcases traceColumns_eq_spec_walk seq_X seq_Y Z subst G hZ hG (x + y) x y le_rfl hpos with
    ⟨hnc, hns⟩ | ⟨cs, x2, y2, hc, hs, hl1, hl2⟩
  · rw [hnc, hns]
  · rw [hc, hs]
    dsimp only
    rw [if_pos rfl]
    have hlen1 : cs.length - 1 + 1 = cs.length := by omega
    have hmapX : (cs.map Prod.fst).length = cs.length := List.length_map cs Prod.fst
    have hmapY : (cs.map Prod.snd).length = cs.length := List.length_map cs Prod.snd
    have heX : (reverse_trace (write_trace_chars trace_X 0 (cs.map Prod.fst))
        (cs.length - 1)).take (cs.length - 1 + 1) = (cs.map Prod.fst).reverse := by
      rw [hlen1, show cs.length - 1 = (cs.map Prod.fst).length - 1 from by rw [hmapX],
        show cs.length = (cs.map Prod.fst).length from hmapX.symm]
      exact trace_buffer_extract trace_X (cs.map Prod.fst)
        (by intro hnil; rw [hnil] at hmapX; simp at hmapX; omega)
        (by rw [hmapX]; omega)
    have heY : (reverse_trace (write_trace_chars trace_Y 0 (cs.map Prod.snd))
        (cs.length - 1)).take (cs.length - 1 + 1) = (cs.map Prod.snd).reverse := by
      rw [hlen1, show cs.length - 1 = (cs.map Prod.snd).length - 1 from by rw [hmapY],
        show cs.length = (cs.map Prod.snd).length from hmapY.symm]
      exact trace_buffer_extract trace_Y (cs.map Prod.snd)
        (by intro hnil; rw [hnil] at hmapY; simp at hmapY; omega)
        (by rw [hmapY]; omega)
    rw [heX, heY]

/-- Witness for C2_traceback_refinement: the example program inputs
GGTTGACTA and TGTTACGG with the plus-or-minus-3 substitution function and
gap penalty 2, starting from the best cell (6, 5) of score 13. -/
theorem C2_traceback_refinement_witness :
    ((6 < "GGTTGACTA".toList.length) ∧ (5 < "TGTTACGG".toList.length) ∧
     (∀ k, 0 ≤ (linear_gap_smith_waterman "GGTTGACTA".toList "TGTTACGG".toList
        (List.replicate 72 0) get_example_substitution 2).getD k 0) ∧
     ((0 : Int) ≤ 2) ∧
     (0 < (linear_gap_smith_waterman "GGTTGACTA".toList "TGTTACGG".toList
        (List.replicate 72 0) get_example_substitution 2).getD
          (6 * "TGTTACGG".toList.length + 5) 0) ∧
     (6 + 5 + 1 ≤ (List.replicate 18 '?').length)) ∧
    trace_linear_gap_smith_waterman "GGTTGACTA".toList "TGTTACGG".toList
        (linear_gap_smith_waterman "GGTTGACTA".toList "TGTTACGG".toList
          (List.replicate 72 0) get_example_substitution 2)
        (List.replicate 18 '?') (List.replicate 18 '?') 6 5 get_example_substitution 2 =
      spec_trace "GGTTGACTA".toList "TGTTACGG".toList
        (linear_gap_smith_waterman "GGTTGACTA".toList "TGTTACGG".toList
          (List.replicate 72 0) get_example_substitution 2)
        get_example_substitution 2 6 5 := by
  have hZnn : ∀ k, 0 ≤ (linear_gap_smith_waterman "GGTTGACTA".toList "TGTTACGG".toList
      (List.replicate 72 0) get_example_substitution 2).getD k 0 := by
    intro k
    by_cases hk : k < 72
    · exact (by decide : ∀ k2, k2 < 72 →
        0 ≤ (linear_gap_smith_waterman "GGTTGACTA".toList "TGTTACGG".toList
          (List.replicate 72 0) get_example_substitution 2).getD k2 0) k hk
    · rw [List.getD_eq_getElem?_getD, List.getElem?_eq_none (by
        rw [linear_gap_smith_waterman_length]
        simp only [List.length_replicate]
        omega)]
      simp
  refine ⟨⟨by decide, by decide, hZnn, by decide, by decide, by decide⟩, ?_⟩
  exact C2_traceback_refinement "GGTTGACTA".toList "TGTTACGG".toList _
    (List.replicate 18 '?') (List.replicate 18 '?') 6 5 get_example_substitution 2
    (by decide) (by decide) hZnn (by decide) (by decide) (by decide) (by decide)


/-- Evaluation helper: the result of the full pipeline once the scoring
matrix, the best-cell indices and the traceback result are known. -/
theorem get_linear_gap_sw_score_eval (seq_X seq_Y : List Char)
    (subst : Char → Char → Int) (G : Int) (garbage : Char) (Z : List Int)
    (stop_X stop_Y : Nat) (res : List Char × List Char × Nat × Nat)
    (hZ : linear_gap_smith_waterman seq_X seq_Y
      (List.replicate (seq_X.length * seq_Y.length) 0) subst G = Z)
    (hbest : best_linear_gap_smith_waterman_score_indices seq_X.length seq_Y.length Z
      = some (stop_X, stop_Y))
    (htr : trace_linear_gap_smith_waterman seq_X seq_Y Z
      (List.replicate (stop_X + stop_Y + 3) garbage)
      (List.replicate (stop_X + stop_Y + 3) garbage) stop_X stop_Y subst G = some res) :
    get_linear_gap_smith_waterman_score seq_X seq_Y subst G garbage =
      some (Z.getD (stop_X * seq_Y.length + stop_Y) 0, (stop_X, stop_Y),
        (res.2.2.1, res.2.2.2), res.1, res.2.1) := by
  obtain ⟨tX, tY, x2, y2⟩ := res
  simp only [get_linear_gap_smith_waterman_score, hZ, hbest, htr]

/-- Claim C5 (code bug): on the pure-mismatch scenario seq_X = AAAA,
seq_Y = CCCC with the NUC4.4 score function and gap penalty 16, the pipeline
does return score 0, best cell (0,0) and trace strings of length 1 — but the
single column is NOT the mismatched pair (A, C): the traceback loop exits
before writing anything and the emitted character is whatever byte the
uninitialized malloc buffer happened to hold, modelled here by the garbage
parameter: garbage byte 63 yields trace strings holding only byte 63, and
garbage byte 33 yields byte 33 instead. -/
theorem C5_pure_mismatch_uninitialized_trace :
    (get_linear_gap_smith_waterman_score "AAAA".toList "CCCC".toList get_nuc_4_4 16 '?' =
      some (0, (0, 0), (0, 0), (['?'], ['?']))) ∧
    (get_linear_gap_smith_waterman_score "AAAA".toList "CCCC".toList get_nuc_4_4 16 '!' =
      some (0, (0, 0), (0, 0), (['!'], ['!'])))  := by
  have htc : traceColumns "AAAA".toList "CCCC".toList (List.replicate 16 0) get_nuc_4_4 16 0 0
      = some ([], false, 0, 0) := by
    rw [traceColumns]
    decide
  constructor
  · rw [get_linear_gap_sw_score_eval "AAAA".toList "CCCC".toList get_nuc_4_4 16 '?'
      (List.replicate 16 0) 0 0 (['?'], ['?'], 0, 0) (by decide) (by decide)
      (by unfold trace_linear_gap_smith_waterman; rw [htc]; decide)]
    decide
  · rw [get_linear_gap_sw_score_eval "AAAA".toList "CCCC".toList get_nuc_4_4 16 '!'
      (List.replicate 16 0) 0 0 (['!'], ['!'], 0, 0) (by decide) (by decide)
      (by unfold trace_linear_gap_smith_waterman; rw [htc]; decide)]
    decide

/-- Claim C3 (code bug): in TSV mode the second (Reverse_Complement_-prefixed)
row's Smith-Waterman Score field is printed from the forward-alignment score
variable, not from the reverse-complement alignment's score.  For the read
AAAA against query AAAA with gap penalty 16, both emitted score fields are 20,
while the actual best score of the read against the reverse complement TTTT of
the query — the alignment whose statistics appear in that second row — is 0. -/
theorem C3_tsv_rc_score_bug :
    (handle_fastq_tsv_row_scores "AAAA".toList "AAAA".toList 16 '?' = some (20, 20)) ∧
    (get_linear_gap_smith_waterman_score (get_reverse_complement "AAAA".toList)
        "AAAA".toList get_nuc_4_4 16 '?' =
      some (0, (0, 0), (0, 0), (['?'], ['?'])))  := by
  have htc0 : traceColumns "AAAA".toList "AAAA".toList
      [5, 5, 5, 5, 5, 10, 10, 10, 5, 10, 15, 15, 5, 10, 15, 20] get_nuc_4_4 16 0 0
      = some ([('A', 'A')], true, 0, 0) := by
    rw [traceColumns]
    decide
  have htc1 : traceColumns "AAAA".toList "AAAA".toList
      [5, 5, 5, 5, 5, 10, 10, 10, 5, 10, 15, 15, 5, 10, 15, 20] get_nuc_4_4 16 1 1
      = some ([('A', 'A'), ('A', 'A')], true, 0, 0) := by
    rw [traceColumns, htc0]
    decide
  have htc2 : traceColumns "AAAA".toList "AAAA".toList
      [5, 5, 5, 5, 5, 10, 10, 10, 5, 10, 15, 15, 5, 10, 15, 20] get_nuc_4_4 16 2 2
      = some ([('A', 'A'), ('A', 'A'), ('A', 'A')], true, 0, 0) := by
    rw [traceColumns, htc1]
    decide
  have htc3 : traceColumns "AAAA".toList "AAAA".toList
      [5, 5, 5, 5, 5, 10, 10, 10, 5, 10, 15, 15, 5, 10, 15, 20] get_nuc_4_4 16 3 3
      = some ([('A', 'A'), ('A', 'A'), ('A', 'A'), ('A', 'A')], true, 0, 0) := by
    rw [traceColumns, htc2]
    decide
  have hf : get_linear_gap_smith_waterman_score "AAAA".toList "AAAA".toList get_nuc_4_4 16 '?'
      = some (20, (3, 3), (0, 0), ("AAAA".toList, "AAAA".toList)) := by
    rw [get_linear_gap_sw_score_eval "AAAA".toList "AAAA".toList get_nuc_4_4 16 '?'
      [5, 5, 5, 5, 5, 10, 10, 10, 5, 10, 15, 15, 5, 10, 15, 20] 3 3
      ("AAAA".toList, "AAAA".toList, 0, 0) (by decide) (by decide)
      (by unfold trace_linear_gap_smith_waterman; rw [htc3]; decide)]
    decide
  have htcr : traceColumns (get_reverse_complement "AAAA".toList) "AAAA".toList
      (List.replicate 16 0) get_nuc_4_4 16 0 0 = some ([], false, 0, 0) := by
    rw [traceColumns]
    decide
  have hr : get_linear_gap_smith_waterman_score (get_reverse_complement "AAAA".toList)
      "AAAA".toList get_nuc_4_4 16 '?' = some (0, (0, 0), (0, 0), (['?'], ['?'])) := by
    rw [get_linear_gap_sw_score_eval (get_reverse_complement "AAAA".toList) "AAAA".toList
      get_nuc_4_4 16 '?' (List.replicate 16 0) 0 0 (['?'], ['?'], 0, 0) (by decide) (by decide)
      (by unfold trace_linear_gap_smith_waterman; rw [htcr]; decide)]
    decide
  refine ⟨?_, hr⟩
  simp only [handle_fastq_tsv_row_scores, hf, hr]

/-- Reading a list at an in-bounds position with a default yields a member. -/
theorem getD_mem_of_lt (s : List Char) (i : Nat) (hi : i < s.length) : s.getD i ' ' ∈ s := by
  rw [List.getD_eq_getElem s ' ' hi]
  exact List.getElem_mem hi

/-- On the four plain nucleotide codes, the NUC4.4 score is 5 on the diagonal
and -4 off it. -/
theorem nuc44_acgt (a b : Char)
    (ha : a = 'A' ∨ a = 'C' ∨ a = 'G' ∨ a = 'T')
    (hb : b = 'A' ∨ b = 'C' ∨ b = 'G' ∨ b = 'T') :
    get_nuc_4_4 a b = if a = b then 5 else -4 := by
  rcases ha with rfl | rfl | rfl | rfl <;> rcases hb with rfl | rfl | rfl | rfl <;> decide

theorem nuc44_acgt_le (a b : Char)
    (ha : a = 'A' ∨ a = 'C' ∨ a = 'G' ∨ a = 'T')
    (hb : b = 'A' ∨ b = 'C' ∨ b = 'G' ∨ b = 'T') :
    get_nuc_4_4 a b ≤ 5 := by
  rw [nuc44_acgt a b ha hb]
  split_ifs <;> omega

theorem nuc44_acgt_self (a : Char)
    (ha : a = 'A' ∨ a = 'C' ∨ a = 'G' ∨ a = 'T') :
    get_nuc_4_4 a a = 5 := by
  rcases ha with rfl | rfl | rfl | rfl <;> decide

/-- Self-alignment matrix bound: over the plain nucleotide alphabet with gap
penalty 16, every cell (i, j) is at most 5i + 5 and at most 5j + 5. -/
theorem sw_self_bound (s : List Char)
    (hs : ∀ c ∈ s, c = 'A' ∨ c = 'C' ∨ c = 'G' ∨ c = 'T') :
    ∀ N i j, i + j ≤ N → i < s.length → j < s.length →
      (linear_gap_smith_waterman s s (List.replicate (s.length * s.length) 0)
          get_nuc_4_4 16).getD (i * s.length + j) 0 ≤ 5 * (i : Int) + 5 ∧
      (linear_gap_smith_waterman s s (List.replicate (s.length * s.length) 0)
          get_nuc_4_4 16).getD (i * s.length + j) 0 ≤ 5 * (j : Int) + 5 := by
  have hlen : (List.replicate (s.length * s.length) (0 : Int)).length
      = s.length * s.length := by simp
  intro N
  induction N with
  | zero =>
    intro i j hij hi hj
    have hi0 : i = 0 := by omega
    have hj0 : j = 0 := by omega
    subst hi0; subst hj0
    have hX : 0 < s.length := by omega
    have hsubB : get_nuc_4_4 (s.getD 0 ' ') (s.getD 0 ' ') ≤ 5 :=
      nuc44_acgt_le _ _ (hs _ (getD_mem_of_lt s 0 hi)) (hs _ (getD_mem_of_lt s 0 hi))
    simp only [Nat.zero_mul, Nat.zero_add]
    rw [linear_gap_sw_cell_00 s s _ get_nuc_4_4 16 hX hX hlen]
    unfold best_linear_gap_smith_waterman_score
    constructor <;> omega
  | succ N ih =>
    intro i j hij hi hj
    have hX : 0 < s.length := by omega
    have hsubB : get_nuc_4_4 (s.getD i ' ') (s.getD j ' ') ≤ 5 :=
      nuc44_acgt_le _ _ (hs _ (getD_mem_of_lt s i hi)) (hs _ (getD_mem_of_lt s j hj))
    rcases Nat.eq_zero_or_pos i with rfl | hipos
    · rcases Nat.eq_zero_or_pos j with rfl | hjpos
      · simp only [Nat.zero_mul, Nat.zero_add]
        rw [linear_gap_sw_cell_00 s s _ get_nuc_4_4 16 hX hX hlen]
        unfold best_linear_gap_smith_waterman_score
        constructor <;> omega
      · simp only [Nat.zero_mul, Nat.zero_add]
        rw [linear_gap_sw_row0 s s _ get_nuc_4_4 16 hX hX hlen j hjpos hj]
        have hprev := ih 0 (j - 1) (by omega) hX (by omega)
        simp only [Nat.zero_mul, Nat.zero_add] at hprev
        unfold best_linear_gap_smith_waterman_score
        obtain ⟨hp1, hp2⟩ := hprev
        constructor <;> omega
    · rcases Nat.eq_zero_or_pos j with rfl | hjpos
      · simp only [Nat.add_zero]
        rw [linear_gap_sw_col0 s s _ get_nuc_4_4 16 hX hX hlen i hipos hi]
        have hprev := ih (i - 1) 0 (by omega) (by omega) hX
        simp only [Nat.add_zero] at hprev
        unfold best_linear_gap_smith_waterman_score
        obtain ⟨hp1, hp2⟩ := hprev
        constructor <;> omega
      · rw [linear_gap_sw_interior s s _ get_nuc_4_4 16 hX hX hlen i j hipos hi hjpos hj]
        rw [show i * s.length + j - 1 = i * s.length + (j - 1) from by omega]
        have hL := ih i (j - 1) (by omega) hi (by omega)
        have hU := ih (i - 1) j (by omega) (by omega) hj
        have hUL := ih (i - 1) (j - 1) (by omega) (by omega) (by omega)
        unfold best_linear_gap_smith_waterman_score
        obtain ⟨hL1, hL2⟩ := hL
        obtain ⟨hU1, hU2⟩ := hU
        obtain ⟨hUL1, hUL2⟩ := hUL
        constructor <;> omega

/-- Self-alignment diagonal: over the plain nucleotide alphabet with gap
penalty 16, cell (i, i) holds exactly 5i + 5. -/
theorem sw_self_diag (s : List Char)
    (hs : ∀ c ∈ s, c = 'A' ∨ c = 'C' ∨ c = 'G' ∨ c = 'T') :
    ∀ i, i < s.length →
      (linear_gap_smith_waterman s s (List.replicate (s.length * s.length) 0)
          get_nuc_4_4 16).getD (i * s.length + i) 0 = 5 * (i : Int) + 5 := by
  have hlen : (List.replicate (s.length * s.length) (0 : Int)).length
      = s.length * s.length := by simp
  intro i
  induction i with
  | zero =>
    intro hi
    simp only [Nat.zero_mul, Nat.zero_add]
    rw [linear_gap_sw_cell_00 s s _ get_nuc_4_4 16 hi hi hlen]
    unfold best_linear_gap_smith_waterman_score
    rw [nuc44_acgt_self _ (hs _ (getD_mem_of_lt s 0 hi))]
    omega
  | succ i ih =>
    intro hi
    have hX : 0 < s.length := by omega
    rw [linear_gap_sw_interior s s _ get_nuc_4_4 16 hX hX hlen (i + 1) (i + 1)
      (by omega) hi (by omega) hi]
    simp only [Nat.add_sub_cancel]
    rw [show (i + 1) * s.length + (i + 1) - 1 = (i + 1) * s.length + i from by omega]
    have hUL := ih (by omega)
    have hL := (sw_self_bound s hs (i + 1 + i) (i + 1) i le_rfl hi (by omega)).2
    have hU := (sw_self_bound s hs (i + (i + 1)) i (i + 1) le_rfl (by omega) hi).1
    unfold best_linear_gap_smith_waterman_score
    rw [nuc44_acgt_self _ (hs _ (getD_mem_of_lt s (i + 1) hi))]
    omega

/-- Extending a self-zip of a prefix by one position. -/
theorem take_zip_snoc (s : List Char) (k : Nat) (hk : k < s.length) :
    (s.take (k + 1)).zip (s.take (k + 1))
      = (s.take k).zip (s.take k) ++ [(s.getD k ' ', s.getD k ' ')] := by
  have ht : s.take (k + 1) = s.take k ++ [s.getD k ' '] := by
    rw [List.getD_eq_getElem s ' ' hk, List.take_succ, List.getElem?_eq_getElem hk]
    rfl
  rw [ht, List.zip_append rfl]
  rfl

/-- Evaluation helper: the traceback wrapper when the walk exits through a
break with a known column list. -/
theorem trace_linear_eval_brk (seq_X seq_Y : List Char) (Z : List Int)
    (bX bY : List Char) (x y : Nat) (subst : Char → Char → Int) (G : Int)
    (cols : List (Char × Char)) (x2 y2 : Nat)
    (hX : seq_X.length ≠ 0) (hY : seq_Y.length ≠ 0)
    (htc : traceColumns seq_X seq_Y Z subst G x y = some (cols, true, x2, y2)) :
    trace_linear_gap_smith_waterman seq_X seq_Y Z bX bY x y subst G =
      some ((reverse_trace (write_trace_chars bX 0 (cols.map Prod.fst))
              (cols.length - 1)).take (cols.length - 1 + 1),
            (reverse_trace (write_trace_chars bY 0 (cols.map Prod.snd))
              (cols.length - 1)).take (cols.length - 1 + 1),
            x2, y2) := by
  unfold trace_linear_gap_smith_waterman
  rw [if_neg (by omega : ¬(seq_X.length = 0 ∨ seq_Y.length = 0)), htc]
  rfl

/-- When the last cell of the matrix holds the strictly largest value, the
row-major locator returns the last cell's indices. -/
theorem best_indices_last_cell (Z : List Int) (B : Int) (m : Nat)
    (hB : -1 < B)
    (hstrict : ∀ i j, i < m + 1 → j < m + 1 → ¬(i = m ∧ j = m) →
      Z.getD (i * (m + 1) + j) 0 < B)
    (hmax : Z.getD (m * (m + 1) + m) 0 = B) :
    best_linear_gap_smith_waterman_score_indices (m + 1) (m + 1) Z = some (m, m) := by
  unfold best_linear_gap_smith_waterman_score_indices
  rw [if_neg (by omega : ¬(m + 1 = 0 ∨ m + 1 = 0))]
  have hr : List.range (m + 1) = List.range m ++ [m] := List.range_succ m
  rw [hr, List.foldl_append, List.foldl_cons, List.foldl_nil]
  try dsimp only
  rw [List.foldl_append, List.foldl_cons, List.foldl_nil]
  try dsimp only
  split_ifs with hcond
  · rfl
  · exfalso
    apply hcond
    rw [hmax]
    apply foldl_preserves _ _ _ (fun st : Int × Nat × Nat => st.1 < B)
    · apply foldl_preserves _ _ _ (fun st : Int × Nat × Nat => st.1 < B)
      · exact hB
      · intro st i hi hst
        try dsimp only
        apply foldl_preserves _ _ _ (fun st : Int × Nat × Nat => st.1 < B) hst
        intro st2 j hj hst2
        try dsimp only
        split_ifs with hij
        · have hi2 : i < m := List.mem_range.mp hi
          have hj2 : j < m ∨ j = m := by simpa using hj
          exact hstrict i j (by omega) (by omega) (by omega)
        · exact hst2
    · intro st2 j hj hst2
      try dsimp only
      split_ifs with hij
      · have hj2 : j < m := List.mem_range.mp hj
        exact hstrict m j (by omega) (by omega) (by omega)
      · exact hst2

/-- Self-alignment traceback walk: with the diagonal holding 5k + 5 and the
sub-diagonal bounded, the walk from (i, i) takes the diagonal rule down to
(1, 1), emits the boundary column at (0, 0) through the break at the zero
diagonal predecessor check never firing before the boundary, and returns the
reversed self-zip of the prefix. -/
theorem traceColumns_self_diag (s : List Char) (Z : List Int)
    (hs5 : ∀ k, k < s.length → get_nuc_4_4 (s.getD k ' ') (s.getD k ' ') = 5)
    (hdiag : ∀ k, k < s.length → Z.getD (k * s.length + k) 0 = 5 * (k : Int) + 5)
    (hsub : ∀ k, k + 1 < s.length → Z.getD ((k + 1) * s.length + k) 0 ≤ 5 * (k : Int) + 5) :
    ∀ i, i < s.length → traceColumns s s Z get_nuc_4_4 16 i i
      = some (((s.take (i + 1)).zip (s.take (i + 1))).reverse, true, 0, 0) := by
  intro i
  induction i with
  | zero =>
    intro hi
    rw [traceColumns]
    rw [if_neg (by intro hc; rw [hdiag 0 hi] at hc; omega)]
    rw [dif_pos (Or.inl rfl)]
    cases s with
    | nil => simp at hi
    | cons a t => rfl
  | succ i ih =>
    intro hi
    rw [traceColumns]
    rw [if_neg (by intro hc; rw [hdiag (i + 1) hi] at hc; omega)]
    rw [dif_neg (by omega : ¬(i + 1 = 0 ∨ i + 1 = 0))]
    simp only [Nat.add_sub_cancel]
    rw [show (i + 1) * s.length + (i + 1) - 1 = (i + 1) * s.length + i from by omega]
    rw [if_neg (by
      intro hc
      have hb := hsub i hi
      rw [hdiag (i + 1) hi] at hc
      omega)]
    rw [if_pos (by
      rw [hdiag i (by omega), hs5 (i + 1) hi, hdiag (i + 1) hi]
      push_cast
      ring)]
    rw [if_neg (by intro hc; rw [hdiag i (by omega)] at hc; omega)]
    rw [ih (by omega), Option.map_some']
    rw [take_zip_snoc s (i + 1) hi, List.reverse_append]
    rfl

/-- Self-alignment trace extraction: once the walk is known to return the
reversed self-zip with a break, the wrapper writes, reverses and truncates the
buffers into two copies of the sequence itself. -/
theorem trace_self_eval (s : List Char) (Z : List Int) (garbage : Char) (hn : 0 < s.length)
    (htc : traceColumns s s Z get_nuc_4_4 16 (s.length - 1) (s.length - 1)
      = some ((s.zip s).reverse, true, 0, 0)) :
    trace_linear_gap_smith_waterman s s Z
      (List.replicate (s.length - 1 + (s.length - 1) + 3) garbage)
      (List.replicate (s.length - 1 + (s.length - 1) + 3) garbage)
      (s.length - 1) (s.length - 1) get_nuc_4_4 16 = some (s, s, 0, 0) := by
  have hsne : s ≠ [] := by intro h; rw [h] at hn; simp at hn
  have hrne : s.reverse ≠ [] := fun h => hsne (List.reverse_eq_nil_iff.mp h)
  have hzlen : ((s.zip s).reverse).length = s.length := by
    simp [List.length_zip]
  have hmapfst : ((s.zip s).reverse).map Prod.fst = s.reverse := by
    rw [List.map_reverse, List.map_fst_zip s s le_rfl]
  have hmapsnd : ((s.zip s).reverse).map Prod.snd = s.reverse := by
    rw [List.map_reverse, List.map_snd_zip s s le_rfl]
  rw [trace_linear_eval_brk s s Z _ _ _ _ get_nuc_4_4 16 ((s.zip s).reverse) 0 0
    (by omega) (by omega) htc]
  rw [hmapfst, hmapsnd, hzlen]
  have hext := trace_buffer_extract
    (List.replicate (s.length - 1 + (s.length - 1) + 3) garbage) s.reverse hrne
    (by simp only [List.length_reverse, List.length_replicate]; omega)
  rw [List.length_reverse, List.reverse_reverse] at hext
  rw [show s.length - 1 + 1 = s.length from by omega, hext]

/-- On the plain nucleotide alphabet, the diagonal substitution scores sum to
five per character. -/
theorem acgt_self_sum (s : List Char)
    (hs : ∀ c ∈ s, c = 'A' ∨ c = 'C' ∨ c = 'G' ∨ c = 'T') :
    (s.map (fun c => get_nuc_4_4 c c)).sum = 5 * (s.length : Int) := by
  induction s with
  | nil => simp
  | cons a t ih =>
    simp only [List.map_cons, List.sum_cons, List.length_cons]
    rw [nuc44_acgt_self a (hs a (List.mem_cons_self a t))]
    rw [ih (fun c hc => hs c (List.mem_cons_of_mem a hc))]
    push_cast
    ring

/-- Gap-free self-zip columns count as all-identical. -/
theorem count_loop_self : ∀ (s : List Char), (∀ c ∈ s, c ≠ '-') →
    count_mismatches_loop (s.zip s) = (s.length, 0, 0, 0) := by
  intro s
  induction s with
  | nil => intro _; rfl
  | cons a t ih =>
    intro hs2
    have hane := hs2 a (List.mem_cons_self a t)
    rw [show (a :: t).zip (a :: t) = (a, a) :: t.zip t from rfl]
    simp only [count_mismatches_loop]
    rw [if_pos trivial, if_neg hane]
    rw [ih (fun c hc => hs2 c (List.mem_cons_of_mem a hc))]
    rfl

/-- The mismatch counter on a sequence aligned with itself over the plain
nucleotide alphabet: every column identical, no gaps, no mismatches. -/
theorem count_self_acgt (s : List Char)
    (hs : ∀ c ∈ s, c = 'A' ∨ c = 'C' ∨ c = 'G' ∨ c = 'T') :
    count_mismatches s s = some (s.length, 0, 0, 0) := by
  unfold count_mismatches
  rw [if_pos rfl, count_loop_self s
    (fun c hc => by rcases hs c hc with rfl | rfl | rfl | rfl <;> decide)]

/-- Counterexample to claim C8 as stated: for the single-character nucleotide
sequence N (an IUPAC code, hence in the nucleotide alphabet), the NUC4.4
diagonal score s(N, N) is -1, so the matrix holds only max(0, -1) = 0, the
pipeline returns score 0 rather than the claimed diagonal sum -1, and the
trace strings hold one uninitialized buffer byte rather than the sequence
itself. -/
theorem C8_self_alignment_counterexample :
    (get_linear_gap_smith_waterman_score "N".toList "N".toList get_nuc_4_4 16 '?' =
      some (0, (0, 0), (0, 0), (['?'], ['?'])))
    ∧ ("N".toList.map (fun c => get_nuc_4_4 c c)).sum = -1
    ∧ (['?'] : List Char) ≠ "N".toList := by
  have htc : traceColumns "N".toList "N".toList (List.replicate 1 0) get_nuc_4_4 16 0 0
      = some ([], false, 0, 0) := by
    rw [traceColumns]
    decide
  refine ⟨?_, by decide, by decide⟩
  rw [get_linear_gap_sw_score_eval "N".toList "N".toList get_nuc_4_4 16 '?'
    (List.replicate 1 0) 0 0 (['?'], ['?'], 0, 0) (by decide) (by decide)
    (by unfold trace_linear_gap_smith_waterman; rw [htc]; decide)]
  decide

/-- Claim C8 (amended): for every non-empty sequence s over the plain
nucleotide alphabet A, C, G, T, with the NUC4.4 score function and gap
penalty 16, running the scoring kernel, best-cell locator and traceback with
seq_X = seq_Y = s yields trace_X = trace_Y = s, the best score equal to the
sum of the diagonal substitution scores of the characters of s, best cell
(n-1, n-1), start cell (0, 0), and the counter reports every column
identical with zero gaps and zero mismatches. -/
theorem C8_self_alignment_amended (s : List Char) (garbage : Char)
    (hne : s ≠ [])
    (hs : ∀ c ∈ s, c = 'A' ∨ c = 'C' ∨ c = 'G' ∨ c = 'T') :
    (get_linear_gap_smith_waterman_score s s get_nuc_4_4 16 garbage
      = some ((s.map (fun c => get_nuc_4_4 c c)).sum,
          (s.length - 1, s.length - 1), (0, 0), (s, s)))
    ∧ count_mismatches s s = some (s.length, 0, 0, 0) := by
  have hn : 0 < s.length := List.length_pos.mpr hne
  refine ⟨?_, count_self_acgt s hs⟩
  have hs5 : ∀ k, k < s.length → get_nuc_4_4 (s.getD k ' ') (s.getD k ' ') = 5 :=
    fun k hk => nuc44_acgt_self _ (hs _ (getD_mem_of_lt s k hk))
  have hdiag := sw_self_diag s hs
  have hbound := fun (i j : Nat) (hi : i < s.length) (hj : j < s.length) =>
    sw_self_bound s hs (i + j) i j le_rfl hi hj
  set Z : List Int := linear_gap_smith_waterman s s
    (List.replicate (s.length * s.length) 0) get_nuc_4_4 16 with hZdef
  have hstrict : ∀ i j, i < s.length → j < s.length →
      ¬(i = s.length - 1 ∧ j = s.length - 1) →
      Z.getD (i * s.length + j) 0 < 5 * (s.length : Int) := by
    intro i j hi hj hne2
    have h1 := (hbound i j hi hj).1
    have h2 := (hbound i j hi hj).2
    omega
  have hmax0 : Z.getD ((s.length - 1) * s.length + (s.length - 1)) 0
      = 5 * (s.length : Int) := by
    have hd := hdiag (s.length - 1) (by omega)
    omega
  obtain ⟨m, hm⟩ : ∃ m, s.length = m + 1 := ⟨s.length - 1, by omega⟩
  have hm1 : s.length - 1 = m := by omega
  have hbest : best_linear_gap_smith_waterman_score_indices s.length s.length Z
      = some (s.length - 1, s.length - 1) := by
    have hstrictm := hstrict
    have hmaxm := hmax0
    rw [hm1] at hstrictm hmaxm
    rw [hm] at hstrictm hmaxm
    rw [hm1, hm]
    exact best_indices_last_cell Z (5 * ((m + 1 : Nat) : Int)) m (by omega) hstrictm hmaxm
  have hsubZ : ∀ k, k + 1 < s.length → Z.getD ((k + 1) * s.length + k) 0
      ≤ 5 * (k : Int) + 5 :=
    fun k hk => (hbound (k + 1) k hk (by omega)).2
  have htc := traceColumns_self_diag s Z hs5 hdiag hsubZ (s.length - 1) (by omega)
  rw [show s.length - 1 + 1 = s.length from by omega, List.take_length] at htc
  have htr := trace_self_eval s Z garbage hn htc
  rw [get_linear_gap_sw_score_eval s s get_nuc_4_4 16 garbage Z
    (s.length - 1) (s.length - 1) (s, s, 0, 0) hZdef.symm hbest htr]
  rw [hmax0, acgt_self_sum s hs]

/-- Witness for C8_self_alignment_amended at the sequence ACGT: score 20,
best cell (3, 3), start (0, 0), both trace strings equal to ACGT, and
counter (4, 0, 0, 0). -/
theorem C8_self_alignment_amended_witness :
    (("ACGT".toList : List Char) ≠ [] ∧
      ∀ c ∈ "ACGT".toList, c = 'A' ∨ c = 'C' ∨ c = 'G' ∨ c = 'T') ∧
    ((get_linear_gap_smith_waterman_score "ACGT".toList "ACGT".toList get_nuc_4_4 16 '?'
        = some (("ACGT".toList.map (fun c => get_nuc_4_4 c c)).sum,
            ("ACGT".toList.length - 1, "ACGT".toList.length - 1), (0, 0),
            ("ACGT".toList, "ACGT".toList)))
      ∧ count_mismatches "ACGT".toList "ACGT".toList
        = some ("ACGT".toList.length, 0, 0, 0)) :=
  ⟨⟨by decide, by decide⟩,
    C8_self_alignment_amended "ACGT".toList '?' (by decide) (by decide)⟩
